import Mathlib

/-!
Open (amigazen): a shallow embedding of `Source/open.c`

The program is a sequence of calls into the host operating system (dos.library,
workbench.library, icon.library, datatypes.library, intuition.library).  The embedding
makes every such call explicit:

* C strings are lists of characters (`CStr`); a nullable `STRPTR` is an `Option CStr`.
* A lock (`BPTR`) and a screen pointer are natural numbers, `0` being `NULL`.
* The host is a record `Host` of oracles.  Every oracle receives the `World` at the moment
  of the call (the chronological trace of all earlier calls and the current directory), so
  a host may answer the same call differently at different times.
* Every host call appends one `Event` to the trace.  Entering one of the program's own
  functions appends an `Event.Enter` marker, so that "function f was (not) called" is a
  property of the trace.
* `AllocMem`/`AllocVec` are taken to succeed; heap contents are not modelled.
* The library bases are fields of `Host`.  `InitializeLibraries` and `Cleanup` return the
  host with the bases as they leave them, and `main` runs the items on the host
  `InitializeLibraries` returns.  `main` takes how the program was started (`Startup`): the
  argument list of the Workbench message, or what `ReadArgs` returns.
* The result of a host call that the program reads only as zero or non-zero (`BOOL`, `ULONG`)
  is a `Bool`.  The `ULONG` result of `LaunchToolA` is a number below `2^32`, because line
  883 stores it in a `BOOL` variable, which keeps only the low word (`toBOOL`).
* `fileName` is never `NULL` at the calls `main` makes, so it is a `CStr` and the `!fileName`
  guards are left out; the guards on the library bases and on locks are kept.
* A `tool` pointer in `OpenDataFile` is compared with `defIconsTool` and `iconTool` by
  address.  The four possible origins of a non-NULL `tool` are distinct memory blocks, so the
  pointer is modelled as the string together with its origin (`Origin`).
-/

namespace Open

/-! ## Data model -/

/-- A NUL-terminated C string. -/
abbrev CStr := List Char

/-- The test `p && *p` on a nullable C string. -/
def nonEmpty : Option CStr → Bool
  | some (_ :: _) => true
  | _ => false

/-- Tool type constants, lines 33-39. -/
def TW_INFO : Nat := 1
def TW_BROWSE : Nat := 2
def TW_EDIT : Nat := 3
def TW_PRINT : Nat := 4
def TW_MAIL : Nat := 5

/-- Values of `dos/dos.h`. -/
def RETURN_OK : Int := 0
def RETURN_FAIL : Int := 20
def ERROR_OBJECT_NOT_FOUND : Int := 205
def FIBF_EXECUTE : Nat := 2

/-- Values of `dos/dosextens.h`. -/
def ST_ROOT : Int := 1
def ST_USERDIR : Int := 2
def ST_SOFTLINK : Int := 3
def ST_LINKDIR : Int := 4
def ST_FILE : Int := -3
def ST_LINKFILE : Int := -4

/-- Value of `workbench/workbench.h`. -/
def DDFLAGS_SHOWALL : Nat := 2

/-- The part of `struct FileInfoBlock` the program reads. -/
structure FileInfoBlock where
  fib_DirEntryType : Int
  fib_Protection : Nat
deriving DecidableEq, Repr

/-- The `struct Tool` of datatypes.library. -/
structure Tool where
  tn_Which : Nat
  tn_Flags : Nat
  tn_Program : Option CStr
deriving DecidableEq, Repr

/-- The `struct ToolNode` of datatypes.library (list linkage left out). -/
structure ToolNode where
  tn_Tool : Tool
deriving DecidableEq, Repr

/-- A format-registry entry (`struct DataType`): an identity and its tool list. -/
structure DataType where
  id : Nat
  dtn_ToolList : List ToolNode
deriving DecidableEq, Repr

/-- The part of `struct DiskObject` the program reads. -/
structure DiskObject where
  do_DefaultTool : Option CStr
deriving DecidableEq, Repr

/-- The tag items the program passes to `OpenWorkbenchObjectA`. -/
inductive TagItem where
  | WBOPENA_Show (flags : Nat)
  | WBOPENA_ArgLock (lock : Nat)
  | WBOPENA_ArgName (name : CStr)
deriving DecidableEq, Repr

/-- The program's own functions whose entry is recorded in the trace. -/
inductive Func where
  | OpenDrawer
  | OpenExecutable
  | OpenInfoFile
  | OpenDataFile
  | GetDefIconsTypeIdentifier
  | GetDefIconsDefaultTool
  | GetDatatypesTool
  | GetDatatypesToolNode
  | GetIconDefaultTool
deriving DecidableEq, Repr

/-- One observable step: a host call with its arguments and its result, or a marker. -/
inductive Event where
  | Enter (f : Func)
  | Lock (name : CStr) (result : Nat)
  | UnLock (lock : Nat)
  | ParentDir (lock : Nat) (result : Nat)
  | Examine (lock : Nat) (result : Option FileInfoBlock)
  | CurrentDir (lock : Nat) (old : Nat)
  | SetIoErr (code : Int)
  | Printf (fmt : String) (args : List CStr)
  | PrintFault (code : Int) (header : String)
  | OpenWorkbenchObjectA (name : CStr) (tags : List TagItem) (result : Bool)
  | LockPubScreen (name : Option CStr) (result : Nat)
  | UnlockPubScreen (screen : Nat)
  | WBInfo (lock : Nat) (name : CStr) (screen : Nat) (result : Bool)
  | FindPort (name : CStr) (result : Bool)
  | GetIconTagList (name : CStr) (icon : Bool) (typeBuffer : CStr) (errorCode : Int)
  | GetDiskObject (name : CStr) (result : Option DiskObject)
  | FreeDiskObject
  | ObtainDataTypeA (lock : Nat) (result : Option DataType)
  | ReleaseDataType (dtn : DataType)
  | LaunchToolA (tool : Tool) (fileName : CStr) (result : Nat)
  | OpenLibrary (name : CStr) (version : Nat) (result : Bool)
  | CloseLibrary (name : CStr)
  | ReadArgs (result : Bool)
  | FreeArgs
  | NameFromLock (lock : Nat) (result : Option CStr)
deriving DecidableEq, Repr

/-- The state threaded through the program: the trace so far and the current directory. -/
structure World where
  trace : List Event
  curDir : Nat
deriving DecidableEq, Repr

/-- Append one event to the trace. -/
def World.emit (w : World) (e : Event) : World :=
  { w with trace := w.trace ++ [e] }

/-- Change the current directory. -/
def World.setDir (w : World) (dir : Nat) : World :=
  { w with curDir := dir }

/-- The host: the library bases set up by `InitializeLibraries` and one oracle per host call
whose result the program reads. -/
structure Host where
  SysBase : Bool
  IntuitionBase : Bool
  UtilityBase : Bool
  WorkbenchBase : Bool
  DataTypesBase : Bool
  IconBase : Bool
  onLock : World → CStr → Nat
  onIoErr : World → Int
  onParentDir : World → Nat → Nat
  onExamine : World → Nat → Option FileInfoBlock
  onOpenWorkbenchObjectA : World → CStr → List TagItem → Bool
  onLockPubScreen : World → Option CStr → Nat
  onWBInfo : World → Nat → CStr → Nat → Bool
  onFindPort : World → CStr → Bool
  onGetIconTagList : World → CStr → Bool × CStr × Int
  onGetDiskObject : World → CStr → Option DiskObject
  onObtainDataTypeA : World → Nat → Option DataType
  onLaunchToolA : World → Tool → CStr → Nat
  onOpenLibrary : World → CStr → Nat → Bool
  onNameFromLock : World → Nat → Option CStr

/-! ## Host calls -/

def Enter (f : Func) (w : World) : World := w.emit (.Enter f)

def Lock (h : Host) (name : CStr) (w : World) : Nat × World :=
  (h.onLock w name, w.emit (.Lock name (h.onLock w name)))

def UnLock (lock : Nat) (w : World) : World := w.emit (.UnLock lock)

def IoErr (h : Host) (w : World) : Int := h.onIoErr w

def SetIoErr (code : Int) (w : World) : World := w.emit (.SetIoErr code)

def ParentDir (h : Host) (lock : Nat) (w : World) : Nat × World :=
  (h.onParentDir w lock, w.emit (.ParentDir lock (h.onParentDir w lock)))

def Examine (h : Host) (lock : Nat) (w : World) : Option FileInfoBlock × World :=
  (h.onExamine w lock, w.emit (.Examine lock (h.onExamine w lock)))

/-- The call `CurrentDir(lock)`: makes `lock` the current directory, returns the old one. -/
def CurrentDir (lock : Nat) (w : World) : Nat × World :=
  (w.curDir, (w.emit (.CurrentDir lock w.curDir)).setDir lock)

def Printf (fmt : String) (args : List CStr) (w : World) : World := w.emit (.Printf fmt args)

def PrintFault (code : Int) (header : String) (w : World) : World :=
  w.emit (.PrintFault code header)

def OpenWorkbenchObjectA (h : Host) (name : CStr) (tags : List TagItem) (w : World) :
    Bool × World :=
  (h.onOpenWorkbenchObjectA w name tags,
    w.emit (.OpenWorkbenchObjectA name tags (h.onOpenWorkbenchObjectA w name tags)))

def LockPubScreen (h : Host) (name : Option CStr) (w : World) : Nat × World :=
  (h.onLockPubScreen w name, w.emit (.LockPubScreen name (h.onLockPubScreen w name)))

def UnlockPubScreen (screen : Nat) (w : World) : World := w.emit (.UnlockPubScreen screen)

def WBInfo (h : Host) (lock : Nat) (name : CStr) (screen : Nat) (w : World) : Bool × World :=
  (h.onWBInfo w lock name screen, w.emit (.WBInfo lock name screen (h.onWBInfo w lock name screen)))

def FindPort (h : Host) (name : CStr) (w : World) : Bool × World :=
  (h.onFindPort w name, w.emit (.FindPort name (h.onFindPort w name)))

def GetIconTagList (h : Host) (name : CStr) (w : World) : (Bool × CStr × Int) × World :=
  (h.onGetIconTagList w name,
    w.emit (.GetIconTagList name (h.onGetIconTagList w name).1 (h.onGetIconTagList w name).2.1
      (h.onGetIconTagList w name).2.2))

def GetDiskObject (h : Host) (name : CStr) (w : World) : Option DiskObject × World :=
  (h.onGetDiskObject w name, w.emit (.GetDiskObject name (h.onGetDiskObject w name)))

def FreeDiskObject (w : World) : World := w.emit .FreeDiskObject

def ObtainDataTypeA (h : Host) (lock : Nat) (w : World) : Option DataType × World :=
  (h.onObtainDataTypeA w lock, w.emit (.ObtainDataTypeA lock (h.onObtainDataTypeA w lock)))

def ReleaseDataType (dtn : DataType) (w : World) : World := w.emit (.ReleaseDataType dtn)

/-- The call `LaunchToolA(tool, fileName, tags)`: its result is a `ULONG`. -/
def LaunchToolA (h : Host) (tool : Tool) (fileName : CStr) (w : World) : Nat × World :=
  (h.onLaunchToolA w tool fileName % 4294967296,
    w.emit (.LaunchToolA tool fileName (h.onLaunchToolA w tool fileName % 4294967296)))

def OpenLibrary (h : Host) (name : CStr) (version : Nat) (w : World) : Bool × World :=
  (h.onOpenLibrary w name version, w.emit (.OpenLibrary name version (h.onOpenLibrary w name version)))

def CloseLibrary (name : CStr) (w : World) : World := w.emit (.CloseLibrary name)

def FreeArgs (w : World) : World := w.emit .FreeArgs

/-- The call `GetCurrentDir()`: the lock of the current directory. -/
def GetCurrentDir (w : World) : Nat := w.curDir

def NameFromLock (h : Host) (lock : Nat) (w : World) : Option CStr × World :=
  (h.onNameFromLock w lock, w.emit (.NameFromLock lock (h.onNameFromLock w lock)))

/-! ## Pure library functions -/

/-- The value of a `ULONG` stored in a `BOOL` variable (a 16-bit `short`), read as a truth
value: the low word is kept, and it is true iff it is not zero. -/
def toBOOL (x : Nat) : Bool := decide (x % 65536 ≠ 0)

/-- The result of utility.library `Stricmp`, as far as the program reads it: `0` iff the two
strings are equal ignoring letter case. -/
def Stricmp (a b : CStr) : Int :=
  if a.map Char.toLower = b.map Char.toLower then 0 else 1

/-- The utility.library `Strncpy(dst, src, size)`: at most `size - 1` characters are copied and
the destination is always NUL-terminated. -/
def Strncpy (src : CStr) (size : Nat) : CStr := src.take (size - 1)

/-- Worker of `FilePart`: `acc` is the component after the last separator seen so far. -/
def FilePartAux : CStr → CStr → CStr
  | [], acc => acc
  | c :: cs, acc => if c = '/' ∨ c = ':' then FilePartAux cs cs else FilePartAux cs acc

/-- The dos.library `FilePart`: the last component of a path, i.e. what follows the last
`/` or `:`. -/
def FilePart (path : CStr) : CStr := FilePartAux path path

/-- Worker of `strrchr`: `acc` is the suffix starting at the last occurrence seen so far. -/
def strrchrAux (ch : Char) : CStr → Option CStr → Option CStr
  | [], acc => acc
  | c :: cs, acc => if c = ch then strrchrAux ch cs (some (c :: cs)) else strrchrAux ch cs acc

/-- The C `strrchr`: the suffix starting at the last occurrence of `ch`, if any. -/
def strrchr (s : CStr) (ch : Char) : Option CStr := strrchrAux ch s none

/-- The datatypes.library `FindToolNodeA` with the single tag `TOOLA_Which`: the first node
of the list whose tool is of the requested kind. -/
def FindToolNodeA (toolList : List ToolNode) (which : Nat) : Option ToolNode :=
  toolList.find? (fun tn => tn.tn_Tool.tn_Which == which)

/-! ## File classifier (lines 465-589) -/

/-- Binary asset extensions to skip, lines 90-98. -/
def binaryAssets : List CStr :=
  [".library".toList, ".device".toList, ".resource".toList, ".font".toList, ".hunk".toList,
    ".o".toList]

/-- Source `IsDrawer`, lines 466-489. -/
def IsDrawer (h : Host) (_fileName : CStr) (fileLock : Nat) (w : World) : Bool × World :=
  if fileLock = 0 then (false, w)
  else
    match (Examine h fileLock w).1 with
    | some fib => (decide (fib.fib_DirEntryType = ST_USERDIR), (Examine h fileLock w).2)
    | none => (false, (Examine h fileLock w).2)

/-- Source `IsExecutable`, lines 492-526. -/
def IsExecutable (h : Host) (fileName : CStr) (fileLock : Nat) (w : World) : Bool × World :=
  if fileLock = 0 then (false, w)
  else
    match (Examine h fileLock w).1 with
    | some fib =>
      if fib.fib_DirEntryType = ST_FILE then
        if Nat.land fib.fib_Protection FIBF_EXECUTE ≠ 0 then (true, (Examine h fileLock w).2)
        else (decide (fileName.take 2 = "C:".toList), (Examine h fileLock w).2)
      else (false, (Examine h fileLock w).2)
    | none => (false, (Examine h fileLock w).2)

/-- Source `IsBinaryAsset`, lines 529-560. -/
def IsBinaryAsset (fileName : CStr) : Bool :=
  match strrchr (FilePart fileName) '.' with
  | none => false
  | some ext => binaryAssets.any (fun asset => decide (Stricmp ext asset = 0))

/-- Source `IsInfoFile`, lines 563-589. -/
def IsInfoFile (fileName : CStr) : Bool :=
  if (FilePart fileName).length > 5 then
    decide (Stricmp ((FilePart fileName).drop ((FilePart fileName).length - 5)) ".info".toList = 0)
  else false

/-! ## Folder, executable and icon-info actions (lines 591-768) -/

/-- Source `OpenDrawer`, lines 592-628. -/
def OpenDrawer (h : Host) (drawerPath : CStr) (showAll : Bool) (w0 : World) : Bool × World :=
  let w := Enter .OpenDrawer w0
  if !h.WorkbenchBase then (false, w)
  else
    let tags := if showAll then [TagItem.WBOPENA_Show DDFLAGS_SHOWALL] else []
    let r := OpenWorkbenchObjectA h drawerPath tags (SetIoErr 0 w)
    let errorCode := IoErr h r.2
    if !r.1 ∨ errorCode ≠ 0 then
      let w1 := Printf "Open: Failed to open drawer: %s\n" [drawerPath] r.2
      (false, if errorCode ≠ 0 then PrintFault errorCode "Open" w1 else w1)
    else (true, r.2)

/-- Source `OpenExecutable`, lines 631-659. -/
def OpenExecutable (h : Host) (execPath : CStr) (w0 : World) : Bool × World :=
  let w := Enter .OpenExecutable w0
  if !h.WorkbenchBase then (false, w)
  else
    let r := OpenWorkbenchObjectA h execPath [] (SetIoErr 0 w)
    let errorCode := IoErr h r.2
    if !r.1 ∨ errorCode ≠ 0 then
      let w1 := Printf "Open: Failed to launch executable: %s\n" [execPath] r.2
      (false, if errorCode ≠ 0 then PrintFault errorCode "Open" w1 else w1)
    else (true, r.2)

/-- The icon name computed in `OpenInfoFile`, lines 682-702: the file part without its last
five characters when it ends in `.info`, the file part as it is otherwise. -/
def OpenInfoFile.iconName (fileName : CStr) : CStr :=
  let filePart := FilePart fileName
  let nameLen := filePart.length
  if nameLen > 5 ∧ Stricmp (filePart.drop (nameLen - 5)) ".info".toList = 0 then
    (Strncpy filePart (nameLen - 4)).take (nameLen - 5)
  else filePart

/-- Source `OpenInfoFile`, lines 662-768. -/
def OpenInfoFile (h : Host) (fileName : CStr) (fileLock : Nat) (w0 : World) : Bool × World :=
  let w := Enter .OpenInfoFile w0
  if fileLock = 0 ∨ !h.WorkbenchBase ∨ !h.IntuitionBase then (false, w)
  else
    let iconName := OpenInfoFile.iconName fileName
    let p := ParentDir h fileLock w
    if p.1 = 0 then
      (false, Printf "Open: Cannot get parent directory for: %s\n" [fileName] p.2)
    else
      let s1 := LockPubScreen h (some "Workbench".toList) p.2
      let s := if s1.1 = 0 then LockPubScreen h none s1.2 else s1
      if s.1 = 0 then
        (false, Printf "Open: Failed to get Workbench screen\n" [] (UnLock p.1 s.2))
      else
        let r := WBInfo h p.1 iconName s.1 (SetIoErr 0 s.2)
        let w1 :=
          if !r.1 then
            let wbError := IoErr h r.2
            let w2 := Printf "Open: Icon name used: %s\n" [iconName]
              (Printf "Open: WBInfo failed for: %s\n" [fileName] r.2)
            if wbError ≠ 0 then PrintFault wbError "Open" w2 else w2
          else r.2
        (r.1, UnLock p.1 (UnlockPubScreen s.1 w1))

/-- The parent lock `OpenInfoFile` obtains, line 708, when it gets that far. -/
def OpenInfoFile.parentLock (h : Host) (fileLock : Nat) (w0 : World) : Nat :=
  (ParentDir h fileLock (Enter .OpenInfoFile w0)).1

/-- The screen `OpenInfoFile` locks, lines 720-724, when it gets that far: the Workbench
screen, or else the default public screen. -/
def OpenInfoFile.screen (h : Host) (fileLock : Nat) (w0 : World) : Nat :=
  let p := ParentDir h fileLock (Enter .OpenInfoFile w0)
  let s1 := LockPubScreen h (some "Workbench".toList) p.2
  if s1.1 = 0 then (LockPubScreen h none s1.2).1 else s1.1

/-! ## Tool sources (lines 941-1261) -/

/-- Source `IsDefIconsRunning`, lines 942-956. -/
def IsDefIconsRunning (h : Host) (w : World) : Bool × World :=
  if !h.SysBase then (false, w) else FindPort h "DEFICONS".toList w

/-- Source `GetDefIconsTypeIdentifier`, lines 959-1000. -/
def GetDefIconsTypeIdentifier (h : Host) (fileName : CStr) (fileLock : Nat) (w0 : World) :
    Option CStr × World :=
  let w := Enter .GetDefIconsTypeIdentifier w0
  if !h.IconBase then (none, w)
  else
    let c : Nat × World := if fileLock ≠ 0 then CurrentDir fileLock w else (0, w)
    let g := GetIconTagList h fileName c.2
    let w1 := if g.1.1 then FreeDiskObject g.2 else g.2
    let w2 := if c.1 ≠ 0 then (CurrentDir c.1 w1).2 else w1
    if g.1.2.2 = 0 ∧ g.1.2.1 ≠ [] then (some g.1.2.1, w2) else (none, w2)

/-- One lookup of `GetDefIconsDefaultTool` (lines 1017-1022, and 1024-1029): lock the
folder, make it current, read the descriptor, restore the directory, unlock. -/
def GetDefIconsDefaultTool.lookup (h : Host) (dir : CStr) (defIconName : CStr) (w : World) :
    Option DiskObject × World :=
  let l := Lock h dir w
  if l.1 ≠ 0 then
    let c := CurrentDir l.1 l.2
    let g := GetDiskObject h defIconName c.2
    (g.1, UnLock l.1 (CurrentDir c.1 g.2).2)
  else (none, l.2)

/-- Source `GetDefIconsDefaultTool`, lines 1003-1051. -/
def GetDefIconsDefaultTool (h : Host) (typeIdentifier : CStr) (w0 : World) :
    Option CStr × World :=
  let w := Enter .GetDefIconsDefaultTool w0
  if !h.IconBase ∨ typeIdentifier = [] then (none, w)
  else
    let defIconName := ("def_".toList ++ typeIdentifier).take 63
    let d1 := GetDefIconsDefaultTool.lookup h "ENV:Sys".toList defIconName w
    let d2 :=
      if d1.1 = none then GetDefIconsDefaultTool.lookup h "ENVARC:Sys".toList defIconName d1.2
      else d1
    match d2.1 with
    | some defaultIcon =>
      (match defaultIcon.do_DefaultTool with
        | some (c :: cs) =>
          some (Strncpy (Strncpy (c :: cs) 256) ((c :: cs).length + 1))
        | _ => none,
       FreeDiskObject d2.2)
    | none => (none, d2.2)

/-- The tool order of `GetDatatypesTool`, lines 1072-1098. -/
def GetDatatypesTool.toolOrder (preferredTool : Nat) : List Nat :=
  if preferredTool = TW_BROWSE then [TW_BROWSE, TW_EDIT, TW_INFO]
  else if preferredTool = TW_EDIT then [TW_EDIT, TW_BROWSE, TW_INFO]
  else if preferredTool = TW_INFO then [TW_INFO, TW_BROWSE, TW_EDIT]
  else if preferredTool = TW_PRINT then [TW_PRINT, TW_BROWSE, TW_EDIT]
  else if preferredTool = TW_MAIL then [TW_MAIL, TW_BROWSE, TW_EDIT]
  else [TW_BROWSE, TW_EDIT, TW_INFO]

/-- The ranked search of `GetDatatypesTool`, lines 1100-1118: the loop over the tool order,
left at the first node found that has a non-empty program name. -/
def GetDatatypesTool.ranked (toolList : List ToolNode) : List Nat → Option CStr
  | [] => none
  | which :: rest =>
    match FindToolNodeA toolList which with
    | some tn =>
      if nonEmpty tn.tn_Tool.tn_Program then tn.tn_Tool.tn_Program
      else GetDatatypesTool.ranked toolList rest
    | none => GetDatatypesTool.ranked toolList rest

/-- The manual search of `GetDatatypesTool`, lines 1120-1135: the program name of the first
node of the list that has a non-empty one. -/
def GetDatatypesTool.manual (toolList : List ToolNode) : Option CStr :=
  match toolList.find? (fun tn => nonEmpty tn.tn_Tool.tn_Program) with
  | some tn => tn.tn_Tool.tn_Program
  | none => none

/-- Source `GetDatatypesTool`, lines 1054-1140. -/
def GetDatatypesTool (h : Host) (_fileName : CStr) (fileLock : Nat) (preferredTool : Nat)
    (w0 : World) : Option CStr × World :=
  let w := Enter .GetDatatypesTool w0
  if !h.DataTypesBase ∨ fileLock = 0 then (none, w)
  else
    let o := ObtainDataTypeA h fileLock w
    match o.1 with
    | none => (none, o.2)
    | some dtn =>
      let tool := GetDatatypesTool.ranked dtn.dtn_ToolList (GetDatatypesTool.toolOrder preferredTool)
      (if tool = none then GetDatatypesTool.manual dtn.dtn_ToolList else tool,
        ReleaseDataType dtn o.2)

/-- The tool order of `GetDatatypesToolNode`, lines 1162-1188. -/
def GetDatatypesToolNode.toolOrder (preferredTool : Nat) : List Nat :=
  if preferredTool = TW_BROWSE then [TW_BROWSE, TW_EDIT, TW_INFO]
  else if preferredTool = TW_EDIT then [TW_EDIT, TW_BROWSE, TW_INFO]
  else if preferredTool = TW_INFO then [TW_INFO, TW_BROWSE, TW_EDIT]
  else if preferredTool = TW_PRINT then [TW_PRINT, TW_BROWSE, TW_EDIT]
  else if preferredTool = TW_MAIL then [TW_MAIL, TW_BROWSE, TW_EDIT]
  else [TW_BROWSE, TW_EDIT, TW_INFO]

/-- The ranked search of `GetDatatypesToolNode`, lines 1190-1205.  The second argument is the
value of the variable `tn` on entry to the iteration.  The result is `Sum.inl tn` when the
loop returns the node `tn`, and `Sum.inr tn` when the loop runs to its end, `tn` being the
value the variable is left with. -/
def GetDatatypesToolNode.ranked (toolList : List ToolNode) :
    List Nat → Option ToolNode → ToolNode ⊕ Option ToolNode
  | [], tn => Sum.inr tn
  | which :: rest, _ =>
    match FindToolNodeA toolList which with
    | some tn =>
      if nonEmpty tn.tn_Tool.tn_Program then Sum.inl tn
      else GetDatatypesToolNode.ranked toolList rest (some tn)
    | none => GetDatatypesToolNode.ranked toolList rest none

/-- Source `GetDatatypesToolNode`, lines 1143-1223.  The result is the returned node and the
value left in `*dtnOut` (`dtn` of the caller, which is `NULL` before the call). -/
def GetDatatypesToolNode (h : Host) (_fileName : CStr) (fileLock : Nat) (preferredTool : Nat)
    (w0 : World) : (Option ToolNode × Option DataType) × World :=
  let w := Enter .GetDatatypesToolNode w0
  if !h.DataTypesBase ∨ fileLock = 0 then ((none, none), w)
  else
    let o := ObtainDataTypeA h fileLock w
    match o.1 with
    | none => ((none, none), o.2)
    | some dtn =>
      match GetDatatypesToolNode.ranked dtn.dtn_ToolList
          (GetDatatypesToolNode.toolOrder preferredTool) none with
      | Sum.inl tn => ((some tn, some dtn), o.2)
      | Sum.inr (some _) => ((none, none), ReleaseDataType dtn o.2)
      | Sum.inr none =>
        match dtn.dtn_ToolList.find? (fun tn => nonEmpty tn.tn_Tool.tn_Program) with
        | some tn => ((some tn, some dtn), o.2)
        | none => ((none, none), ReleaseDataType dtn o.2)

/-- Source `GetIconDefaultTool`, lines 1226-1261. -/
def GetIconDefaultTool (h : Host) (fileName : CStr) (fileLock : Nat) (w0 : World) :
    Option CStr × World :=
  let w := Enter .GetIconDefaultTool w0
  if !h.IconBase ∨ fileLock = 0 then (none, w)
  else
    let p := ParentDir h fileLock w
    if p.1 ≠ 0 then
      let c := CurrentDir p.1 p.2
      let g := GetDiskObject h (FilePart fileName) c.2
      let w1 := (CurrentDir c.1 g.2).2
      match g.1 with
      | some icon =>
        (match icon.do_DefaultTool with
          | some (a :: as) => some (Strncpy (a :: as) ((a :: as).length + 1))
          | _ => none,
         UnLock p.1 (FreeDiskObject w1))
      | none => (none, UnLock p.1 w1)
    else (none, p.2)

/-! ## Data files: resolution and launch (lines 770-939) -/

/-- Where a non-NULL `tool` pointer of `OpenDataFile` points: the caller's `forceTool`, or the
block returned by one of the three sources. -/
inductive Origin where
  | forced
  | defIcons
  | datatypes
  | icon
deriving DecidableEq, Repr

/-- A non-NULL `tool` pointer: the block it points to and the string stored there. -/
structure ToolPtr where
  origin : Origin
  str : CStr
deriving DecidableEq, Repr

/-- The assignment `if (p && *p) tool = p;` for a source variable `p` of origin `o`. -/
def assignTool (o : Origin) (p : Option CStr) (tool : Option ToolPtr) : Option ToolPtr :=
  match p with
  | some (c :: cs) => some ⟨o, c :: cs⟩
  | _ => tool

/-- The address comparison `tool == p` for a source variable `p` of origin `o`: two NULL
pointers are equal, two non-NULL pointers are equal iff `tool` was assigned from `p`. -/
def samePtr (tool : Option ToolPtr) (o : Origin) (p : Option CStr) : Bool :=
  match tool, p with
  | none, none => true
  | some t, some _ => t.origin == o
  | _, _ => false

/-- The local variables of `OpenDataFile` that are live after the resolution part. -/
structure Locals where
  tool : Option ToolPtr
  defIconsTool : Option CStr
  datatypesTool : Option CStr
  iconTool : Option CStr
  preferredTool : Nat
deriving DecidableEq, Repr

/-- The preferred tool type of `OpenDataFile`, lines 781 and 791-802. -/
def OpenDataFile.preferredTool (forceBrowse forceEdit forceInfo forcePrint forceMail : Bool) :
    Nat :=
  if forceBrowse then TW_BROWSE
  else if forceEdit then TW_EDIT
  else if forceInfo then TW_INFO
  else if forcePrint then TW_PRINT
  else if forceMail then TW_MAIL
  else TW_BROWSE

/-- The DefIcons step of `OpenDataFile`, lines 804-818: the value left in `defIconsTool`. -/
def OpenDataFile.defIconsStep (h : Host) (fileName : CStr) (fileLock : Nat) (w : World) :
    Option CStr × World :=
  let r : Bool × World := if h.IconBase then IsDefIconsRunning h w else (false, w)
  if r.1 then
    let p := ParentDir h fileLock r.2
    if p.1 ≠ 0 then
      let t := GetDefIconsTypeIdentifier h (FilePart fileName) p.1 p.2
      match t.1 with
      | some (c :: cs) =>
        let d := GetDefIconsDefaultTool h (c :: cs) t.2
        (d.1, UnLock p.1 d.2)
      | _ => (none, UnLock p.1 t.2)
    else (none, p.2)
  else (none, r.2)

/-- The registry step of `OpenDataFile` as it runs when the DefIcons step left no tool, lines
820-827: the value left in `datatypesTool`. -/
def OpenDataFile.registryStep (h : Host) (fileName : CStr) (fileLock preferredTool : Nat)
    (w : World) : Option CStr × World :=
  if h.DataTypesBase = true then GetDatatypesTool h fileName fileLock preferredTool w
  else (none, w)

/-- The resolution part of `OpenDataFile`, lines 787-836. -/
def OpenDataFile.resolve (h : Host) (fileName : CStr) (fileLock : Nat) (forceTool : Option CStr)
    (forceBrowse forceEdit forceInfo forcePrint forceMail : Bool) (w : World) :
    Locals × World :=
  if nonEmpty forceTool then
    ({ tool := assignTool .forced forceTool none, defIconsTool := none, datatypesTool := none,
       iconTool := none, preferredTool := TW_BROWSE }, w)
  else
    let preferredTool :=
      OpenDataFile.preferredTool forceBrowse forceEdit forceInfo forcePrint forceMail
    let d := OpenDataFile.defIconsStep h fileName fileLock w
    let tool1 := assignTool .defIcons d.1 none
    let g : Option CStr × World :=
      if tool1 = none ∧ h.DataTypesBase then GetDatatypesTool h fileName fileLock preferredTool d.2
      else (none, d.2)
    let tool2 := assignTool .datatypes g.1 tool1
    let i : Option CStr × World :=
      if tool2 = none then GetIconDefaultTool h fileName fileLock g.2 else (none, g.2)
    ({ tool := assignTool .icon i.1 tool2, defIconsTool := d.1, datatypesTool := g.1,
       iconTool := i.1, preferredTool := preferredTool }, i.2)

/-- The launch through `OpenWorkbenchObjectA` in `OpenDataFile`, lines 842-868 and, with the
same text, lines 893-918: the value left in `success`. -/
def OpenDataFile.launchByName (h : Host) (fileName : CStr) (tool : CStr) (w : World) :
    Bool × World :=
  let l := Lock h fileName w
  if l.1 ≠ 0 then
    let p := ParentDir h l.1 l.2
    if p.1 ≠ 0 then
      let tags := [TagItem.WBOPENA_ArgLock p.1, TagItem.WBOPENA_ArgName (FilePart fileName)]
      let r := OpenWorkbenchObjectA h tool tags (SetIoErr 0 p.2)
      let w1 :=
        if !r.1 ∨ IoErr h r.2 ≠ 0 then
          let w2 := Printf "Open: Failed to launch tool: %s\n" [tool] r.2
          PrintFault (IoErr h w2) "Open" w2
        else r.2
      (r.1, UnLock l.1 (UnLock p.1 w1))
    else (false, UnLock l.1 p.2)
  else (false, l.2)

/-- The lock of the file the launch by name takes again, line 847 (and 897). -/
def OpenDataFile.launchLock (h : Host) (fileName : CStr) (w : World) : Nat :=
  (Lock h fileName w).1

/-- The parent lock the launch by name obtains, line 850 (and 900), when it gets that far. -/
def OpenDataFile.launchParent (h : Host) (fileName : CStr) (w : World) : Nat :=
  (ParentDir h (Lock h fileName w).1 (Lock h fileName w).2).1

/-- The launch through `LaunchToolA` in `OpenDataFile`, lines 878-890: the value left in
`success`, a `BOOL` that line 883 assigns the `ULONG` result of `LaunchToolA` to. -/
def OpenDataFile.launchByNode (h : Host) (fileName : CStr) (tool : CStr) (tn : ToolNode)
    (dtn : DataType) (w : World) : Bool × World :=
  let r := LaunchToolA h tn.tn_Tool fileName (SetIoErr 0 w)
  let success := toBOOL r.1
  let w1 :=
    if !success ∨ IoErr h r.2 ≠ 0 then
      let w2 := Printf "Open: Failed to launch datatypes tool: %s\n" [tool] r.2
      PrintFault (IoErr h w2) "Open" w2
    else r.2
  (success, ReleaseDataType dtn w1)

/-- The launch part of `OpenDataFile`, lines 838-938. -/
def OpenDataFile.launch (h : Host) (fileName : CStr) (fileLock : Nat) (l : Locals) (w : World) :
    Bool × World :=
  match l.tool with
  | some ⟨_, c :: cs⟩ =>
    if samePtr l.tool .defIcons l.defIconsTool ∨ samePtr l.tool .icon l.iconTool then
      OpenDataFile.launchByName h fileName (c :: cs) w
    else
      let n := GetDatatypesToolNode h fileName fileLock l.preferredTool w
      match n.1 with
      | (some tn, some dtn) => OpenDataFile.launchByNode h fileName (c :: cs) tn dtn n.2
      | _ => OpenDataFile.launchByName h fileName (c :: cs) n.2
  | _ =>
    (false,
      Printf "Open: Try installing DefIcons or configuring datatypes for this file type.\n" []
        (Printf "Open: No tool found to open: %s\n" [fileName] w))

/-- Source `OpenDataFile`, lines 771-939. -/
def OpenDataFile (h : Host) (fileName : CStr) (fileLock : Nat) (forceTool : Option CStr)
    (forceBrowse forceEdit forceInfo forcePrint forceMail : Bool) (w0 : World) : Bool × World :=
  let w := Enter .OpenDataFile w0
  if fileLock = 0 then (false, w)
  else
    let r := OpenDataFile.resolve h fileName fileLock forceTool forceBrowse forceEdit forceInfo
      forcePrint forceMail w
    OpenDataFile.launch h fileName fileLock r.1 r.2

/-! ## Item router (lines 416-463) -/

/-- The conversion `b ? RETURN_OK : RETURN_FAIL`. -/
def returnCode (b : Bool) : Int := if b then RETURN_OK else RETURN_FAIL

/-- Source `OpenItem`, lines 417-463. -/
def OpenItem (h : Host) (fileName : CStr) (forceTool : Option CStr)
    (forceBrowse forceEdit forceInfo forcePrint forceMail showAll : Bool) (w : World) :
    Int × World :=
  let l := Lock h fileName w
  if l.1 = 0 then
    let errorCode := IoErr h l.2
    (RETURN_FAIL,
      PrintFault (if errorCode ≠ 0 then errorCode else ERROR_OBJECT_NOT_FOUND) "Open" l.2)
  else
    let r : Int × World :=
      if IsInfoFile fileName then
        if forceTool = none ∧ !forceBrowse ∧ !forceEdit ∧ !forceInfo ∧ !forcePrint ∧ !forceMail
        then
          let o := OpenInfoFile h fileName l.1 l.2
          (returnCode o.1, o.2)
        else
          let o := OpenDataFile h fileName l.1 forceTool forceBrowse forceEdit forceInfo
            forcePrint forceMail l.2
          (returnCode o.1, o.2)
      else
        let d := IsDrawer h fileName l.1 l.2
        if d.1 then
          let o := OpenDrawer h fileName showAll d.2
          (returnCode o.1, o.2)
        else
          let e := IsExecutable h fileName l.1 d.2
          if e.1 then
            if IsBinaryAsset fileName then
              (RETURN_OK, Printf "Open: Skipping binary asset: %s\n" [fileName] e.2)
            else
              let o := OpenExecutable h fileName e.2
              (returnCode o.1, o.2)
          else
            let o := OpenDataFile h fileName l.1 forceTool forceBrowse forceEdit forceInfo
              forcePrint forceMail e.2
            (returnCode o.1, o.2)
    (r.1, UnLock l.1 r.2)

/-! ## Entry point (lines 100-414) -/

/-- The result of a successful `ReadArgs` for the template of line 172: the `FILE/M` array
(`[]` for a `NULL` or an empty array), the `TOOL/K` string and the six switches. -/
structure Args where
  files : List CStr
  forceTool : Option CStr
  forceBrowse : Bool
  forceEdit : Bool
  forceInfo : Bool
  forcePrint : Bool
  forceMail : Bool
  showAll : Bool
deriving DecidableEq, Repr

/-- One entry of the argument list of a Workbench startup message. -/
structure WBArg where
  wa_Lock : Nat
  wa_Name : Option CStr
deriving DecidableEq, Repr

/-- How the program is started: from Workbench (`argc == 0`), with the argument list of the
startup message, or from the shell, with what `ReadArgs` returns (`none` when it fails). -/
inductive Startup where
  | workbench (sm_ArgList : List WBArg)
  | cli (rda : Option Args)
deriving DecidableEq, Repr

/-- The call `ReadArgs(template, args, NULL)`, whose result is part of the start-up. -/
def ReadArgs (rda : Option Args) (w : World) : Option Args × World :=
  (rda, w.emit (.ReadArgs rda.isSome))

/-- Source `InitializeLibraries`, lines 314-357: the result, and the host with the library
bases as the function leaves them.  A library is closed by its name. -/
def InitializeLibraries (h : Host) (w : World) : (Bool × Host) × World :=
  let i := OpenLibrary h "intuition.library".toList 39 w
  if !i.1 then
    ((false, { h with IntuitionBase := false }), SetIoErr ERROR_OBJECT_NOT_FOUND i.2)
  else
    let u := OpenLibrary h "utility.library".toList 39 i.2
    if !u.1 then
      ((false, { h with IntuitionBase := false, UtilityBase := false }),
        CloseLibrary "intuition.library".toList (SetIoErr ERROR_OBJECT_NOT_FOUND u.2))
    else
      let b := OpenLibrary h "workbench.library".toList 44 u.2
      if !b.1 then
        ((false, { h with IntuitionBase := false, UtilityBase := false, WorkbenchBase := false }),
          CloseLibrary "intuition.library".toList
            (CloseLibrary "utility.library".toList (SetIoErr ERROR_OBJECT_NOT_FOUND b.2)))
      else
        let d := OpenLibrary h "datatypes.library".toList 45 b.2
        if !d.1 then
          ((false, { h with IntuitionBase := false, UtilityBase := false,
                            WorkbenchBase := false, DataTypesBase := false }),
            CloseLibrary "intuition.library".toList
              (CloseLibrary "utility.library".toList
                (CloseLibrary "workbench.library".toList
                  (SetIoErr ERROR_OBJECT_NOT_FOUND d.2))))
        else
          let c := OpenLibrary h "icon.library".toList 47 d.2
          ((true, { h with IntuitionBase := true, UtilityBase := true, WorkbenchBase := true,
                           DataTypesBase := true, IconBase := c.1 }), c.2)

/-- Source `Cleanup`, lines 360-386. -/
def Cleanup (h : Host) (w : World) : Host × World :=
  let w1 := if h.DataTypesBase then CloseLibrary "datatypes.library".toList w else w
  let w2 := if h.IconBase then CloseLibrary "icon.library".toList w1 else w1
  let w3 := if h.WorkbenchBase then CloseLibrary "workbench.library".toList w2 else w2
  let w4 := if h.UtilityBase then CloseLibrary "utility.library".toList w3 else w3
  let w5 := if h.IntuitionBase then CloseLibrary "intuition.library".toList w4 else w4
  ({ h with DataTypesBase := false, IconBase := false, WorkbenchBase := false,
            UtilityBase := false, IntuitionBase := false }, w5)

/-- The lines `ShowUsage` prints, lines 391-413. -/
def ShowUsage.lines : List String :=
  ["Usage: Open FILE=<filename> [TOOL=<toolname>] [BROWSE] [EDIT] [INFO] [PRINT] [MAIL]\n",
   "\n",
   "Options:\n",
   "  FILE=<filename>  - File, drawer, or executable to open (required)\n",
   "  TOOL=<toolname>  - Force specific tool to use\n",
   "  BROWSE           - Force BROWSE tool for data files\n",
   "  EDIT             - Force EDIT tool for data files\n",
   "  INFO             - Force INFO tool for data files\n",
   "  PRINT            - Force PRINT tool for data files\n",
   "  MAIL             - Force MAIL tool for data files\n",
   "  SHOWALL          - Show all files when opening drawers\n",
   "\n",
   "Open intelligently opens files, drawers, and executables:\n",
   "  - Drawers are opened in Workbench\n",
   "  - Executables are launched (binary assets like .library are skipped)\n",
   "  - Data files are opened with the most appropriate tool\n",
   "\n",
   "Examples:\n",
   "  Open RAM:                    - Open RAM: drawer\n",
   "  Open SYS:C/Edit              - Run Edit command\n",
   "  Open test.txt                - Open with default tool\n",
   "  Open test.txt BROWSE         - Force BROWSE tool\n",
   "  Open test.txt TOOL=MultiView - Force specific tool\n"]

/-- Source `ShowUsage`, lines 389-414. -/
def ShowUsage (w : World) : World :=
  ShowUsage.lines.foldl (fun w1 line => Printf line [] w1) w

/-- The loop of `main` over the startup arguments, lines 134-151, from index 1 on: the
value left in `success`. -/
def main.wbItems (h : Host) : List WBArg → Bool → World → Bool × World
  | [], success, w => (success, w)
  | wbarg :: rest, success, w =>
    match wbarg.wa_Name with
    | some (c :: cs) =>
      if wbarg.wa_Lock ≠ 0 then
        let d := CurrentDir wbarg.wa_Lock w
        let r := OpenItem h (c :: cs) none false false false false false false d.2
        let w1 := if d.1 ≠ 0 then (CurrentDir d.1 r.2).2 else r.2
        main.wbItems h rest (if r.1 ≠ RETURN_OK then false else success) w1
      else main.wbItems h rest success w
    | _ => main.wbItems h rest success w

/-- The loop of `main` over the file array, lines 220-234: the values left in `result` and
`fileCount`. -/
def main.items (h : Host) (a : Args) : List CStr → Int × Nat → World → (Int × Nat) × World
  | [], acc, w => (acc, w)
  | fileName :: rest, acc, w =>
    let r := OpenItem h fileName a.forceTool a.forceBrowse a.forceEdit a.forceInfo
      a.forcePrint a.forceMail a.showAll w
    main.items h a rest (if r.1 ≠ RETURN_OK then RETURN_FAIL else acc.1, acc.2 + 1) r.2

/-- The part of `main` that opens the current directory, lines 238-298: the value left in
`result`. -/
def main.openCurrentDir (h : Host) (showAll : Bool) (w : World) : Int × World :=
  let tags := if showAll then [TagItem.WBOPENA_Show DDFLAGS_SHOWALL] else []
  let currentDirLock := GetCurrentDir w
  if currentDirLock ≠ 0 then
    let n := NameFromLock h currentDirLock w
    match n.1 with
    | some currentDirName =>
      let r := OpenWorkbenchObjectA h currentDirName tags (SetIoErr 0 n.2)
      if r.1 then (RETURN_OK, r.2)
      else
        let errorCode := IoErr h r.2
        (RETURN_FAIL,
          if errorCode ≠ 0 then PrintFault errorCode "Open" r.2
          else Printf "Open: Failed to open current directory\n" [] r.2)
    | none => (RETURN_FAIL, Printf "Open: Could not get current directory name\n" [] n.2)
  else
    let r := OpenWorkbenchObjectA h [] tags (SetIoErr 0 w)
    if r.1 then (RETURN_OK, r.2)
    else
      let errorCode := IoErr h r.2
      (RETURN_FAIL,
        if errorCode ≠ 0 then PrintFault errorCode "Open" r.2
        else Printf "Open: Failed to open root directory\n" [] r.2)

/-- Source `main`, lines 101-311: the exit status. -/
def main (h : Host) : Startup → World → Int × World
  | .workbench sm_ArgList, w =>
    let i := InitializeLibraries h w
    if !i.1.1 then
      let errorCode := IoErr h i.2
      (RETURN_FAIL,
        PrintFault (if errorCode ≠ 0 then errorCode else ERROR_OBJECT_NOT_FOUND) "Open" i.2)
    else if sm_ArgList.length ≤ 1 then
      (RETURN_FAIL,
        (Cleanup i.1.2
          (Printf "Open must be set as the default tool on a project icon.\n" []
            (Printf "Open: No file specified.\n" [] i.2))).2)
    else
      let r := main.wbItems i.1.2 (sm_ArgList.drop 1) true i.2
      (if r.1 then RETURN_OK else RETURN_FAIL, (Cleanup i.1.2 r.2).2)
  | .cli none, w =>
    let w1 := (ReadArgs none w).2
    let errorCode := IoErr h w1
    (RETURN_FAIL, if errorCode ≠ 0 then PrintFault errorCode "Open" w1 else ShowUsage w1)
  | .cli (some a), w =>
    let w1 := (ReadArgs (some a) w).2
    let i := InitializeLibraries h w1
    if !i.1.1 then
      let errorCode := IoErr h i.2
      (RETURN_FAIL,
        FreeArgs
          (PrintFault (if errorCode ≠ 0 then errorCode else ERROR_OBJECT_NOT_FOUND) "Open"
            i.2))
    else
      let r := main.items i.1.2 a a.files (RETURN_OK, 0) i.2
      let r2 : Int × World :=
        if r.1.2 = 0 then main.openCurrentDir i.1.2 a.showAll r.2 else (r.1.1, r.2)
      (r2.1, (Cleanup i.1.2 (FreeArgs r2.2)).2)

/-! ## Trace vocabulary -/

/-- Does the event acquire the lock `l`: a `Lock` or `ParentDir` call that returns `l ≠ 0`. -/
def Event.acquires (l : Nat) : Event → Bool
  | .Lock _ r => r == l && r != 0
  | .ParentDir _ r => r == l && r != 0
  | _ => false

/-- Does the event release the lock `l`. -/
def Event.releases (l : Nat) : Event → Bool
  | .UnLock r => r == l
  | _ => false

/-- Does the event obtain the registry entry `d`. -/
def Event.obtains (d : DataType) : Event → Bool
  | .ObtainDataTypeA _ (some r) => r == d
  | _ => false

/-- Does the event release the registry entry `d`. -/
def Event.drops (d : DataType) : Event → Bool
  | .ReleaseDataType r => r == d
  | _ => false

/-- The number of events of the trace that satisfy `q`. -/
def World.count (q : Event → Bool) (w : World) : Nat := w.trace.countP q

/-- The number of acquisitions of the lock `l` minus the number of its releases. -/
def World.held (l : Nat) (w : World) : Int :=
  (w.count (Event.acquires l) : Int) - w.count (Event.releases l)

/-- The number of times the registry entry `d` was obtained minus the number of its
releases. -/
def World.pinned (d : DataType) (w : World) : Int :=
  (w.count (Event.obtains d) : Int) - w.count (Event.drops d)

/-- The events of `w'` that come after those of `w`. -/
def World.since (w w' : World) : List Event := w'.trace.drop w.trace.length

/-- Every lock and every registry entry is released as often as it is acquired. -/
def Balanced (evs : List Event) : Prop :=
  (∀ l, evs.countP (Event.acquires l) = evs.countP (Event.releases l)) ∧
  (∀ d, evs.countP (Event.obtains d) = evs.countP (Event.drops d))

/-- A use of the format registry: entering one of the two registry lookups, or a
datatypes.library call. -/
def Event.isRegistry : Event → Bool
  | .Enter .GetDatatypesTool => true
  | .Enter .GetDatatypesToolNode => true
  | .ObtainDataTypeA _ _ => true
  | .ReleaseDataType _ => true
  | .LaunchToolA _ _ _ => true
  | _ => false

/-- A use of the icon source: entering `GetIconDefaultTool`. -/
def Event.isIconSource : Event → Bool
  | .Enter .GetIconDefaultTool => true
  | _ => false

/-- A launch call of either kind. -/
def Event.isLaunch : Event → Bool
  | .OpenWorkbenchObjectA _ _ _ => true
  | .LaunchToolA _ _ _ => true
  | _ => false

/-- A call of the generic object-opener. -/
def Event.isOpenWorkbenchObject : Event → Bool
  | .OpenWorkbenchObjectA _ _ _ => true
  | _ => false

/-- A call of the registry's direct launch. -/
def Event.isLaunchTool : Event → Bool
  | .LaunchToolA _ _ _ => true
  | _ => false

/-- A call of the icon-info panel. -/
def Event.isWBInfo : Event → Bool
  | .WBInfo _ _ _ _ => true
  | _ => false

/-- Entering data-file handling, folder opening or executable launch. -/
def Event.isOtherRoute : Event → Bool
  | .Enter .OpenDataFile => true
  | .Enter .OpenDrawer => true
  | .Enter .OpenExecutable => true
  | _ => false

/-- The events the DefIcons step of `OpenDataFile` can append. -/
def fpDefIcons : Event → Bool
  | .Enter .GetDefIconsTypeIdentifier => true
  | .Enter .GetDefIconsDefaultTool => true
  | .FindPort _ _ => true
  | .ParentDir _ _ => true
  | .UnLock _ => true
  | .CurrentDir _ _ => true
  | .GetIconTagList _ _ _ _ => true
  | .FreeDiskObject => true
  | .Lock _ _ => true
  | .GetDiskObject _ _ => true
  | _ => false

/-- The events `GetDatatypesTool` can append. -/
def fpGetDatatypesTool : Event → Bool
  | .Enter .GetDatatypesTool => true
  | .ObtainDataTypeA _ _ => true
  | .ReleaseDataType _ => true
  | _ => false

/-- The events `GetIconDefaultTool` can append. -/
def fpGetIconDefaultTool : Event → Bool
  | .Enter .GetIconDefaultTool => true
  | .ParentDir _ _ => true
  | .CurrentDir _ _ => true
  | .GetDiskObject _ _ => true
  | .FreeDiskObject => true
  | .UnLock _ => true
  | _ => false

/-- The events the resolution part of `OpenDataFile` can append. -/
def fpResolve (e : Event) : Bool :=
  fpDefIcons e || fpGetDatatypesTool e || fpGetIconDefaultTool e

/-- The events the launch by name of `OpenDataFile` can append: the only launch call is
`OpenWorkbenchObjectA` with `tool` as its program, and the lock `parent` and the file part of
`fileName` as its arguments. -/
def fpLaunchByName (fileName tool : CStr) (parent : Nat) : Event → Bool
  | .Lock _ _ => true
  | .ParentDir _ _ => true
  | .UnLock _ => true
  | .SetIoErr _ => true
  | .Printf _ _ => true
  | .PrintFault _ _ => true
  | .OpenWorkbenchObjectA name [TagItem.WBOPENA_ArgLock p, TagItem.WBOPENA_ArgName n] _ =>
    name == tool && n == FilePart fileName && p == parent
  | _ => false

/-- The events `GetDatatypesToolNode` can append. -/
def fpGetDatatypesToolNode : Event → Bool
  | .Enter .GetDatatypesToolNode => true
  | .ObtainDataTypeA _ _ => true
  | .ReleaseDataType _ => true
  | _ => false

/-- The events the launch by node of `OpenDataFile` can append: the only launch call is
`LaunchToolA` on the tool of `tn` with the file name. -/
def fpLaunchByNode (fileName : CStr) (tn : ToolNode) : Event → Bool
  | .SetIoErr _ => true
  | .Printf _ _ => true
  | .PrintFault _ _ => true
  | .ReleaseDataType _ => true
  | .LaunchToolA t f _ => t == tn.tn_Tool && f == fileName
  | _ => false

/-- The events `OpenInfoFile` can append: the only panel call is `WBInfo` with the lock
`parent`, the name `iconName` and the screen `screen`. -/
def fpOpenInfoFile (parent : Nat) (iconName : CStr) (screen : Nat) : Event → Bool
  | .Enter .OpenInfoFile => true
  | .ParentDir _ _ => true
  | .LockPubScreen _ _ => true
  | .UnlockPubScreen _ => true
  | .UnLock _ => true
  | .SetIoErr _ => true
  | .Printf _ _ => true
  | .PrintFault _ _ => true
  | .WBInfo l name s _ => l == parent && name == iconName && s == screen
  | _ => false

/-! ## Concrete hosts and inputs -/

/-- A host on which every library is open and every call fails or finds nothing. -/
def quietHost : Host where
  SysBase := true
  IntuitionBase := true
  UtilityBase := true
  WorkbenchBase := true
  DataTypesBase := true
  IconBase := true
  onLock := fun _ _ => 0
  onIoErr := fun _ => 0
  onParentDir := fun _ _ => 0
  onExamine := fun _ _ => none
  onOpenWorkbenchObjectA := fun _ _ _ => false
  onLockPubScreen := fun _ _ => 0
  onWBInfo := fun _ _ _ _ => false
  onFindPort := fun _ _ => false
  onGetIconTagList := fun _ _ => (false, [], 0)
  onGetDiskObject := fun _ _ => none
  onObtainDataTypeA := fun _ _ => none
  onLaunchToolA := fun _ _ _ => 0
  onOpenLibrary := fun _ _ _ => false
  onNameFromLock := fun _ _ => none

/-- The empty history, with the boot directory current. -/
def World.start : World := ⟨[], 0⟩

/-- A registry tool node. -/
def toolNode (which : Nat) (program : String) : ToolNode := ⟨⟨which, 0, some program.toList⟩⟩

/-- A registry entry whose only association is Browse with program `Ed`. -/
def edEntry : DataType := ⟨7, [toolNode TW_BROWSE "Ed"]⟩

/-- Entering any of the program's routes other than the icon-info panel, any launch call,
and any examination of the item. -/
def Event.isNotInfoRoute : Event → Bool
  | .Enter .OpenDataFile => true
  | .Enter .OpenDrawer => true
  | .Enter .OpenExecutable => true
  | .OpenWorkbenchObjectA _ _ _ => true
  | .LaunchToolA _ _ _ => true
  | .Examine _ _ => true
  | _ => false

/-- A panel call whose arguments are not the given ones. -/
def Event.isOtherWBInfo (parent : Nat) (iconName : CStr) (screen : Nat) : Event → Bool
  | .WBInfo l name s _ => !(l == parent && name == iconName && s == screen)
  | _ => false

/-- A call of `LaunchToolA` whose arguments are not the given ones. -/
def Event.isOtherLaunchTool (tool : Tool) (fileName : CStr) : Event → Bool
  | .LaunchToolA t f _ => !(t == tool && f == fileName)
  | _ => false

/-- A call of `OpenWorkbenchObjectA` whose arguments are not the given ones. -/
def Event.isOtherOpenWorkbenchObject (name : CStr) (tags : List TagItem) : Event → Bool
  | .OpenWorkbenchObjectA n t _ => !(n == name && t == tags)
  | _ => false

/-- A host for a plain data file: every `Lock` and every `ParentDir` call succeeds and
returns a fresh lock (numbered by the length of the history), the file is a plain file
without the execute bit, the DefIcons port does not exist, the file has no icon, and both
launch calls succeed.  The registry knows nothing. -/
def plainHost : Host :=
  { quietHost with
    onLock := fun w _ => w.trace.length + 1
    onParentDir := fun w _ => w.trace.length + 1
    onExamine := fun _ _ => some ⟨ST_FILE, 0⟩
    onOpenWorkbenchObjectA := fun _ _ _ => true
    onLaunchToolA := fun _ _ _ => 1 }

/-- Scenario A: as `plainHost`, and the registry entry of the file is `edEntry`. -/
def registryHost : Host :=
  { plainHost with onObtainDataTypeA := fun _ _ => some edEntry }

/-- As `plainHost`, and the icon of the file names `MultiView` as its default tool. -/
def iconHost : Host :=
  { plainHost with onGetDiskObject := fun _ _ => some ⟨some "MultiView".toList⟩ }

/-- As `plainHost`, but the parent folder of a lock cannot be obtained. -/
def noParentHost : Host := { plainHost with onParentDir := fun _ _ => 0 }

/-- As `plainHost`, and a public screen (number 3) can be locked and the icon-info panel
opens. -/
def panelHost : Host :=
  { plainHost with
    onLockPubScreen := fun _ _ => 3
    onWBInfo := fun _ _ _ _ => true }

/-- As `iconHost`, but the file cannot be locked again. -/
def relockFailHost : Host := { iconHost with onLock := fun _ _ => 0 }

/-- As `plainHost`, and the DefIcons port exists, the file is identified as `text`, the
folder `ENV:Sys` can be locked and the descriptor `def_text` names `MultiView` as its default
tool. -/
def defIconsHost : Host :=
  { plainHost with
    onFindPort := fun _ _ => true
    onGetIconTagList := fun _ _ => (false, "text".toList, 0)
    onGetDiskObject := fun _ name =>
      if name = "def_text".toList then some ⟨some "MultiView".toList⟩ else none }

/-- A registry entry whose only association is Info with program `Info`. -/
def infoEntry : DataType := ⟨8, [toolNode TW_INFO "Info"]⟩

/-- As `plainHost`, and the registry entry of the file is `infoEntry`. -/
def infoHost : Host :=
  { plainHost with onObtainDataTypeA := fun _ _ => some infoEntry }

/-- As `plainHost`, but the file has the execute bit set. -/
def executableHost : Host :=
  { plainHost with onExamine := fun _ _ => some ⟨ST_FILE, FIBF_EXECUTE⟩ }

/-- The host error code is 205 once a launch call has been made, 0 before. -/
def errAfterLaunch (w : World) : Int := if w.trace.any Event.isLaunch then 205 else 0

/-- As `iconHost`, but every launch call, although it returns success, leaves the host error
code 205. -/
def iconHostErr : Host := { iconHost with onIoErr := errAfterLaunch }

/-- As `registryHost`, but every launch call, although it returns success, leaves the host
error code 205. -/
def registryHostErr : Host := { registryHost with onIoErr := errAfterLaunch }

/-- As `plainHost`, but the examined entry is a volume root. -/
def rootHost : Host :=
  { plainHost with onExamine := fun _ _ => some ⟨ST_ROOT, 0⟩ }

/-- As `plainHost`, but the examined entry is a directory link. -/
def linkDirHost : Host :=
  { plainHost with onExamine := fun _ _ => some ⟨ST_LINKDIR, 0⟩ }

/-- As `iconHost`, but only the first `Lock` call succeeds: the file cannot be locked a
second time. -/
def relockOnceHost : Host :=
  { iconHost with onLock := fun w _ => if w.trace.isEmpty then 1 else 0 }

/-- Is the last event of the history a `Lock` call. -/
def World.afterLock (w : World) : Bool :=
  match w.trace.getLast? with
  | some (.Lock _ _) => true
  | _ => false

/-- As `iconHost`, but the parent folder of a lock that was just taken cannot be obtained. -/
def noLaunchParentHost : Host :=
  { iconHost with
    onParentDir := fun w _ => if w.afterLock then 0 else w.trace.length + 1 }

/-- A diagnostic message: a `Printf` line or a host error text. -/
def Event.isDiagnostic : Event → Bool
  | .Printf _ _ => true
  | .PrintFault _ _ => true
  | _ => false

/-- A registry entry with an Info association whose program name is empty and a Print
association with program `PrintTool`. -/
def emptyInfoEntry : DataType :=
  ⟨9, [⟨⟨TW_INFO, 0, some []⟩⟩, toolNode TW_PRINT "PrintTool"]⟩

/-- As `plainHost`, and the registry entry of the file is `emptyInfoEntry`. -/
def emptyInfoHost : Host :=
  { plainHost with onObtainDataTypeA := fun _ _ => some emptyInfoEntry }

/-- A `Lock` call on the folder `ENVARC:Sys`. -/
def Event.isLockEnvArc : Event → Bool
  | .Lock n _ => n == "ENVARC:Sys".toList
  | _ => false

/-- A `GetDiskObject` call for another name than the given one. -/
def Event.isOtherGetDiskObject (name : CStr) : Event → Bool
  | .GetDiskObject n _ => !(n == name)
  | _ => false

/-- The events one lookup of `GetDefIconsDefaultTool` can append. -/
def fpLookup (dir name : CStr) : Event → Bool
  | .Lock n _ => n == dir
  | .CurrentDir _ _ => true
  | .GetDiskObject n _ => n == name
  | .UnLock _ => true
  | _ => false

/-- The copy `GetDefIconsDefaultTool` makes of a default-tool string, lines 1032-1045. -/
def GetDefIconsDefaultTool.copy (defaultIcon : DiskObject) : Option CStr :=
  match defaultIcon.do_DefaultTool with
  | some (c :: cs) => some (Strncpy (Strncpy (c :: cs) 256) ((c :: cs).length + 1))
  | _ => none

/-- The descriptor `GetDefIconsDefaultTool` ends up with, lines 1017-1029: the one of the
primary lookup, or else the one of the secondary lookup. -/
def GetDefIconsDefaultTool.found (h : Host) (t : CStr) (w : World) :
    Option DiskObject × World :=
  let d1 := GetDefIconsDefaultTool.lookup h "ENV:Sys".toList (("def_".toList ++ t).take 63)
    (Enter .GetDefIconsDefaultTool w)
  if d1.1 = none then
    GetDefIconsDefaultTool.lookup h "ENVARC:Sys".toList (("def_".toList ++ t).take 63) d1.2
  else d1

/-- A type identifier of sixty characters. -/
def longType : CStr := List.replicate 60 'a'

/-- A default-tool string of three hundred characters. -/
def longTool : CStr := List.replicate 300 'x'

/-- As `plainHost`, and the descriptor `def_text` names `longTool` as its default tool. -/
def longToolHost : Host :=
  { plainHost with
    onGetDiskObject := fun _ name =>
      if name = "def_text".toList then some ⟨some longTool⟩ else none }

/-- A resource the program holds: a file lock or a registry entry. -/
inductive Res where
  | lock (l : Nat)
  | entry (d : DataType)
deriving DecidableEq, Repr

/-- Does the resource carry the tool structure `t`: a registry entry one of whose nodes
holds `t`. -/
def Res.carries (t : Tool) : Res → Bool
  | .entry d => d.dtn_ToolList.any (fun tn => decide (tn.tn_Tool = t))
  | .lock _ => false

/-- The effect of one event on the list of resources held, the newest first: a successful
`Lock`, `ParentDir` or `ObtainDataTypeA` adds one, `UnLock` and `ReleaseDataType` remove
one that has to be held, `LaunchToolA` needs a held registry entry that carries its tool. -/
def Event.step (T : List Res) : Event → Option (List Res)
  | .Lock _ r => some (if r = 0 then T else .lock r :: T)
  | .ParentDir _ r => some (if r = 0 then T else .lock r :: T)
  | .UnLock l => if Res.lock l ∈ T then some (T.erase (.lock l)) else none
  | .ObtainDataTypeA _ (some d) => some (.entry d :: T)
  | .ReleaseDataType d => if Res.entry d ∈ T then some (T.erase (.entry d)) else none
  | .LaunchToolA t _ _ => if T.any (Res.carries t) = true then some T else none
  | _ => some T

/-- Run the events from the resources `T`: the resources held at the end, or `none` when an
event releases or uses a resource that is not held. -/
def discipline : List Res → List Event → Option (List Res)
  | T, [] => some T
  | T, e :: evs => (e.step T).bind (fun U => discipline U evs)

/-- From `w0` to `w` the trace was extended by events that take the resources `S` to `T`
without a release or use of a resource not held. -/
def Keeps (S : List Res) (w0 w : World) (T : List Res) : Prop :=
  ∃ evs, w.trace = w0.trace ++ evs ∧ discipline S evs = some T

/-- Does the launch part of `OpenDataFile` ask for the tool node: the tests of lines 839 and
841, a non-empty tool that is neither the DefIcons block nor the icon block. -/
def OpenDataFile.asksNode (l : Locals) : Bool :=
  match l.tool with
  | some ⟨_, _ :: _⟩ =>
    !(samePtr l.tool .defIcons l.defIconsTool || samePtr l.tool .icon l.iconTool)
  | _ => false

/-- One call of `OpenItem`: the path, the world before the call, the value returned and the
world after the call. -/
structure ItemCall where
  fileName : CStr
  before : World
  result : Int
  after : World
deriving DecidableEq, Repr

/-- The calls the specification asks for: one call of `OpenItem` per path, in the order of
the paths, with the options of the command line, each on the world the call before it
left. -/
def itemCalls (h : Host) (a : Args) : List CStr → World → List ItemCall
  | [], _ => []
  | fileName :: rest, w =>
    ⟨fileName, w,
      (OpenItem h fileName a.forceTool a.forceBrowse a.forceEdit a.forceInfo a.forcePrint
        a.forceMail a.showAll w).1,
      (OpenItem h fileName a.forceTool a.forceBrowse a.forceEdit a.forceInfo a.forcePrint
        a.forceMail a.showAll w).2⟩ ::
    itemCalls h a rest
      (OpenItem h fileName a.forceTool a.forceBrowse a.forceEdit a.forceInfo a.forcePrint
        a.forceMail a.showAll w).2

/-- The world a list of calls leaves, `w` when there is no call. -/
def lastWorld : List ItemCall → World → World
  | [], w => w
  | c :: rest, _ => lastWorld rest c.after

/-- As `plainHost`, and every library can be opened. -/
def cliHost : Host :=
  { plainHost with onOpenLibrary := fun _ _ _ => true }

/-- As `cliHost`, and the file `b.txt` has an icon that names `MultiView` as default tool. -/
def mixedHost : Host :=
  { cliHost with
    onGetDiskObject := fun _ name =>
      if name = "b.txt".toList then some ⟨some "MultiView".toList⟩ else none }

/-- The command line `Open a.txt b.txt c.txt`. -/
def threeFiles : Args :=
  { files := ["a.txt".toList, "b.txt".toList, "c.txt".toList], forceTool := none,
    forceBrowse := false, forceEdit := false, forceInfo := false, forcePrint := false,
    forceMail := false, showAll := false }

/-- The purpose the specification asks for: the first flag that is set, in the order Browse,
Edit, Info, Print, Mail, and Browse when no flag is set. -/
def firstPurpose (forceBrowse forceEdit forceInfo forcePrint forceMail : Bool) : Nat :=
  match [(forceBrowse, TW_BROWSE), (forceEdit, TW_EDIT), (forceInfo, TW_INFO),
      (forcePrint, TW_PRINT), (forceMail, TW_MAIL)].find? (fun p => p.1) with
  | some p => p.2
  | none => TW_BROWSE

/-- A registry entry with a Browse association `MultiView` and an Edit association `Ed`. -/
def twoToolEntry : DataType := ⟨10, [toolNode TW_BROWSE "MultiView", toolNode TW_EDIT "Ed"]⟩

/-- As `plainHost`, and the registry entry of the file is `twoToolEntry`. -/
def twoToolHost : Host :=
  { plainHost with onObtainDataTypeA := fun _ _ => some twoToolEntry }

/-- A `Lock` call.  Every call of `OpenItem` starts with one. -/
def Event.isLock : Event → Bool
  | .Lock _ _ => true
  | _ => false

/-- As `mixedHost`, but datatypes.library cannot be opened. -/
def noDataTypesHost : Host :=
  { mixedHost with
    onOpenLibrary := fun _ name _ => decide (name ≠ "datatypes.library".toList) }

/-- The command line `Open b.txt`. -/
def oneFile : Args :=
  { files := ["b.txt".toList], forceTool := none, forceBrowse := false, forceEdit := false,
    forceInfo := false, forcePrint := false, forceMail := false, showAll := false }

/-- As `registryHost`, but `LaunchToolA` returns `0x10000`, a non-zero `ULONG` whose low word
is zero. -/
def highWordHost : Host :=
  { registryHost with onLaunchToolA := fun _ _ _ => 65536 }

/-! # Theorems -/

/-! ## Counting the events of a run -/

theorem trace_emit (w : World) (e : Event) : (w.emit e).trace = w.trace ++ [e] := rfl

theorem trace_setDir (w : World) (d : Nat) : (w.setDir d).trace = w.trace := rfl

theorem count_emit (q : Event → Bool) (w : World) (e : Event) :
    (w.emit e).count q = w.count q + if q e = true then 1 else 0 := by
  simp [World.count, World.emit, List.countP_cons]

theorem count_setDir (q : Event → Bool) (w : World) (d : Nat) :
    (w.setDir d).count q = w.count q := rfl

theorem held_emit (l : Nat) (w : World) (e : Event) :
    (w.emit e).held l = w.held l + (if e.acquires l = true then 1 else 0)
      - (if e.releases l = true then 1 else 0) := by
  simp only [World.held, count_emit]
  push_cast
  ring

theorem held_setDir (l : Nat) (w : World) (d : Nat) : (w.setDir d).held l = w.held l := rfl

theorem pinned_emit (d : DataType) (w : World) (e : Event) :
    (w.emit e).pinned d = w.pinned d + (if e.obtains d = true then 1 else 0)
      - (if e.drops d = true then 1 else 0) := by
  simp only [World.pinned, count_emit]
  push_cast
  ring

theorem pinned_setDir (d : DataType) (w : World) (dir : Nat) :
    (w.setDir dir).pinned d = w.pinned d := rfl

theorem trace_of_extends {w w' : World} (hp : w.trace <+: w'.trace) :
    w'.trace = w.trace ++ w.since w' := by
  obtain ⟨evs, hevs⟩ := hp
  simp [World.since, ← hevs]

theorem none_of_count {w w' : World} {evs : List Event} {q : Event → Bool}
    (hevs : w'.trace = w.trace ++ evs) (hc : w'.count q = w.count q) :
    ∀ e ∈ evs, q e = false := by
  simp only [World.count, hevs, List.countP_append] at hc
  have h0 : evs.countP q = 0 := by omega
  intro e he
  have := List.countP_eq_zero.mp h0 e he
  simpa using this

theorem some_of_count {w w' : World} {evs : List Event} {q : Event → Bool}
    (hevs : w'.trace = w.trace ++ evs) (hc : w.count q < w'.count q) :
    ∃ e ∈ evs, q e = true := by
  simp only [World.count, hevs, List.countP_append] at hc
  have h0 : 0 < evs.countP q := by omega
  exact List.countP_pos_iff.mp h0

theorem balanced_of_held {w w' : World} {evs : List Event}
    (hevs : w'.trace = w.trace ++ evs) (hl : ∀ l, w'.held l = w.held l)
    (hd : ∀ d, w'.pinned d = w.pinned d) : Balanced evs := by
  constructor
  · intro l
    have := hl l
    simp only [World.held, World.count, hevs, List.countP_append] at this
    push_cast at this
    omega
  · intro d
    have := hd d
    simp only [World.pinned, World.count, hevs, List.countP_append] at this
    push_cast at this
    omega

/-! ## The icon source -/

theorem GetIconDefaultTool_extends (h : Host) (fileName : CStr) (fileLock : Nat) (w : World) :
    w.trace <+: (GetIconDefaultTool h fileName fileLock w).2.trace := by
  unfold GetIconDefaultTool
  simp only [Enter, ParentDir, CurrentDir, GetDiskObject, UnLock, FreeDiskObject]
  split_ifs <;> (try split) <;> simp [trace_emit, trace_setDir, List.append_assoc]

theorem GetIconDefaultTool_count (h : Host) (fileName : CStr) (fileLock : Nat) (w : World)
    (q : Event → Bool) (hq : ∀ e, fpGetIconDefaultTool e = true → q e = false) :
    (GetIconDefaultTool h fileName fileLock w).2.count q = w.count q := by
  unfold GetIconDefaultTool
  simp only [Enter, ParentDir, CurrentDir, GetDiskObject, UnLock, FreeDiskObject]
  split_ifs <;> (try split) <;> simp [count_emit, count_setDir, hq, fpGetIconDefaultTool]

theorem GetIconDefaultTool_held (h : Host) (fileName : CStr) (fileLock : Nat) (w : World)
    (l : Nat) : (GetIconDefaultTool h fileName fileLock w).2.held l = w.held l := by
  unfold GetIconDefaultTool
  simp only [Enter, ParentDir, CurrentDir, GetDiskObject, UnLock, FreeDiskObject]
  split_ifs <;> (try split) <;>
    simp_all [held_emit, held_setDir, Event.acquires, Event.releases]

theorem GetIconDefaultTool_pinned (h : Host) (fileName : CStr) (fileLock : Nat) (w : World)
    (d : DataType) : (GetIconDefaultTool h fileName fileLock w).2.pinned d = w.pinned d := by
  unfold GetIconDefaultTool
  simp only [Enter, ParentDir, CurrentDir, GetDiskObject, UnLock, FreeDiskObject]
  split_ifs <;> (try split) <;>
    simp [pinned_emit, pinned_setDir, Event.obtains, Event.drops]

/-! ## The name-only registry lookup -/

theorem GetDatatypesTool_extends (h : Host) (fileName : CStr) (fileLock p : Nat) (w : World) :
    w.trace <+: (GetDatatypesTool h fileName fileLock p w).2.trace := by
  unfold GetDatatypesTool
  simp only [Enter, ObtainDataTypeA, ReleaseDataType]
  split_ifs <;> (try split) <;> simp [trace_emit, List.append_assoc]

theorem GetDatatypesTool_count (h : Host) (fileName : CStr) (fileLock p : Nat) (w : World)
    (q : Event → Bool) (hq : ∀ e, fpGetDatatypesTool e = true → q e = false) :
    (GetDatatypesTool h fileName fileLock p w).2.count q = w.count q := by
  unfold GetDatatypesTool
  simp only [Enter, ObtainDataTypeA, ReleaseDataType]
  split_ifs <;> (try split) <;> simp [count_emit, hq, fpGetDatatypesTool]

theorem GetDatatypesTool_held (h : Host) (fileName : CStr) (fileLock p : Nat) (w : World)
    (l : Nat) : (GetDatatypesTool h fileName fileLock p w).2.held l = w.held l := by
  unfold GetDatatypesTool
  simp only [Enter, ObtainDataTypeA, ReleaseDataType]
  split_ifs <;> (try split) <;> simp [held_emit, Event.acquires, Event.releases]

theorem GetDatatypesTool_pinned (h : Host) (fileName : CStr) (fileLock p : Nat) (w : World)
    (d : DataType) : (GetDatatypesTool h fileName fileLock p w).2.pinned d = w.pinned d := by
  unfold GetDatatypesTool
  simp only [Enter, ObtainDataTypeA, ReleaseDataType]
  split_ifs <;> (try split) <;> simp_all [pinned_emit, Event.obtains, Event.drops]

/-! ## The type-identification source -/

theorem GetDefIconsTypeIdentifier_extends (h : Host) (fileName : CStr) (fileLock : Nat)
    (w : World) : w.trace <+: (GetDefIconsTypeIdentifier h fileName fileLock w).2.trace := by
  unfold GetDefIconsTypeIdentifier
  simp only [Enter, CurrentDir, GetIconTagList, FreeDiskObject]
  split_ifs <;> simp [trace_emit, trace_setDir, List.append_assoc]

theorem GetDefIconsTypeIdentifier_count (h : Host) (fileName : CStr) (fileLock : Nat)
    (w : World) (q : Event → Bool) (hq : ∀ e, fpDefIcons e = true → q e = false) :
    (GetDefIconsTypeIdentifier h fileName fileLock w).2.count q = w.count q := by
  unfold GetDefIconsTypeIdentifier
  simp only [Enter, CurrentDir, GetIconTagList, FreeDiskObject]
  split_ifs <;> simp [count_emit, count_setDir, hq, fpDefIcons]

theorem GetDefIconsTypeIdentifier_held (h : Host) (fileName : CStr) (fileLock : Nat)
    (w : World) (l : Nat) :
    (GetDefIconsTypeIdentifier h fileName fileLock w).2.held l = w.held l := by
  unfold GetDefIconsTypeIdentifier
  simp only [Enter, CurrentDir, GetIconTagList, FreeDiskObject]
  split_ifs <;> simp [held_emit, held_setDir, Event.acquires, Event.releases]

theorem GetDefIconsTypeIdentifier_pinned (h : Host) (fileName : CStr) (fileLock : Nat)
    (w : World) (d : DataType) :
    (GetDefIconsTypeIdentifier h fileName fileLock w).2.pinned d = w.pinned d := by
  unfold GetDefIconsTypeIdentifier
  simp only [Enter, CurrentDir, GetIconTagList, FreeDiskObject]
  split_ifs <;> simp [pinned_emit, pinned_setDir, Event.obtains, Event.drops]

theorem lookup_extends (h : Host) (dir name : CStr) (w : World) :
    w.trace <+: (GetDefIconsDefaultTool.lookup h dir name w).2.trace := by
  unfold GetDefIconsDefaultTool.lookup
  simp only [Lock, CurrentDir, GetDiskObject, UnLock]
  split_ifs <;> simp [trace_emit, trace_setDir, List.append_assoc]

theorem lookup_count (h : Host) (dir name : CStr) (w : World)
    (q : Event → Bool) (hq : ∀ e, fpDefIcons e = true → q e = false) :
    (GetDefIconsDefaultTool.lookup h dir name w).2.count q = w.count q := by
  unfold GetDefIconsDefaultTool.lookup
  simp only [Lock, CurrentDir, GetDiskObject, UnLock]
  split_ifs <;> simp [count_emit, count_setDir, hq, fpDefIcons]

theorem lookup_held (h : Host) (dir name : CStr) (w : World) (l : Nat) :
    (GetDefIconsDefaultTool.lookup h dir name w).2.held l = w.held l := by
  unfold GetDefIconsDefaultTool.lookup
  simp only [Lock, CurrentDir, GetDiskObject, UnLock]
  split_ifs <;> simp_all [held_emit, held_setDir, Event.acquires, Event.releases]

theorem lookup_pinned (h : Host) (dir name : CStr) (w : World) (d : DataType) :
    (GetDefIconsDefaultTool.lookup h dir name w).2.pinned d = w.pinned d := by
  unfold GetDefIconsDefaultTool.lookup
  simp only [Lock, CurrentDir, GetDiskObject, UnLock]
  split_ifs <;> simp [pinned_emit, pinned_setDir, Event.obtains, Event.drops]

theorem GetDefIconsDefaultTool_extends (h : Host) (t : CStr) (w : World) :
    w.trace <+: (GetDefIconsDefaultTool h t w).2.trace := by
  unfold GetDefIconsDefaultTool
  simp only [Enter, FreeDiskObject]
  split_ifs <;> (try split) <;>
    simp [trace_emit, trace_of_extends (lookup_extends _ _ _ _), List.append_assoc]

theorem GetDefIconsDefaultTool_count (h : Host) (t : CStr) (w : World)
    (q : Event → Bool) (hq : ∀ e, fpDefIcons e = true → q e = false) :
    (GetDefIconsDefaultTool h t w).2.count q = w.count q := by
  unfold GetDefIconsDefaultTool
  simp only [Enter, FreeDiskObject]
  split_ifs <;> (try split) <;>
    simp [count_emit, lookup_count _ _ _ _ q hq, hq, fpDefIcons]

theorem GetDefIconsDefaultTool_held (h : Host) (t : CStr) (w : World) (l : Nat) :
    (GetDefIconsDefaultTool h t w).2.held l = w.held l := by
  unfold GetDefIconsDefaultTool
  simp only [Enter, FreeDiskObject]
  split_ifs <;> (try split) <;>
    simp [held_emit, lookup_held, Event.acquires, Event.releases]

theorem GetDefIconsDefaultTool_pinned (h : Host) (t : CStr) (w : World) (d : DataType) :
    (GetDefIconsDefaultTool h t w).2.pinned d = w.pinned d := by
  unfold GetDefIconsDefaultTool
  simp only [Enter, FreeDiskObject]
  split_ifs <;> (try split) <;>
    simp [pinned_emit, lookup_pinned, Event.obtains, Event.drops]

theorem defIconsStep_extends (h : Host) (fileName : CStr) (fileLock : Nat) (w : World) :
    w.trace <+: (OpenDataFile.defIconsStep h fileName fileLock w).2.trace := by
  unfold OpenDataFile.defIconsStep IsDefIconsRunning
  simp only [FindPort, ParentDir, UnLock]
  split_ifs <;> (try split) <;>
    simp [trace_emit, trace_of_extends (GetDefIconsDefaultTool_extends _ _ _),
      trace_of_extends (GetDefIconsTypeIdentifier_extends _ _ _ _), List.append_assoc]

theorem defIconsStep_count (h : Host) (fileName : CStr) (fileLock : Nat) (w : World)
    (q : Event → Bool) (hq : ∀ e, fpDefIcons e = true → q e = false) :
    (OpenDataFile.defIconsStep h fileName fileLock w).2.count q = w.count q := by
  unfold OpenDataFile.defIconsStep IsDefIconsRunning
  simp only [FindPort, ParentDir, UnLock]
  split_ifs <;> (try split) <;>
    simp [count_emit, GetDefIconsDefaultTool_count _ _ _ q hq,
      GetDefIconsTypeIdentifier_count _ _ _ _ q hq, hq, fpDefIcons]

theorem defIconsStep_held (h : Host) (fileName : CStr) (fileLock : Nat) (w : World) (l : Nat) :
    (OpenDataFile.defIconsStep h fileName fileLock w).2.held l = w.held l := by
  unfold OpenDataFile.defIconsStep IsDefIconsRunning
  simp only [FindPort, ParentDir, UnLock]
  split_ifs <;> (try split) <;>
    simp_all [held_emit, GetDefIconsDefaultTool_held, GetDefIconsTypeIdentifier_held,
      Event.acquires, Event.releases]

theorem defIconsStep_pinned (h : Host) (fileName : CStr) (fileLock : Nat) (w : World)
    (d : DataType) :
    (OpenDataFile.defIconsStep h fileName fileLock w).2.pinned d = w.pinned d := by
  unfold OpenDataFile.defIconsStep IsDefIconsRunning
  simp only [FindPort, ParentDir, UnLock]
  split_ifs <;> (try split) <;>
    simp [pinned_emit, GetDefIconsDefaultTool_pinned, GetDefIconsTypeIdentifier_pinned,
      Event.obtains, Event.drops]

/-! ## The two launch mechanisms -/

theorem launchByName_extends (h : Host) (fileName tool : CStr) (w : World) :
    w.trace <+: (OpenDataFile.launchByName h fileName tool w).2.trace := by
  unfold OpenDataFile.launchByName
  simp only [Lock, ParentDir, UnLock, SetIoErr, OpenWorkbenchObjectA, Printf, PrintFault, IoErr]
  split_ifs <;> simp [trace_emit, List.append_assoc]

theorem launchByName_count (h : Host) (fileName tool : CStr) (w : World)
    (q : Event → Bool)
    (hq : ∀ e, fpLaunchByName fileName tool (OpenDataFile.launchParent h fileName w) e = true →
      q e = false) :
    (OpenDataFile.launchByName h fileName tool w).2.count q = w.count q := by
  unfold OpenDataFile.launchByName
  simp only [OpenDataFile.launchParent, Lock, ParentDir, UnLock, SetIoErr, OpenWorkbenchObjectA,
    Printf, PrintFault, IoErr] at hq ⊢
  split_ifs <;> simp_all [count_emit, fpLaunchByName]

theorem launchByName_launches (h : Host) (fileName tool : CStr) (w : World)
    (hl : OpenDataFile.launchLock h fileName w ≠ 0)
    (hp : OpenDataFile.launchParent h fileName w ≠ 0) :
    ∃ r, (OpenDataFile.launchByName h fileName tool w).1 = r ∧
      w.count (fun e => e == Event.OpenWorkbenchObjectA tool
        [TagItem.WBOPENA_ArgLock (OpenDataFile.launchParent h fileName w),
          TagItem.WBOPENA_ArgName (FilePart fileName)] r) <
      (OpenDataFile.launchByName h fileName tool w).2.count
        (fun e => e == Event.OpenWorkbenchObjectA tool
          [TagItem.WBOPENA_ArgLock (OpenDataFile.launchParent h fileName w),
            TagItem.WBOPENA_ArgName (FilePart fileName)] r) := by
  refine ⟨_, rfl, ?_⟩
  unfold OpenDataFile.launchByName
  simp only [OpenDataFile.launchLock, OpenDataFile.launchParent, Lock, ParentDir, UnLock,
    SetIoErr, OpenWorkbenchObjectA, Printf, PrintFault, IoErr] at hl hp ⊢
  split_ifs <;> simp_all [count_emit]

theorem launchByName_silent (h : Host) (fileName tool : CStr) (w : World)
    (hl : OpenDataFile.launchLock h fileName w = 0 ∨
      OpenDataFile.launchParent h fileName w = 0) :
    (OpenDataFile.launchByName h fileName tool w).2.count Event.isLaunch =
      w.count Event.isLaunch := by
  unfold OpenDataFile.launchByName
  simp only [OpenDataFile.launchLock, OpenDataFile.launchParent, Lock, ParentDir, UnLock,
    SetIoErr, OpenWorkbenchObjectA, Printf, PrintFault, IoErr] at hl ⊢
  split_ifs <;> simp_all [count_emit, Event.isLaunch]

theorem launchByName_held (h : Host) (fileName tool : CStr) (w : World) (l : Nat) :
    (OpenDataFile.launchByName h fileName tool w).2.held l = w.held l := by
  unfold OpenDataFile.launchByName
  simp only [Lock, ParentDir, UnLock, SetIoErr, OpenWorkbenchObjectA, Printf, PrintFault, IoErr]
  split_ifs <;> simp_all [held_emit, Event.acquires, Event.releases]

theorem launchByName_pinned (h : Host) (fileName tool : CStr) (w : World) (d : DataType) :
    (OpenDataFile.launchByName h fileName tool w).2.pinned d = w.pinned d := by
  unfold OpenDataFile.launchByName
  simp only [Lock, ParentDir, UnLock, SetIoErr, OpenWorkbenchObjectA, Printf, PrintFault, IoErr]
  split_ifs <;> simp [pinned_emit, Event.obtains, Event.drops]

theorem launchByNode_extends (h : Host) (fileName tool : CStr) (tn : ToolNode) (dtn : DataType)
    (w : World) : w.trace <+: (OpenDataFile.launchByNode h fileName tool tn dtn w).2.trace := by
  unfold OpenDataFile.launchByNode
  simp only [ReleaseDataType, SetIoErr, LaunchToolA, Printf, PrintFault, IoErr]
  split_ifs <;> simp [trace_emit, List.append_assoc]

theorem launchByNode_count (h : Host) (fileName tool : CStr) (tn : ToolNode) (dtn : DataType)
    (w : World) (q : Event → Bool) (hq : ∀ e, fpLaunchByNode fileName tn e = true → q e = false) :
    (OpenDataFile.launchByNode h fileName tool tn dtn w).2.count q = w.count q := by
  unfold OpenDataFile.launchByNode
  simp only [ReleaseDataType, SetIoErr, LaunchToolA, Printf, PrintFault, IoErr]
  split_ifs <;> simp_all [count_emit, fpLaunchByNode]

theorem launchByNode_held (h : Host) (fileName tool : CStr) (tn : ToolNode) (dtn : DataType)
    (w : World) (l : Nat) :
    (OpenDataFile.launchByNode h fileName tool tn dtn w).2.held l = w.held l := by
  unfold OpenDataFile.launchByNode
  simp only [ReleaseDataType, SetIoErr, LaunchToolA, Printf, PrintFault, IoErr]
  split_ifs <;> simp [held_emit, Event.acquires, Event.releases]

theorem launchByNode_pinned (h : Host) (fileName tool : CStr) (tn : ToolNode) (dtn : DataType)
    (w : World) (d : DataType) :
    (OpenDataFile.launchByNode h fileName tool tn dtn w).2.pinned d =
      w.pinned d - (if dtn = d then 1 else 0) := by
  unfold OpenDataFile.launchByNode
  simp only [ReleaseDataType, SetIoErr, LaunchToolA, Printf, PrintFault, IoErr]
  split_ifs <;> simp_all [pinned_emit, Event.obtains, Event.drops]

/-! ## The pinned registry lookup -/

theorem GetDatatypesToolNode_extends (h : Host) (fileName : CStr) (fileLock p : Nat)
    (w : World) : w.trace <+: (GetDatatypesToolNode h fileName fileLock p w).2.trace := by
  unfold GetDatatypesToolNode
  simp only [Enter, ObtainDataTypeA, ReleaseDataType]
  split_ifs <;> (try split) <;> (try split) <;> (try split) <;>
    simp [trace_emit, List.append_assoc]

theorem GetDatatypesToolNode_count (h : Host) (fileName : CStr) (fileLock p : Nat)
    (w : World) (q : Event → Bool) (hq : ∀ e, fpGetDatatypesToolNode e = true → q e = false) :
    (GetDatatypesToolNode h fileName fileLock p w).2.count q = w.count q := by
  unfold GetDatatypesToolNode
  simp only [Enter, ObtainDataTypeA, ReleaseDataType]
  split_ifs <;> (try split) <;> (try split) <;> (try split) <;>
    simp [count_emit, hq, fpGetDatatypesToolNode]

theorem GetDatatypesToolNode_held (h : Host) (fileName : CStr) (fileLock p : Nat)
    (w : World) (l : Nat) :
    (GetDatatypesToolNode h fileName fileLock p w).2.held l = w.held l := by
  unfold GetDatatypesToolNode
  simp only [Enter, ObtainDataTypeA, ReleaseDataType]
  split_ifs <;> (try split) <;> (try split) <;> (try split) <;>
    simp [held_emit, Event.acquires, Event.releases]

/-! ## The format-registry lookup -/

theorem ranked_skip (toolList : List ToolNode) (pre : List Nat) (rest : List Nat)
    (hpre : ∀ x ∈ pre, ∀ tn, FindToolNodeA toolList x = some tn →
      nonEmpty tn.tn_Tool.tn_Program = false) :
    GetDatatypesTool.ranked toolList (pre ++ rest) = GetDatatypesTool.ranked toolList rest := by
  induction pre with
  | nil => rfl
  | cons a pre ih =>
    have ih1 := ih (fun x hx => hpre x (List.mem_cons_of_mem _ hx))
    have ha := hpre a (List.mem_cons_self _ _)
    simp only [List.cons_append, GetDatatypesTool.ranked]
    cases hf : FindToolNodeA toolList a with
    | none => simpa using ih1
    | some tn => simp [ha tn hf, ih1]

theorem ranked_hit (toolList : List ToolNode) (which : Nat) (post : List Nat) (tn : ToolNode)
    (hf : FindToolNodeA toolList which = some tn)
    (hne : nonEmpty tn.tn_Tool.tn_Program = true) :
    GetDatatypesTool.ranked toolList (which :: post) = tn.tn_Tool.tn_Program := by
  simp [GetDatatypesTool.ranked, hf, hne]

theorem ranked_nonEmpty (toolList : List ToolNode) (order : List Nat) (name : CStr)
    (hr : GetDatatypesTool.ranked toolList order = some name) :
    ∃ tn ∈ toolList, tn.tn_Tool.tn_Program = some name ∧ nonEmpty (some name) = true := by
  induction order with
  | nil => simp [GetDatatypesTool.ranked] at hr
  | cons a order ih =>
    simp only [GetDatatypesTool.ranked] at hr
    cases hf : FindToolNodeA toolList a with
    | none => rw [hf] at hr; exact ih hr
    | some tn =>
      rw [hf] at hr
      by_cases hne : nonEmpty tn.tn_Tool.tn_Program = true
      · simp only [hne, if_true] at hr
        refine ⟨tn, List.mem_of_find?_eq_some hf, hr, ?_⟩
        rw [← hr]; exact hne
      · simp only [hne] at hr
        exact ih hr

theorem manual_eq_none (toolList : List ToolNode) :
    GetDatatypesTool.manual toolList = none ↔
      ∀ tn ∈ toolList, nonEmpty tn.tn_Tool.tn_Program = false := by
  unfold GetDatatypesTool.manual
  cases hf : toolList.find? (fun tn => nonEmpty tn.tn_Tool.tn_Program) with
  | none =>
    simp only [true_iff]
    intro tn htn
    have := List.find?_eq_none.mp hf tn htn
    simpa using this
  | some tn =>
    have h1 := List.find?_some hf
    have h2 := List.mem_of_find?_eq_some hf
    simp only at h1
    constructor
    · intro hn
      simp only at hn
      rw [hn] at h1
      simp [nonEmpty] at h1
    · intro hall
      rw [hall tn h2] at h1
      simp at h1

theorem GetDatatypesTool_result (h : Host) (fileName : CStr) (fileLock preferredTool : Nat)
    (w : World) (dtn : DataType) (hbase : h.DataTypesBase = true) (hlock : fileLock ≠ 0)
    (hreg : h.onObtainDataTypeA (Enter .GetDatatypesTool w) fileLock = some dtn) :
    (GetDatatypesTool h fileName fileLock preferredTool w).1 =
      if GetDatatypesTool.ranked dtn.dtn_ToolList (GetDatatypesTool.toolOrder preferredTool) = none
      then GetDatatypesTool.manual dtn.dtn_ToolList
      else GetDatatypesTool.ranked dtn.dtn_ToolList (GetDatatypesTool.toolOrder preferredTool) := by
  simp [GetDatatypesTool, ObtainDataTypeA, hbase, hlock, hreg]

/-- Claim C7: for each of the five purposes the tool order computed in `GetDatatypesTool`, and
the one computed in `GetDatatypesToolNode`, has three entries with the purpose first; for
Browse, Edit and Info it contains Browse, Edit and Info; for Print and Mail it is the purpose
followed by Browse and Edit. -/
theorem C7_tool_order :
    ∀ p ∈ [TW_BROWSE, TW_EDIT, TW_INFO, TW_PRINT, TW_MAIL],
      GetDatatypesToolNode.toolOrder p = GetDatatypesTool.toolOrder p ∧
      (GetDatatypesTool.toolOrder p).length = 3 ∧
      (GetDatatypesTool.toolOrder p).head? = some p ∧
      (p ∈ [TW_BROWSE, TW_EDIT, TW_INFO] →
        TW_BROWSE ∈ GetDatatypesTool.toolOrder p ∧ TW_EDIT ∈ GetDatatypesTool.toolOrder p ∧
          TW_INFO ∈ GetDatatypesTool.toolOrder p) ∧
      (p ∈ [TW_PRINT, TW_MAIL] → GetDatatypesTool.toolOrder p = [p, TW_BROWSE, TW_EDIT]) := by
  decide

/-- Claim C8: with the registry entry `dtn` obtained for the file, `GetDatatypesTool` returns
the program name of the node `FindToolNodeA` finds for the earliest purpose of the tool order
whose node has a non-empty program name; when no purpose of the order has such a node it
returns the program name of the first node of the list with a non-empty one; it returns
nothing iff no node of the list has a non-empty program name; and for Edit with no Edit and
no Browse node and an Info node with a non-empty name, that name is returned. -/
theorem C8_registry_name_lookup (h : Host) (fileName : CStr) (fileLock preferredTool : Nat)
    (w : World) (dtn : DataType) (hbase : h.DataTypesBase = true) (hlock : fileLock ≠ 0)
    (hreg : h.onObtainDataTypeA (Enter .GetDatatypesTool w) fileLock = some dtn) :
    (∀ pre which post tn, GetDatatypesTool.toolOrder preferredTool = pre ++ which :: post →
      (∀ x ∈ pre, ∀ n, FindToolNodeA dtn.dtn_ToolList x = some n →
        nonEmpty n.tn_Tool.tn_Program = false) →
      FindToolNodeA dtn.dtn_ToolList which = some tn →
      nonEmpty tn.tn_Tool.tn_Program = true →
      (GetDatatypesTool h fileName fileLock preferredTool w).1 = tn.tn_Tool.tn_Program) ∧
    ((∀ x ∈ GetDatatypesTool.toolOrder preferredTool, ∀ n,
        FindToolNodeA dtn.dtn_ToolList x = some n → nonEmpty n.tn_Tool.tn_Program = false) →
      (GetDatatypesTool h fileName fileLock preferredTool w).1 =
        (dtn.dtn_ToolList.find? (fun tn => nonEmpty tn.tn_Tool.tn_Program)).bind
          (fun tn => tn.tn_Tool.tn_Program)) ∧
    ((GetDatatypesTool h fileName fileLock preferredTool w).1 = none ↔
      ∀ tn ∈ dtn.dtn_ToolList, nonEmpty tn.tn_Tool.tn_Program = false) ∧
    (∀ tn, preferredTool = TW_EDIT → FindToolNodeA dtn.dtn_ToolList TW_EDIT = none →
      FindToolNodeA dtn.dtn_ToolList TW_BROWSE = none →
      FindToolNodeA dtn.dtn_ToolList TW_INFO = some tn →
      nonEmpty tn.tn_Tool.tn_Program = true →
      (GetDatatypesTool h fileName fileLock preferredTool w).1 = tn.tn_Tool.tn_Program) := by
  have hres := GetDatatypesTool_result h fileName fileLock preferredTool w dtn hbase hlock hreg
  have hhit : ∀ pre which post tn,
      GetDatatypesTool.toolOrder preferredTool = pre ++ which :: post →
      (∀ x ∈ pre, ∀ n, FindToolNodeA dtn.dtn_ToolList x = some n →
        nonEmpty n.tn_Tool.tn_Program = false) →
      FindToolNodeA dtn.dtn_ToolList which = some tn →
      nonEmpty tn.tn_Tool.tn_Program = true →
      (GetDatatypesTool h fileName fileLock preferredTool w).1 = tn.tn_Tool.tn_Program := by
    intro pre which post tn hord hpre hf hne
    have hr : GetDatatypesTool.ranked dtn.dtn_ToolList
        (GetDatatypesTool.toolOrder preferredTool) = tn.tn_Tool.tn_Program := by
      rw [hord, ranked_skip _ _ _ hpre]
      exact ranked_hit _ _ _ _ hf hne
    rw [hres, hr]
    cases hp : tn.tn_Tool.tn_Program with
    | none => rw [hp] at hne; simp [nonEmpty] at hne
    | some v => simp
  refine ⟨hhit, ?_, ?_, ?_⟩
  · intro hall
    have hr : GetDatatypesTool.ranked dtn.dtn_ToolList
        (GetDatatypesTool.toolOrder preferredTool) = none := by
      have := ranked_skip dtn.dtn_ToolList (GetDatatypesTool.toolOrder preferredTool) [] hall
      simpa [GetDatatypesTool.ranked] using this
    rw [hres, hr]
    simp only [if_true, GetDatatypesTool.manual]
    cases dtn.dtn_ToolList.find? (fun tn => nonEmpty tn.tn_Tool.tn_Program) <;> rfl
  · rw [hres]
    constructor
    · intro hn
      by_cases hr : GetDatatypesTool.ranked dtn.dtn_ToolList
          (GetDatatypesTool.toolOrder preferredTool) = none
      · rw [if_pos hr] at hn
        exact (manual_eq_none _).mp hn
      · rw [if_neg hr] at hn
        exact absurd hn hr
    · intro hall
      have hr : GetDatatypesTool.ranked dtn.dtn_ToolList
          (GetDatatypesTool.toolOrder preferredTool) = none := by
        cases hc : GetDatatypesTool.ranked dtn.dtn_ToolList
            (GetDatatypesTool.toolOrder preferredTool) with
        | none => rfl
        | some name =>
          obtain ⟨tn, htn, hp, hne⟩ := ranked_nonEmpty _ _ _ hc
          have := hall tn htn
          rw [hp, hne] at this
          exact absurd this (by decide)
      rw [if_pos hr]
      exact (manual_eq_none _).mpr hall
  · intro tn hp hE hB hI hne
    refine hhit [TW_EDIT, TW_BROWSE] TW_INFO [] tn ?_ ?_ hI hne
    · rw [hp]; rfl
    · intro x hx n hn
      simp only [List.mem_cons, List.mem_singleton, List.not_mem_nil, or_false] at hx
      rcases hx with rfl | rfl
      · rw [hE] at hn; cases hn
      · rw [hB] at hn; cases hn

/-! ## What the footprints exclude -/

theorem fpDefIcons_not_registry : ∀ e, fpDefIcons e = true → e.isRegistry = false := by
  intro e; cases e <;> simp [fpDefIcons, Event.isRegistry]
  rename_i f; cases f <;> simp

theorem fpDefIcons_not_iconSource : ∀ e, fpDefIcons e = true → e.isIconSource = false := by
  intro e; cases e <;> simp [fpDefIcons, Event.isIconSource]
  rename_i f; cases f <;> simp

theorem fpDefIcons_not_launch : ∀ e, fpDefIcons e = true → e.isLaunch = false := by
  intro e; cases e <;> simp [fpDefIcons, Event.isLaunch]

theorem fpGetDatatypesTool_not_iconSource :
    ∀ e, fpGetDatatypesTool e = true → e.isIconSource = false := by
  intro e; cases e <;> simp [fpGetDatatypesTool, Event.isIconSource]
  rename_i f; cases f <;> simp

theorem fpGetDatatypesTool_not_launch :
    ∀ e, fpGetDatatypesTool e = true → e.isLaunch = false := by
  intro e; cases e <;> simp [fpGetDatatypesTool, Event.isLaunch]

theorem fpGetIconDefaultTool_not_launch :
    ∀ e, fpGetIconDefaultTool e = true → e.isLaunch = false := by
  intro e; cases e <;> simp [fpGetIconDefaultTool, Event.isLaunch]

theorem fpLaunchByName_not_registry (fileName tool : CStr) (p : Nat) :
    ∀ e, fpLaunchByName fileName tool p e = true → e.isRegistry = false := by
  intro e; cases e <;> simp [fpLaunchByName, Event.isRegistry]

theorem fpLaunchByName_not_iconSource (fileName tool : CStr) (p : Nat) :
    ∀ e, fpLaunchByName fileName tool p e = true → e.isIconSource = false := by
  intro e; cases e <;> simp [fpLaunchByName, Event.isIconSource]

/-! ## Resolution in `OpenDataFile` -/

theorem OpenDataFile_eq (h : Host) (fileName : CStr) (fileLock : Nat) (forceTool : Option CStr)
    (fb fe fi fp fm : Bool) (w : World) (hlock : fileLock ≠ 0) :
    OpenDataFile h fileName fileLock forceTool fb fe fi fp fm w =
      OpenDataFile.launch h fileName fileLock
        (OpenDataFile.resolve h fileName fileLock forceTool fb fe fi fp fm
          (Enter .OpenDataFile w)).1
        (OpenDataFile.resolve h fileName fileLock forceTool fb fe fi fp fm
          (Enter .OpenDataFile w)).2 := by
  simp [OpenDataFile, hlock]

theorem nonEmpty_eq_true {p : Option CStr} (hp : nonEmpty p = true) :
    ∃ c cs, p = some (c :: cs) := by
  match p, hp with
  | some (c :: cs), _ => exact ⟨c, cs, rfl⟩

theorem assignTool_of_empty (o : Origin) {p : Option CStr} (tool : Option ToolPtr)
    (hp : nonEmpty p = false) : assignTool o p tool = tool := by
  match p, hp with
  | none, _ => rfl
  | some [], _ => rfl

theorem resolve_defIcons (h : Host) (fileName : CStr) (fileLock : Nat) (forceTool : Option CStr)
    (fb fe fi fp fm : Bool) (w : World) (t : CStr) (hforce : nonEmpty forceTool = false)
    (hdef : (OpenDataFile.defIconsStep h fileName fileLock w).1 = some t)
    (hne : nonEmpty (some t) = true) :
    OpenDataFile.resolve h fileName fileLock forceTool fb fe fi fp fm w =
      ({ tool := some ⟨.defIcons, t⟩, defIconsTool := some t, datatypesTool := none,
         iconTool := none,
         preferredTool := OpenDataFile.preferredTool fb fe fi fp fm },
        (OpenDataFile.defIconsStep h fileName fileLock w).2) := by
  obtain ⟨c, cs, hcs⟩ := nonEmpty_eq_true hne
  cases hcs
  simp [OpenDataFile.resolve, hforce, hdef, assignTool]

theorem launch_defIcons (h : Host) (fileName : CStr) (fileLock : Nat) (t : CStr)
    (dt it : Option CStr) (pt : Nat) (w : World) (hne : nonEmpty (some t) = true) :
    OpenDataFile.launch h fileName fileLock
      { tool := some ⟨.defIcons, t⟩, defIconsTool := some t, datatypesTool := dt,
        iconTool := it, preferredTool := pt } w =
      OpenDataFile.launchByName h fileName t w := by
  obtain ⟨c, cs, hcs⟩ := nonEmpty_eq_true hne
  cases hcs
  simp [OpenDataFile.launch, samePtr]

/-- Claim C2: with no explicit tool, when the DefIcons step of `OpenDataFile` (which asks
whether the service is running and then identifies the file) leaves a non-empty tool, no
event of the run enters `GetDatatypesTool`, `GetDatatypesToolNode` or `GetIconDefaultTool`,
and none is a datatypes.library call (`ObtainDataTypeA`, `ReleaseDataType`, `LaunchToolA`). -/
theorem C2_type_identification_short_circuit (h : Host) (fileName : CStr) (fileLock : Nat)
    (forceTool : Option CStr) (fb fe fi fp fm : Bool) (w : World)
    (hlock : fileLock ≠ 0) (hforce : nonEmpty forceTool = false)
    (hdef : nonEmpty
      (OpenDataFile.defIconsStep h fileName fileLock (Enter .OpenDataFile w)).1 = true) :
    ∃ evs, (OpenDataFile h fileName fileLock forceTool fb fe fi fp fm w).2.trace =
        w.trace ++ evs ∧
      ∀ e ∈ evs, e.isRegistry = false ∧ e.isIconSource = false := by
  obtain ⟨c, cs, hcs⟩ := nonEmpty_eq_true hdef
  have hne : nonEmpty (some (c :: cs)) = true := rfl
  have key := OpenDataFile_eq h fileName fileLock forceTool fb fe fi fp fm w hlock
  rw [resolve_defIcons h fileName fileLock forceTool fb fe fi fp fm _ _ hforce hcs hne,
    launch_defIcons h fileName fileLock _ _ _ _ _ hne] at key
  have hpre : w.trace <+: (OpenDataFile h fileName fileLock forceTool fb fe fi fp fm w).2.trace := by
    rw [key]
    refine List.IsPrefix.trans ?_ (launchByName_extends _ _ _ _)
    refine List.IsPrefix.trans ?_ (defIconsStep_extends _ _ _ _)
    simp [Enter, trace_emit]
  have hcount : ∀ q : Event → Bool, q (.Enter .OpenDataFile) = false →
      (∀ e, fpDefIcons e = true → q e = false) →
      (∀ p e, fpLaunchByName fileName (c :: cs) p e = true → q e = false) →
      (OpenDataFile h fileName fileLock forceTool fb fe fi fp fm w).2.count q = w.count q := by
    intro q h0 h1 h2
    rw [key, launchByName_count _ _ _ _ q (h2 _), defIconsStep_count _ _ _ _ q h1]
    simp [Enter, count_emit, h0]
  obtain ⟨evs, hevs⟩ := hpre
  refine ⟨evs, hevs.symm, fun e he => ⟨?_, ?_⟩⟩
  · exact none_of_count hevs.symm
      (hcount _ rfl fpDefIcons_not_registry (fpLaunchByName_not_registry _ _)) e he
  · exact none_of_count hevs.symm
      (hcount _ rfl fpDefIcons_not_iconSource (fpLaunchByName_not_iconSource _ _)) e he

theorem registryStep_extends (h : Host) (fileName : CStr) (fileLock p : Nat) (w : World) :
    w.trace <+: (OpenDataFile.registryStep h fileName fileLock p w).2.trace := by
  unfold OpenDataFile.registryStep
  split_ifs
  · exact GetDatatypesTool_extends _ _ _ _ _
  · exact List.prefix_refl _

theorem registryStep_count (h : Host) (fileName : CStr) (fileLock p : Nat) (w : World)
    (q : Event → Bool) (hq : ∀ e, fpGetDatatypesTool e = true → q e = false) :
    (OpenDataFile.registryStep h fileName fileLock p w).2.count q = w.count q := by
  unfold OpenDataFile.registryStep
  split_ifs
  · exact GetDatatypesTool_count _ _ _ _ _ q hq
  · rfl

theorem registryStep_held (h : Host) (fileName : CStr) (fileLock p : Nat) (w : World)
    (l : Nat) : (OpenDataFile.registryStep h fileName fileLock p w).2.held l = w.held l := by
  unfold OpenDataFile.registryStep
  split_ifs
  · exact GetDatatypesTool_held _ _ _ _ _ l
  · rfl

theorem registryStep_pinned (h : Host) (fileName : CStr) (fileLock p : Nat) (w : World)
    (d : DataType) :
    (OpenDataFile.registryStep h fileName fileLock p w).2.pinned d = w.pinned d := by
  unfold OpenDataFile.registryStep
  split_ifs
  · exact GetDatatypesTool_pinned _ _ _ _ _ d
  · rfl

theorem assignTool_of_nonEmpty (o : Origin) {p : Option CStr} (tool : Option ToolPtr)
    (hp : nonEmpty p = true) : assignTool o p tool = p.map (ToolPtr.mk o) := by
  obtain ⟨c, cs, hcs⟩ := nonEmpty_eq_true hp
  cases hcs
  rfl

theorem resolve_eq (h : Host) (fileName : CStr) (fileLock : Nat) (forceTool : Option CStr)
    (fb fe fi fp fm : Bool) (w : World) (hforce : nonEmpty forceTool = false) :
    OpenDataFile.resolve h fileName fileLock forceTool fb fe fi fp fm w =
      if nonEmpty (OpenDataFile.defIconsStep h fileName fileLock w).1 = true then
        ({ tool := assignTool .defIcons (OpenDataFile.defIconsStep h fileName fileLock w).1 none,
           defIconsTool := (OpenDataFile.defIconsStep h fileName fileLock w).1,
           datatypesTool := none, iconTool := none,
           preferredTool := OpenDataFile.preferredTool fb fe fi fp fm },
          (OpenDataFile.defIconsStep h fileName fileLock w).2)
      else
        let d := OpenDataFile.defIconsStep h fileName fileLock w
        let g := OpenDataFile.registryStep h fileName fileLock
          (OpenDataFile.preferredTool fb fe fi fp fm) d.2
        if nonEmpty g.1 = true then
          ({ tool := assignTool .datatypes g.1 none, defIconsTool := d.1, datatypesTool := g.1,
             iconTool := none,
             preferredTool := OpenDataFile.preferredTool fb fe fi fp fm }, g.2)
        else
          ({ tool := assignTool .icon (GetIconDefaultTool h fileName fileLock g.2).1 none,
             defIconsTool := d.1, datatypesTool := g.1,
             iconTool := (GetIconDefaultTool h fileName fileLock g.2).1,
             preferredTool := OpenDataFile.preferredTool fb fe fi fp fm },
            (GetIconDefaultTool h fileName fileLock g.2).2) := by
  unfold OpenDataFile.resolve OpenDataFile.registryStep
  simp only [hforce, Bool.false_eq_true, if_false]
  by_cases hd : nonEmpty (OpenDataFile.defIconsStep h fileName fileLock w).1 = true
  · obtain ⟨c, cs, hcs⟩ := nonEmpty_eq_true hd
    simp [hcs, assignTool, nonEmpty]
  · have hd0 : nonEmpty (OpenDataFile.defIconsStep h fileName fileLock w).1 = false := by
      simpa using hd
    simp only [hd, if_false, assignTool_of_empty _ _ hd0, true_and]
    by_cases hb : h.DataTypesBase = true
    · simp only [hb, if_true]
      by_cases hg : nonEmpty (GetDatatypesTool h fileName fileLock
          (OpenDataFile.preferredTool fb fe fi fp fm)
          (OpenDataFile.defIconsStep h fileName fileLock w).2).1 = true
      · obtain ⟨c, cs, hcs⟩ := nonEmpty_eq_true hg
        simp [hcs, assignTool, nonEmpty]
      · have hg0 : nonEmpty (GetDatatypesTool h fileName fileLock
            (OpenDataFile.preferredTool fb fe fi fp fm)
            (OpenDataFile.defIconsStep h fileName fileLock w).2).1 = false := by
          simpa using hg
        simp [hg, assignTool_of_empty _ _ hg0]
    · simp [hb, assignTool, nonEmpty]

/-- Claim C3: with no explicit tool, the tool `OpenDataFile` resolves is the first non-empty
result of the DefIcons step, the registry step and the icon step, in this order; when the
DefIcons step yields a tool the resolution appends no registry and no icon-source event, when
the registry step yields one it appends no icon-source event; and when all three yield nothing,
`OpenDataFile` returns failure, prints the no-tool message, makes no launch call, and has
released every lock and every registry entry it acquired. -/
theorem C3_resolution_order (h : Host) (fileName : CStr) (fileLock : Nat)
    (forceTool : Option CStr) (fb fe fi fp fm : Bool) (w : World)
    (hlock : fileLock ≠ 0) (hforce : nonEmpty forceTool = false) :
    ∀ d g i r,
      d = OpenDataFile.defIconsStep h fileName fileLock (Enter .OpenDataFile w) →
      g = OpenDataFile.registryStep h fileName fileLock
        (OpenDataFile.preferredTool fb fe fi fp fm) d.2 →
      i = GetIconDefaultTool h fileName fileLock g.2 →
      r = OpenDataFile.resolve h fileName fileLock forceTool fb fe fi fp fm
        (Enter .OpenDataFile w) →
      (nonEmpty d.1 = true →
        r.1.tool = d.1.map (ToolPtr.mk .defIcons) ∧ r.2 = d.2 ∧
        ∃ evs, r.2.trace = (Enter .OpenDataFile w).trace ++ evs ∧
          ∀ e ∈ evs, e.isRegistry = false ∧ e.isIconSource = false) ∧
      (nonEmpty d.1 = false → nonEmpty g.1 = true →
        r.1.tool = g.1.map (ToolPtr.mk .datatypes) ∧ r.2 = g.2 ∧
        ∃ evs, r.2.trace = (Enter .OpenDataFile w).trace ++ evs ∧
          ∀ e ∈ evs, e.isIconSource = false) ∧
      (nonEmpty d.1 = false → nonEmpty g.1 = false → nonEmpty i.1 = true →
        r.1.tool = i.1.map (ToolPtr.mk .icon) ∧ r.2 = i.2) ∧
      (nonEmpty d.1 = false → nonEmpty g.1 = false → nonEmpty i.1 = false →
        r.1.tool = none ∧
        (OpenDataFile h fileName fileLock forceTool fb fe fi fp fm w).1 = false ∧
        ∃ evs, (OpenDataFile h fileName fileLock forceTool fb fe fi fp fm w).2.trace =
            w.trace ++ evs ∧
          Event.Printf "Open: No tool found to open: %s\n" [fileName] ∈ evs ∧
          (∀ e ∈ evs, e.isLaunch = false) ∧ Balanced evs) := by
  intro d g i r hd hg hi hr
  have hres := resolve_eq h fileName fileLock forceTool fb fe fi fp fm
    (Enter .OpenDataFile w) hforce
  rw [← hr, ← hd] at hres
  simp only [← hg, ← hi] at hres
  have hpd : (Enter .OpenDataFile w).trace <+: d.2.trace := hd ▸ defIconsStep_extends _ _ _ _
  have hpg : d.2.trace <+: g.2.trace := hg ▸ registryStep_extends _ _ _ _ _
  have hpi : g.2.trace <+: i.2.trace := hi ▸ GetIconDefaultTool_extends _ _ _ _
  have hcd : ∀ q : Event → Bool, (∀ e, fpDefIcons e = true → q e = false) →
      d.2.count q = (Enter .OpenDataFile w).count q :=
    fun q hq => hd ▸ defIconsStep_count _ _ _ _ q hq
  have hcg : ∀ q : Event → Bool, (∀ e, fpGetDatatypesTool e = true → q e = false) →
      g.2.count q = d.2.count q :=
    fun q hq => hg ▸ registryStep_count _ _ _ _ _ q hq
  have hci : ∀ q : Event → Bool, (∀ e, fpGetIconDefaultTool e = true → q e = false) →
      i.2.count q = g.2.count q :=
    fun q hq => hi ▸ GetIconDefaultTool_count _ _ _ _ q hq
  refine ⟨?_, ?_, ?_, ?_⟩
  · intro h1
    rw [if_pos h1] at hres
    have h2 : r.2 = d.2 := by rw [hres]
    refine ⟨by rw [hres]; exact assignTool_of_nonEmpty _ _ h1, h2, ?_⟩
    rw [h2]
    obtain ⟨evs, hevs⟩ := hpd
    exact ⟨evs, hevs.symm, fun e he =>
      ⟨none_of_count hevs.symm (hcd _ fpDefIcons_not_registry) e he,
       none_of_count hevs.symm (hcd _ fpDefIcons_not_iconSource) e he⟩⟩
  · intro h1 h2
    rw [if_neg (by simp [h1]), if_pos h2] at hres
    have h3 : r.2 = g.2 := by rw [hres]
    refine ⟨by rw [hres]; exact assignTool_of_nonEmpty _ _ h2, h3, ?_⟩
    rw [h3]
    obtain ⟨evs, hevs⟩ := hpd.trans hpg
    refine ⟨evs, hevs.symm, none_of_count hevs.symm ?_⟩
    rw [hcg _ fpGetDatatypesTool_not_iconSource, hcd _ fpDefIcons_not_iconSource]
  · intro h1 h2 h3
    rw [if_neg (by simp [h1]), if_neg (by simp [h2])] at hres
    exact ⟨by rw [hres]; exact assignTool_of_nonEmpty _ _ h3, by rw [hres]⟩
  · intro h1 h2 h3
    rw [if_neg (by simp [h1]), if_neg (by simp [h2])] at hres
    have htool : r.1.tool = none := by rw [hres]; exact assignTool_of_empty _ _ h3
    have h4 : r.2 = i.2 := by rw [hres]
    have key := OpenDataFile_eq h fileName fileLock forceTool fb fe fi fp fm w hlock
    rw [← hr] at key
    have hl : OpenDataFile.launch h fileName fileLock r.1 r.2 =
        (false, Printf
          "Open: Try installing DefIcons or configuring datatypes for this file type.\n" []
          (Printf "Open: No tool found to open: %s\n" [fileName] i.2)) := by
      simp [OpenDataFile.launch, htool, h4]
    rw [hl] at key
    refine ⟨htool, by rw [key], ?_⟩
    obtain ⟨evs, hevs⟩ : w.trace <+: i.2.trace := by
      refine List.IsPrefix.trans ?_ ((hpd.trans hpg).trans hpi)
      simp [Enter, trace_emit]
    have htr : (OpenDataFile h fileName fileLock forceTool fb fe fi fp fm w).2.trace =
        w.trace ++ (evs ++ [Event.Printf "Open: No tool found to open: %s\n" [fileName],
          Event.Printf
            "Open: Try installing DefIcons or configuring datatypes for this file type.\n"
            []]) := by
      rw [key]
      simp [Printf, trace_emit, ← hevs, List.append_assoc]
    refine ⟨_, htr, by simp, ?_, ?_⟩
    · refine none_of_count htr ?_
      rw [key]
      simp [Printf, count_emit, Event.isLaunch, hci _ fpGetIconDefaultTool_not_launch,
        hcg _ fpGetDatatypesTool_not_launch, hcd _ fpDefIcons_not_launch, Enter]
    · refine balanced_of_held htr ?_ ?_
      · intro l
        rw [key, hi, hg, hd]
        simp [Printf, held_emit, Event.acquires, Event.releases, GetIconDefaultTool_held,
          registryStep_held, defIconsStep_held, Enter]
      · intro dt
        rw [key, hi, hg, hd]
        simp [Printf, pinned_emit, Event.obtains, Event.drops, GetIconDefaultTool_pinned,
          registryStep_pinned, defIconsStep_pinned, Enter]

/-! ## Agreement of the two registry lookups -/

theorem toolOrder_eq (p : Nat) :
    GetDatatypesToolNode.toolOrder p = GetDatatypesTool.toolOrder p := rfl

theorem node_ranked_inl (toolList : List ToolNode) (order : List Nat)
    (init : Option ToolNode) (tn : ToolNode)
    (hr : GetDatatypesToolNode.ranked toolList order init = Sum.inl tn) :
    GetDatatypesTool.ranked toolList order = tn.tn_Tool.tn_Program ∧
      nonEmpty tn.tn_Tool.tn_Program = true ∧ tn ∈ toolList := by
  induction order generalizing init with
  | nil => simp [GetDatatypesToolNode.ranked] at hr
  | cons a order ih =>
    simp only [GetDatatypesToolNode.ranked] at hr
    simp only [GetDatatypesTool.ranked]
    cases hf : FindToolNodeA toolList a with
    | none =>
      rw [hf] at hr
      exact ih _ hr
    | some n =>
      rw [hf] at hr
      by_cases hne : nonEmpty n.tn_Tool.tn_Program = true
      · simp only [hne, if_true] at hr ⊢
        cases hr
        exact ⟨rfl, hne, List.mem_of_find?_eq_some hf⟩
      · simp only [hne] at hr ⊢
        exact ih _ hr

theorem node_ranked_inr (toolList : List ToolNode) (order : List Nat)
    (init last : Option ToolNode)
    (hr : GetDatatypesToolNode.ranked toolList order init = Sum.inr last) :
    GetDatatypesTool.ranked toolList order = none := by
  induction order generalizing init with
  | nil => rfl
  | cons a order ih =>
    simp only [GetDatatypesToolNode.ranked] at hr
    simp only [GetDatatypesTool.ranked]
    cases hf : FindToolNodeA toolList a with
    | none =>
      rw [hf] at hr
      exact ih _ hr
    | some n =>
      rw [hf] at hr
      by_cases hne : nonEmpty n.tn_Tool.tn_Program = true
      · simp [hne] at hr
      · simp only [hne] at hr ⊢
        exact ih _ hr

theorem GetDatatypesToolNode_some (h : Host) (fileName : CStr) (fileLock p : Nat) (w : World)
    (tn : ToolNode) (dtn : DataType)
    (hres : (GetDatatypesToolNode h fileName fileLock p w).1 = (some tn, some dtn)) :
    h.DataTypesBase = true ∧ fileLock ≠ 0 ∧
    h.onObtainDataTypeA (Enter .GetDatatypesToolNode w) fileLock = some dtn ∧
    tn ∈ dtn.dtn_ToolList ∧ nonEmpty tn.tn_Tool.tn_Program = true ∧
    (if GetDatatypesTool.ranked dtn.dtn_ToolList (GetDatatypesTool.toolOrder p) = none
      then GetDatatypesTool.manual dtn.dtn_ToolList
      else GetDatatypesTool.ranked dtn.dtn_ToolList (GetDatatypesTool.toolOrder p)) =
        tn.tn_Tool.tn_Program := by
  unfold GetDatatypesToolNode at hres
  simp only [ObtainDataTypeA] at hres
  split_ifs at hres with hg
  · simp at hres
  · have hb : h.DataTypesBase = true := by
      cases hc : h.DataTypesBase with
      | true => rfl
      | false => exact absurd (Or.inl (by simp [hc])) hg
    have hl : fileLock ≠ 0 := fun hc => hg (Or.inr hc)
    cases ho : h.onObtainDataTypeA (Enter .GetDatatypesToolNode w) fileLock with
    | none => rw [ho] at hres; simp at hres
    | some d =>
      rw [ho] at hres
      simp only at hres
      rw [toolOrder_eq] at hres
      cases hr : GetDatatypesToolNode.ranked d.dtn_ToolList (GetDatatypesTool.toolOrder p)
          none with
      | inl n =>
        rw [hr] at hres
        simp only [Prod.mk.injEq, Option.some.injEq] at hres
        obtain ⟨rfl, rfl⟩ := hres
        obtain ⟨h1, h2, h3⟩ := node_ranked_inl _ _ _ _ hr
        refine ⟨hb, hl, rfl, h3, h2, ?_⟩
        rw [h1]
        obtain ⟨c, cs, hcs⟩ := nonEmpty_eq_true h2
        simp [hcs]
      | inr last =>
        rw [hr] at hres
        have h1 := node_ranked_inr _ _ _ _ hr
        cases last with
        | some n => simp at hres
        | none =>
          simp only at hres
          cases hf : d.dtn_ToolList.find? (fun tn => nonEmpty tn.tn_Tool.tn_Program) with
          | none => rw [hf] at hres; simp at hres
          | some n =>
            rw [hf] at hres
            simp only [Prod.mk.injEq, Option.some.injEq] at hres
            obtain ⟨rfl, rfl⟩ := hres
            refine ⟨hb, hl, rfl, List.mem_of_find?_eq_some hf, ?_, ?_⟩
            · simpa using List.find?_some hf
            · simp [h1, GetDatatypesTool.manual, hf]

/-! ## The two parts of `OpenDataFile` -/

theorem fpResolve_not_launch : ∀ e, fpResolve e = true → e.isLaunch = false := by
  intro e; cases e <;> simp [fpResolve, fpDefIcons, fpGetDatatypesTool, fpGetIconDefaultTool,
    Event.isLaunch]

theorem resolve_forced (h : Host) (fileName : CStr) (fileLock : Nat) (forceTool : Option CStr)
    (fb fe fi fp fm : Bool) (w : World) (hforce : nonEmpty forceTool = true) :
    ∃ t, forceTool = some t ∧ nonEmpty (some t) = true ∧
      OpenDataFile.resolve h fileName fileLock forceTool fb fe fi fp fm w =
        ({ tool := some ⟨.forced, t⟩, defIconsTool := none, datatypesTool := none,
           iconTool := none, preferredTool := TW_BROWSE }, w) := by
  obtain ⟨c, cs, hcs⟩ := nonEmpty_eq_true hforce
  refine ⟨c :: cs, hcs, rfl, ?_⟩
  simp [OpenDataFile.resolve, hcs, nonEmpty, assignTool]

theorem resolve_extends (h : Host) (fileName : CStr) (fileLock : Nat) (forceTool : Option CStr)
    (fb fe fi fp fm : Bool) (w : World) :
    w.trace <+: (OpenDataFile.resolve h fileName fileLock forceTool fb fe fi fp fm w).2.trace := by
  by_cases hforce : nonEmpty forceTool = true
  · obtain ⟨t, _, _, hr⟩ := resolve_forced h fileName fileLock forceTool fb fe fi fp fm w hforce
    rw [hr]
  · have hf : nonEmpty forceTool = false := by simpa using hforce
    rw [resolve_eq h fileName fileLock forceTool fb fe fi fp fm w hf]
    have h1 := defIconsStep_extends h fileName fileLock w
    have h2 := registryStep_extends h fileName fileLock
      (OpenDataFile.preferredTool fb fe fi fp fm)
      (OpenDataFile.defIconsStep h fileName fileLock w).2
    have h3 := GetIconDefaultTool_extends h fileName fileLock
      (OpenDataFile.registryStep h fileName fileLock
        (OpenDataFile.preferredTool fb fe fi fp fm)
        (OpenDataFile.defIconsStep h fileName fileLock w).2).2
    simp only
    split_ifs
    · exact h1
    · exact h1.trans h2
    · exact (h1.trans h2).trans h3

theorem resolve_count (h : Host) (fileName : CStr) (fileLock : Nat) (forceTool : Option CStr)
    (fb fe fi fp fm : Bool) (w : World) (q : Event → Bool)
    (hq : ∀ e, fpResolve e = true → q e = false) :
    (OpenDataFile.resolve h fileName fileLock forceTool fb fe fi fp fm w).2.count q =
      w.count q := by
  have hq1 : ∀ e, fpDefIcons e = true → q e = false :=
    fun e he => hq e (by simp [fpResolve, he])
  have hq2 : ∀ e, fpGetDatatypesTool e = true → q e = false :=
    fun e he => hq e (by simp [fpResolve, he])
  have hq3 : ∀ e, fpGetIconDefaultTool e = true → q e = false :=
    fun e he => hq e (by simp [fpResolve, he])
  by_cases hforce : nonEmpty forceTool = true
  · obtain ⟨t, _, _, hr⟩ := resolve_forced h fileName fileLock forceTool fb fe fi fp fm w hforce
    rw [hr]
  · have hf : nonEmpty forceTool = false := by simpa using hforce
    rw [resolve_eq h fileName fileLock forceTool fb fe fi fp fm w hf]
    simp only
    split_ifs
    · exact defIconsStep_count _ _ _ _ q hq1
    · rw [registryStep_count _ _ _ _ _ q hq2, defIconsStep_count _ _ _ _ q hq1]
    · rw [GetIconDefaultTool_count _ _ _ _ q hq3, registryStep_count _ _ _ _ _ q hq2,
        defIconsStep_count _ _ _ _ q hq1]

theorem resolve_facts (h : Host) (fileName : CStr) (fileLock : Nat) (forceTool : Option CStr)
    (fb fe fi fp fm : Bool) (w : World) (hforce : nonEmpty forceTool = false) (o : Origin)
    (t : CStr)
    (ht : (OpenDataFile.resolve h fileName fileLock forceTool fb fe fi fp fm w).1.tool =
      some ⟨o, t⟩) :
    nonEmpty (some t) = true ∧ o ≠ .forced ∧
    (OpenDataFile.resolve h fileName fileLock forceTool fb fe fi fp fm w).1.preferredTool =
      OpenDataFile.preferredTool fb fe fi fp fm ∧
    (o = .defIcons →
      (OpenDataFile.resolve h fileName fileLock forceTool fb fe fi fp fm w).1.defIconsTool =
        some t) ∧
    (o = .icon →
      (OpenDataFile.resolve h fileName fileLock forceTool fb fe fi fp fm w).1.iconTool =
        some t) ∧
    (o = .datatypes → h.DataTypesBase = true ∧
      (GetDatatypesTool h fileName fileLock (OpenDataFile.preferredTool fb fe fi fp fm)
        (OpenDataFile.defIconsStep h fileName fileLock w).2).1 = some t) := by
  rw [resolve_eq h fileName fileLock forceTool fb fe fi fp fm w hforce] at ht ⊢
  simp only at ht ⊢
  split_ifs at ht ⊢ with h1 h2
  · simp only at ht ⊢
    rw [assignTool_of_nonEmpty _ _ h1] at ht
    obtain ⟨c, cs, hcs⟩ := nonEmpty_eq_true h1
    rw [hcs] at ht ⊢
    simp only [Option.map_some', Option.some.injEq, ToolPtr.mk.injEq] at ht
    obtain ⟨rfl, rfl⟩ := ht
    simp [nonEmpty]
  · simp only at ht ⊢
    rw [assignTool_of_nonEmpty _ _ h2] at ht
    obtain ⟨c, cs, hcs⟩ := nonEmpty_eq_true h2
    rw [hcs] at ht
    simp only [Option.map_some', Option.some.injEq, ToolPtr.mk.injEq] at ht
    obtain ⟨rfl, rfl⟩ := ht
    have hb : h.DataTypesBase = true := by
      cases hc : h.DataTypesBase with
      | true => rfl
      | false => simp [OpenDataFile.registryStep, hc, nonEmpty] at h2
    refine ⟨rfl, by simp, by simp, by simp, by simp, fun _ => ⟨hb, ?_⟩⟩
    simpa [OpenDataFile.registryStep, hb] using hcs
  · simp only at ht ⊢
    by_cases h3 : nonEmpty (GetIconDefaultTool h fileName fileLock
        (OpenDataFile.registryStep h fileName fileLock
          (OpenDataFile.preferredTool fb fe fi fp fm)
          (OpenDataFile.defIconsStep h fileName fileLock w).2).2).1 = true
    · rw [assignTool_of_nonEmpty _ _ h3] at ht
      obtain ⟨c, cs, hcs⟩ := nonEmpty_eq_true h3
      rw [hcs] at ht ⊢
      simp only [Option.map_some', Option.some.injEq, ToolPtr.mk.injEq] at ht
      obtain ⟨rfl, rfl⟩ := ht
      simp [nonEmpty]
    · have h3f : nonEmpty (GetIconDefaultTool h fileName fileLock
          (OpenDataFile.registryStep h fileName fileLock
            (OpenDataFile.preferredTool fb fe fi fp fm)
            (OpenDataFile.defIconsStep h fileName fileLock w).2).2).1 = false := by
        simpa using h3
      rw [assignTool_of_empty _ _ h3f] at ht
      cases ht

theorem launch_none (h : Host) (fileName : CStr) (fileLock : Nat) (l : Locals) (w : World)
    (ht : l.tool = none) :
    OpenDataFile.launch h fileName fileLock l w =
      (false,
        Printf "Open: Try installing DefIcons or configuring datatypes for this file type.\n" []
          (Printf "Open: No tool found to open: %s\n" [fileName] w)) := by
  simp [OpenDataFile.launch, ht]

theorem launch_owned (h : Host) (fileName : CStr) (fileLock : Nat) (l : Locals) (w : World)
    (o : Origin) (t : CStr) (ht : l.tool = some ⟨o, t⟩) (hne : nonEmpty (some t) = true)
    (ho : (o = .defIcons ∧ l.defIconsTool = some t) ∨ (o = .icon ∧ l.iconTool = some t)) :
    OpenDataFile.launch h fileName fileLock l w =
      OpenDataFile.launchByName h fileName t w := by
  obtain ⟨c, cs, hcs⟩ := nonEmpty_eq_true hne
  cases hcs
  rcases ho with ⟨rfl, hd⟩ | ⟨rfl, hi⟩
  · simp [OpenDataFile.launch, ht, samePtr, hd]
  · simp [OpenDataFile.launch, ht, samePtr, hi]

theorem launch_pinned (h : Host) (fileName : CStr) (fileLock : Nat) (l : Locals) (w : World)
    (o : Origin) (t : CStr) (ht : l.tool = some ⟨o, t⟩) (hne : nonEmpty (some t) = true)
    (ho : o = .datatypes ∨ o = .forced) :
    OpenDataFile.launch h fileName fileLock l w =
      match (GetDatatypesToolNode h fileName fileLock l.preferredTool w).1 with
      | (some tn, some dtn) =>
        OpenDataFile.launchByNode h fileName t tn dtn
          (GetDatatypesToolNode h fileName fileLock l.preferredTool w).2
      | _ =>
        OpenDataFile.launchByName h fileName t
          (GetDatatypesToolNode h fileName fileLock l.preferredTool w).2 := by
  obtain ⟨c, cs, hcs⟩ := nonEmpty_eq_true hne
  cases hcs
  have h1 : samePtr (some ⟨o, c :: cs⟩) .defIcons l.defIconsTool = false := by
    rcases ho with rfl | rfl <;> cases l.defIconsTool <;> simp [samePtr]
  have h2 : samePtr (some ⟨o, c :: cs⟩) .icon l.iconTool = false := by
    rcases ho with rfl | rfl <;> cases l.iconTool <;> simp [samePtr]
  simp only [OpenDataFile.launch, ht, h1, h2, Bool.false_eq_true, or_self, if_false]

theorem launch_extends (h : Host) (fileName : CStr) (fileLock : Nat) (l : Locals) (w : World) :
    w.trace <+: (OpenDataFile.launch h fileName fileLock l w).2.trace := by
  unfold OpenDataFile.launch
  split
  · split_ifs
    · exact launchByName_extends _ _ _ _
    · dsimp only
      split
      · exact (GetDatatypesToolNode_extends _ _ _ _ _).trans (launchByNode_extends _ _ _ _ _ _)
      · exact (GetDatatypesToolNode_extends _ _ _ _ _).trans (launchByName_extends _ _ _ _)
  · simp [Printf, trace_emit, List.append_assoc]

theorem OpenDataFile_extends (h : Host) (fileName : CStr) (fileLock : Nat)
    (forceTool : Option CStr) (fb fe fi fp fm : Bool) (w : World) :
    w.trace <+: (OpenDataFile h fileName fileLock forceTool fb fe fi fp fm w).2.trace := by
  unfold OpenDataFile
  split_ifs
  · simp [Enter, trace_emit]
  · refine List.IsPrefix.trans ?_ (launch_extends _ _ _ _ _)
    refine List.IsPrefix.trans ?_ (resolve_extends _ _ _ _ _ _ _ _ _ _)
    simp [Enter, trace_emit]

theorem count_le_of_extends {w w' : World} (q : Event → Bool) (hp : w.trace <+: w'.trace) :
    w.count q ≤ w'.count q := by
  obtain ⟨evs, hevs⟩ := hp
  simp [World.count, ← hevs, List.countP_append]

theorem launchByNode_launches (h : Host) (fileName tool : CStr) (tn : ToolNode) (dtn : DataType)
    (w : World) :
    ∃ r, (OpenDataFile.launchByNode h fileName tool tn dtn w).1 = toBOOL r ∧
      w.count (fun e => e == Event.LaunchToolA tn.tn_Tool fileName r) <
        (OpenDataFile.launchByNode h fileName tool tn dtn w).2.count
          (fun e => e == Event.LaunchToolA tn.tn_Tool fileName r) := by
  refine ⟨_, rfl, ?_⟩
  unfold OpenDataFile.launchByNode
  simp only [ReleaseDataType, SetIoErr, LaunchToolA, Printf, PrintFault, IoErr]
  split_ifs <;> simp [count_emit]

theorem fpResolve_not_openWorkbenchObject :
    ∀ e, fpResolve e = true → e.isOpenWorkbenchObject = false := by
  intro e; cases e <;> simp [fpResolve, fpDefIcons, fpGetDatatypesTool, fpGetIconDefaultTool,
    Event.isOpenWorkbenchObject]

theorem fpResolve_not_launchTool : ∀ e, fpResolve e = true → e.isLaunchTool = false := by
  intro e; cases e <;> simp [fpResolve, fpDefIcons, fpGetDatatypesTool, fpGetIconDefaultTool,
    Event.isLaunchTool]

theorem fpResolve_not_otherLaunchTool (t : Tool) (f : CStr) :
    ∀ e, fpResolve e = true → e.isOtherLaunchTool t f = false := by
  intro e; cases e <;> simp [fpResolve, fpDefIcons, fpGetDatatypesTool, fpGetIconDefaultTool,
    Event.isOtherLaunchTool]

theorem fpNode_not_openWorkbenchObject :
    ∀ e, fpGetDatatypesToolNode e = true → e.isOpenWorkbenchObject = false := by
  intro e; cases e <;> simp [fpGetDatatypesToolNode, Event.isOpenWorkbenchObject]

theorem fpNode_not_launchTool :
    ∀ e, fpGetDatatypesToolNode e = true → e.isLaunchTool = false := by
  intro e; cases e <;> simp [fpGetDatatypesToolNode, Event.isLaunchTool]

theorem fpNode_not_otherLaunchTool (t : Tool) (f : CStr) :
    ∀ e, fpGetDatatypesToolNode e = true → e.isOtherLaunchTool t f = false := by
  intro e; cases e <;> simp [fpGetDatatypesToolNode, Event.isOtherLaunchTool]

theorem fpLaunchByNode_not_openWorkbenchObject (f : CStr) (tn : ToolNode) :
    ∀ e, fpLaunchByNode f tn e = true → e.isOpenWorkbenchObject = false := by
  intro e; cases e <;> simp [fpLaunchByNode, Event.isOpenWorkbenchObject]

theorem fpLaunchByNode_not_otherLaunchTool (f : CStr) (tn : ToolNode) :
    ∀ e, fpLaunchByNode f tn e = true → e.isOtherLaunchTool tn.tn_Tool f = false := by
  intro e; cases e <;> simp [fpLaunchByNode, Event.isOtherLaunchTool]

theorem fpLaunchByName_not_launchTool (fileName tool : CStr) (p : Nat) :
    ∀ e, fpLaunchByName fileName tool p e = true → e.isLaunchTool = false := by
  intro e; cases e <;> simp [fpLaunchByName, Event.isLaunchTool]

theorem fpLaunchByName_not_otherOpenWorkbenchObject (fileName tool : CStr) (p : Nat) :
    ∀ e, fpLaunchByName fileName tool p e = true →
      e.isOtherOpenWorkbenchObject tool
        [TagItem.WBOPENA_ArgLock p, TagItem.WBOPENA_ArgName (FilePart fileName)] = false := by
  intro e
  cases e <;> simp [fpLaunchByName, Event.isOtherOpenWorkbenchObject]
  rename_i name tags r
  match tags with
  | [] => simp [fpLaunchByName]
  | [TagItem.WBOPENA_ArgLock _, TagItem.WBOPENA_ArgName _] =>
    simp only [fpLaunchByName]
    intro hh
    simp only [Bool.and_eq_true, beq_iff_eq] at hh
    obtain ⟨⟨h1, h2⟩, h3⟩ := hh
    simp [h1, h2, h3]
  | [TagItem.WBOPENA_Show _] => simp [fpLaunchByName]
  | [TagItem.WBOPENA_ArgLock _] => simp [fpLaunchByName]
  | [TagItem.WBOPENA_ArgName _] => simp [fpLaunchByName]
  | TagItem.WBOPENA_Show _ :: _ :: _ => simp [fpLaunchByName]
  | TagItem.WBOPENA_ArgName _ :: _ :: _ => simp [fpLaunchByName]
  | TagItem.WBOPENA_ArgLock _ :: TagItem.WBOPENA_Show _ :: _ => simp [fpLaunchByName]
  | TagItem.WBOPENA_ArgLock _ :: TagItem.WBOPENA_ArgLock _ :: _ => simp [fpLaunchByName]
  | TagItem.WBOPENA_ArgLock _ :: TagItem.WBOPENA_ArgName _ :: _ :: _ => simp [fpLaunchByName]

theorem defIconsStep_absent (h : Host) (fileName : CStr) (fileLock : Nat) (w : World)
    (habsent : ∀ w', h.onFindPort w' "DEFICONS".toList = false) :
    (OpenDataFile.defIconsStep h fileName fileLock w).1 = none := by
  unfold OpenDataFile.defIconsStep IsDefIconsRunning
  simp only [FindPort, habsent]
  split_ifs <;> first | rfl | contradiction

/-! ## The forced tool and the launch result -/

/-- Claim C1, evaluated at the failing input: with the explicit tool `MultiView` and a registry
entry whose Browse tool is `Ed`, `OpenDataFile` enters `GetDatatypesToolNode`, obtains the
registry entry and launches the registry's tool `Ed` through `LaunchToolA`; `MultiView` is never
launched. -/
theorem C1_forced_tool_launches_registry_tool :
    OpenDataFile registryHost "notes.txt".toList 1 (some "MultiView".toList)
        false false false false false World.start =
      (true,
        ⟨[Event.Enter Func.OpenDataFile,
          Event.Enter Func.GetDatatypesToolNode,
          Event.ObtainDataTypeA 1 (some edEntry),
          Event.SetIoErr 0,
          Event.LaunchToolA ⟨TW_BROWSE, 0, some "Ed".toList⟩ "notes.txt".toList 1,
          Event.ReleaseDataType edEntry], 0⟩) := by
  decide

/-- Claim C6, evaluated at the failing input: a launch call that returns success and leaves
the host error code 205 makes `OpenDataFile` print the failure message and still return
success, so that `OpenItem` returns `RETURN_OK`; this holds for the launch through
`OpenWorkbenchObjectA` and for the launch through `LaunchToolA`. -/
theorem C6_launch_error_code_reported_but_item_succeeds :
    ((OpenItem iconHostErr "notes.txt".toList none false false false false false false
        World.start).1 = RETURN_OK ∧
      Event.OpenWorkbenchObjectA "MultiView".toList
          [TagItem.WBOPENA_ArgLock 16, TagItem.WBOPENA_ArgName "notes.txt".toList] true ∈
        (OpenItem iconHostErr "notes.txt".toList none false false false false false false
          World.start).2.trace ∧
      Event.Printf "Open: Failed to launch tool: %s\n" ["MultiView".toList] ∈
        (OpenItem iconHostErr "notes.txt".toList none false false false false false false
          World.start).2.trace ∧
      Event.PrintFault 205 "Open" ∈
        (OpenItem iconHostErr "notes.txt".toList none false false false false false false
          World.start).2.trace) ∧
    ((OpenItem registryHostErr "notes.txt".toList none false false false false false false
        World.start).1 = RETURN_OK ∧
      Event.LaunchToolA ⟨TW_BROWSE, 0, some "Ed".toList⟩ "notes.txt".toList 1 ∈
        (OpenItem registryHostErr "notes.txt".toList none false false false false false false
          World.start).2.trace ∧
      Event.Printf "Open: Failed to launch datatypes tool: %s\n" ["Ed".toList] ∈
        (OpenItem registryHostErr "notes.txt".toList none false false false false false false
          World.start).2.trace ∧
      Event.PrintFault 205 "Open" ∈
        (OpenItem registryHostErr "notes.txt".toList none false false false false false false
          World.start).2.trace) := by
  decide

/-! ## The item router -/

theorem IsDrawer_world (h : Host) (fileName : CStr) (l : Nat) (w : World) (hl : l ≠ 0) :
    (IsDrawer h fileName l w).2 = w.emit (.Examine l (h.onExamine w l)) := by
  unfold IsDrawer
  simp only [hl, if_false, Examine]
  split <;> rfl

theorem IsExecutable_world (h : Host) (fileName : CStr) (l : Nat) (w : World) (hl : l ≠ 0) :
    (IsExecutable h fileName l w).2 = w.emit (.Examine l (h.onExamine w l)) := by
  unfold IsExecutable
  simp only [hl, if_false, Examine]
  split <;> (try split_ifs) <;> rfl

/-- Claim C10: when the path can be locked, is not an icon descriptor, is not a drawer, is
classified executable and is a binary asset, `OpenItem` returns `RETURN_OK`; the events of the
call are the lock, the two examinations of the classifier, the skip message and the unlock,
so no launch call is made. -/
theorem C10_binary_asset_skipped (h : Host) (fileName : CStr) (forceTool : Option CStr)
    (fb fe fi fp fm showAll : Bool) (w : World)
    (hlock : (Lock h fileName w).1 ≠ 0)
    (hinfo : IsInfoFile fileName = false)
    (hdrawer : (IsDrawer h fileName (Lock h fileName w).1 (Lock h fileName w).2).1 = false)
    (hexe : (IsExecutable h fileName (Lock h fileName w).1
      (IsDrawer h fileName (Lock h fileName w).1 (Lock h fileName w).2).2).1 = true)
    (hasset : IsBinaryAsset fileName = true) :
    (OpenItem h fileName forceTool fb fe fi fp fm showAll w).1 = RETURN_OK ∧
    ∃ evs, (OpenItem h fileName forceTool fb fe fi fp fm showAll w).2.trace = w.trace ++ evs ∧
      (∃ fib1 fib2, evs =
        [Event.Lock fileName (Lock h fileName w).1,
         Event.Examine (Lock h fileName w).1 fib1,
         Event.Examine (Lock h fileName w).1 fib2,
         Event.Printf "Open: Skipping binary asset: %s\n" [fileName],
         Event.UnLock (Lock h fileName w).1]) ∧
      (∀ e ∈ evs, e.isLaunch = false) ∧
      Event.Printf "Open: Skipping binary asset: %s\n" [fileName] ∈ evs := by
  have hw2 := IsExecutable_world h fileName (Lock h fileName w).1
    (IsDrawer h fileName (Lock h fileName w).1 (Lock h fileName w).2).2 hlock
  have hw1 := IsDrawer_world h fileName (Lock h fileName w).1 (Lock h fileName w).2 hlock
  have key : OpenItem h fileName forceTool fb fe fi fp fm showAll w =
      (RETURN_OK, UnLock (Lock h fileName w).1
        (Printf "Open: Skipping binary asset: %s\n" [fileName]
          (IsExecutable h fileName (Lock h fileName w).1
            (IsDrawer h fileName (Lock h fileName w).1 (Lock h fileName w).2).2).2)) := by
    unfold OpenItem
    simp only [hlock, if_false, hinfo, hdrawer, hexe, hasset, if_true, Bool.false_eq_true]
  rw [key, hw2, hw1]
  refine ⟨rfl, ?_⟩
  simp only [UnLock, Printf, Lock, trace_emit, List.append_assoc, List.cons_append,
    List.nil_append]
  refine ⟨_, rfl, ⟨_, _, rfl⟩, ?_, ?_⟩
  · simp [Event.isLaunch]
  · simp

theorem OpenInfoFile_extends (h : Host) (fileName : CStr) (fileLock : Nat) (w : World) :
    w.trace <+: (OpenInfoFile h fileName fileLock w).2.trace := by
  unfold OpenInfoFile
  simp only [Enter, ParentDir, LockPubScreen, UnLock, UnlockPubScreen, SetIoErr, WBInfo, Printf,
    PrintFault, IoErr]
  split_ifs <;> simp [trace_emit, List.append_assoc]

theorem OpenInfoFile_count (h : Host) (fileName : CStr) (fileLock : Nat) (w : World)
    (q : Event → Bool)
    (hq : ∀ e, fpOpenInfoFile (OpenInfoFile.parentLock h fileLock w)
      (OpenInfoFile.iconName fileName) (OpenInfoFile.screen h fileLock w) e = true →
      q e = false) :
    (OpenInfoFile h fileName fileLock w).2.count q = w.count q := by
  unfold OpenInfoFile
  unfold OpenInfoFile.parentLock OpenInfoFile.screen at hq
  simp only [Enter, ParentDir, LockPubScreen, UnLock, UnlockPubScreen, SetIoErr, WBInfo, Printf,
    PrintFault, IoErr] at hq ⊢
  split_ifs <;> simp_all [count_emit, fpOpenInfoFile]

theorem OpenInfoFile_shown (h : Host) (fileName : CStr) (fileLock : Nat) (w : World)
    (hlock : fileLock ≠ 0) (hwb : h.WorkbenchBase = true) (hib : h.IntuitionBase = true)
    (hp : OpenInfoFile.parentLock h fileLock w ≠ 0)
    (hs : OpenInfoFile.screen h fileLock w ≠ 0) :
    ∃ r, (OpenInfoFile h fileName fileLock w).1 = r ∧
      w.count (fun e => e == Event.WBInfo (OpenInfoFile.parentLock h fileLock w)
        (OpenInfoFile.iconName fileName) (OpenInfoFile.screen h fileLock w) r) <
      (OpenInfoFile h fileName fileLock w).2.count
        (fun e => e == Event.WBInfo (OpenInfoFile.parentLock h fileLock w)
          (OpenInfoFile.iconName fileName) (OpenInfoFile.screen h fileLock w) r) := by
  refine ⟨_, rfl, ?_⟩
  unfold OpenInfoFile
  simp only [OpenInfoFile.parentLock, OpenInfoFile.screen, Enter, ParentDir, LockPubScreen,
    UnLock, UnlockPubScreen, SetIoErr, WBInfo, Printf, PrintFault, IoErr] at hp hs ⊢
  split_ifs at hs ⊢ <;> simp_all [count_emit]

theorem iconName_strips_suffix (fileName : CStr) (hinfo : IsInfoFile fileName = true) :
    ∃ suffix : CStr, suffix.length = 5 ∧
      FilePart fileName = OpenInfoFile.iconName fileName ++ suffix := by
  unfold IsInfoFile at hinfo
  split_ifs at hinfo with hlen
  have hst : Stricmp ((FilePart fileName).drop ((FilePart fileName).length - 5))
      ".info".toList = 0 := by simpa using hinfo
  refine ⟨(FilePart fileName).drop ((FilePart fileName).length - 5), ?_, ?_⟩
  · simp only [List.length_drop]; omega
  · unfold OpenInfoFile.iconName
    simp only [hlen, hst, and_self, if_true, Strncpy, List.take_take]
    have : min ((FilePart fileName).length - 5) ((FilePart fileName).length - 4 - 1) =
        (FilePart fileName).length - 5 := by omega
    rw [this, List.take_append_drop]

theorem fpOpenInfoFile_not_other (p : Nat) (n : CStr) (s : Nat) :
    ∀ e, fpOpenInfoFile p n s e = true → e.isNotInfoRoute = false := by
  intro e; cases e <;> simp [fpOpenInfoFile, Event.isNotInfoRoute]
  rename_i f; cases f <;> simp

theorem fpOpenInfoFile_not_otherWBInfo (p : Nat) (n : CStr) (s : Nat) :
    ∀ e, fpOpenInfoFile p n s e = true → e.isOtherWBInfo p n s = false := by
  intro e; cases e <;> simp [fpOpenInfoFile, Event.isOtherWBInfo]

/-- Claim C9, as amended: for a path that can be locked and that `IsInfoFile` classifies as an
icon descriptor, the icon name is the file part without its last five characters; with no
tool (`forceTool` is `NULL`) and no purpose flag, `OpenItem` enters none of data-file handling,
folder opening and executable launch, makes no launch call and does not examine the item, every
`WBInfo` call it makes is on the parent lock, the icon name and the locked screen, and when the
two libraries are open and the parent lock and a screen are obtained it makes that call and
returns its result; with a tool or a purpose flag it returns what `OpenDataFile` returns. -/
theorem C9_icon_descriptor_routing (h : Host) (fileName : CStr) (forceTool : Option CStr)
    (fb fe fi fp fm showAll : Bool) (w : World)
    (hlock : (Lock h fileName w).1 ≠ 0) (hinfo : IsInfoFile fileName = true) :
    (∃ suffix : CStr, suffix.length = 5 ∧
      FilePart fileName = OpenInfoFile.iconName fileName ++ suffix) ∧
    (forceTool = none → fb = false → fe = false → fi = false → fp = false → fm = false →
      ∃ evs, (OpenItem h fileName forceTool fb fe fi fp fm showAll w).2.trace = w.trace ++ evs ∧
        (∀ e ∈ evs, e.isNotInfoRoute = false) ∧
        (∀ l name s r, Event.WBInfo l name s r ∈ evs →
          l = OpenInfoFile.parentLock h (Lock h fileName w).1 (Lock h fileName w).2 ∧
          name = OpenInfoFile.iconName fileName ∧
          s = OpenInfoFile.screen h (Lock h fileName w).1 (Lock h fileName w).2) ∧
        (h.WorkbenchBase = true → h.IntuitionBase = true →
          OpenInfoFile.parentLock h (Lock h fileName w).1 (Lock h fileName w).2 ≠ 0 →
          OpenInfoFile.screen h (Lock h fileName w).1 (Lock h fileName w).2 ≠ 0 →
          ∃ r, Event.WBInfo
              (OpenInfoFile.parentLock h (Lock h fileName w).1 (Lock h fileName w).2)
              (OpenInfoFile.iconName fileName)
              (OpenInfoFile.screen h (Lock h fileName w).1 (Lock h fileName w).2) r ∈ evs ∧
            (OpenItem h fileName forceTool fb fe fi fp fm showAll w).1 = returnCode r)) ∧
    ((forceTool ≠ none ∨ fb = true ∨ fe = true ∨ fi = true ∨ fp = true ∨ fm = true) →
      OpenItem h fileName forceTool fb fe fi fp fm showAll w =
        (returnCode (OpenDataFile h fileName (Lock h fileName w).1 forceTool fb fe fi fp fm
            (Lock h fileName w).2).1,
          UnLock (Lock h fileName w).1
            (OpenDataFile h fileName (Lock h fileName w).1 forceTool fb fe fi fp fm
              (Lock h fileName w).2).2)) := by
  refine ⟨iconName_strips_suffix fileName hinfo, ?_, ?_⟩
  · intro h0 h1 h2 h3 h4 h5
    have key : OpenItem h fileName forceTool fb fe fi fp fm showAll w =
        (returnCode (OpenInfoFile h fileName (Lock h fileName w).1 (Lock h fileName w).2).1,
          UnLock (Lock h fileName w).1
            (OpenInfoFile h fileName (Lock h fileName w).1 (Lock h fileName w).2).2) := by
      unfold OpenItem
      simp [hlock, hinfo, h0, h1, h2, h3, h4, h5]
    have hcount : ∀ q : Event → Bool, q (.Lock fileName (Lock h fileName w).1) = false →
        q (.UnLock (Lock h fileName w).1) = false →
        (∀ e, fpOpenInfoFile
          (OpenInfoFile.parentLock h (Lock h fileName w).1 (Lock h fileName w).2)
          (OpenInfoFile.iconName fileName)
          (OpenInfoFile.screen h (Lock h fileName w).1 (Lock h fileName w).2) e = true →
          q e = false) →
        (OpenItem h fileName forceTool fb fe fi fp fm showAll w).2.count q = w.count q := by
      intro q hq1 hq2 hq3
      rw [key]
      simp only [UnLock, count_emit, hq2, OpenInfoFile_count _ _ _ _ q hq3]
      simp only [Lock, count_emit] at hq1 ⊢
      simp [hq1]
    obtain ⟨evs1, hevs1⟩ := OpenInfoFile_extends h fileName (Lock h fileName w).1
      (Lock h fileName w).2
    have htr : (OpenItem h fileName forceTool fb fe fi fp fm showAll w).2.trace =
        w.trace ++ ([Event.Lock fileName (Lock h fileName w).1] ++ evs1 ++
          [Event.UnLock (Lock h fileName w).1]) := by
      rw [key]
      simp only [UnLock, trace_emit, ← hevs1]
      simp [Lock, trace_emit, List.append_assoc]
    refine ⟨_, htr, ?_, ?_, ?_⟩
    · exact none_of_count htr (hcount _ rfl rfl (fpOpenInfoFile_not_other _ _ _))
    · intro l name s r hmem
      have := none_of_count htr
        (hcount (Event.isOtherWBInfo _ _ _) rfl rfl (fpOpenInfoFile_not_otherWBInfo _ _ _))
        _ hmem
      simpa [Event.isOtherWBInfo, and_assoc] using this
    · intro hwb hib hp hs
      obtain ⟨r, hr, hlt⟩ := OpenInfoFile_shown h fileName (Lock h fileName w).1
        (Lock h fileName w).2 hlock hwb hib hp hs
      refine ⟨r, ?_, by rw [key, hr]⟩
      have hmem : ∃ e ∈ evs1, (fun e => e == Event.WBInfo
          (OpenInfoFile.parentLock h (Lock h fileName w).1 (Lock h fileName w).2)
          (OpenInfoFile.iconName fileName)
          (OpenInfoFile.screen h (Lock h fileName w).1 (Lock h fileName w).2) r) e = true :=
        some_of_count hevs1.symm hlt
      obtain ⟨e, he, heq⟩ := hmem
      have : e = Event.WBInfo
          (OpenInfoFile.parentLock h (Lock h fileName w).1 (Lock h fileName w).2)
          (OpenInfoFile.iconName fileName)
          (OpenInfoFile.screen h (Lock h fileName w).1 (Lock h fileName w).2) r := by
        simpa using heq
      rw [← this]
      simp [he]
  · intro hor
    unfold OpenItem
    have hcond : ¬ (forceTool = none ∧ (!fb) = true ∧ (!fe) = true ∧ (!fi) = true ∧
        (!fp) = true ∧ (!fm) = true) := by
      rintro ⟨a0, a1, a2, a3, a4, a5⟩
      simp at a1 a2 a3 a4 a5
      rcases hor with hh | hh | hh | hh | hh | hh
      · exact hh a0
      · rw [a1] at hh; cases hh
      · rw [a2] at hh; cases hh
      · rw [a3] at hh; cases hh
      · rw [a4] at hh; cases hh
      · rw [a5] at hh; cases hh
    simp only [hlock, if_false, hinfo, if_true, hcond]

/-- Claim C9 fails as stated: for the lockable path `Drawer.info` with no tool and no flag no
`WBInfo` call is made when the parent lock cannot be obtained, and none when no public screen
can be locked; and the lockable path `.info`, whose final component ends in `.info`, is handled
as a data file without any `WBInfo` call. -/
theorem C9_counterexample :
    IsInfoFile "Drawer.info".toList = true ∧
    (Lock noParentHost "Drawer.info".toList World.start).1 ≠ 0 ∧
    (OpenItem noParentHost "Drawer.info".toList none false false false false false false
      World.start).2.trace.any Event.isWBInfo = false ∧
    (OpenItem plainHost "Drawer.info".toList none false false false false false false
      World.start).2.trace.any Event.isWBInfo = false ∧
    (OpenItem plainHost ".info".toList none false false false false false false
      World.start).2.trace.any Event.isWBInfo = false ∧
    Event.Enter Func.OpenDataFile ∈
      (OpenItem plainHost ".info".toList none false false false false false false
        World.start).2.trace := by
  decide

/-- Claim C9 witness: on a host where the panel opens, `Drawer.info` is shown as `Drawer`. -/
theorem C9_witness :
    (Lock panelHost "Work:Drawer.info".toList World.start).1 ≠ 0 ∧
    IsInfoFile "Work:Drawer.info".toList = true ∧
    OpenInfoFile.iconName "Work:Drawer.info".toList = "Drawer".toList ∧
    ∃ evs, (OpenItem panelHost "Work:Drawer.info".toList none false false false false false
        false World.start).2.trace = World.start.trace ++ evs ∧
      ∀ e ∈ evs, e.isNotInfoRoute = false :=
  ⟨by decide, by decide, by decide,
    ((C9_icon_descriptor_routing panelHost "Work:Drawer.info".toList none false false false
      false false false World.start (by decide) (by decide)).2.1 rfl rfl rfl rfl rfl rfl).imp
      (fun _ hh => ⟨hh.1, hh.2.1⟩)⟩

/-! ## Scenario A -/

/-- Claim C5 fails as stated: in scenario A (no override, DefIcons port absent, registry entry
with Browse tool `Ed`, no icon) the tool is resolved to the string `Ed` of registry origin, no
`OpenWorkbenchObjectA` call is made, and the tool is launched by `LaunchToolA`. -/
theorem C5_counterexample :
    (OpenDataFile.resolve registryHost "notes.txt".toList 1 none false false false false false
      (Enter .OpenDataFile World.start)).1.tool = some ⟨.datatypes, "Ed".toList⟩ ∧
    (OpenDataFile registryHost "notes.txt".toList 1 none false false false false false
      World.start).2.trace.any Event.isOpenWorkbenchObject = false ∧
    Event.LaunchToolA ⟨TW_BROWSE, 0, some "Ed".toList⟩ "notes.txt".toList 1 ∈
      (OpenDataFile registryHost "notes.txt".toList 1 none false false false false false
        World.start).2.trace := by
  decide

/-- Claim C5, as amended: with no override, the DefIcons port absent and a registry entry
whose Browse node has program name `Ed` (the registry answering the same at every lookup),
`OpenDataFile` resolves the tool to the string `Ed` of registry origin and launches the Browse
node of the entry through `LaunchToolA` with the file name, returning the result of that call
as the `BOOL` variable `success` holds it; every `LaunchToolA` call is that one and
`OpenWorkbenchObjectA` is not called. -/
theorem C5_scenario_A_launch (h : Host) (fileName : CStr) (fileLock : Nat) (w : World)
    (dtn : DataType) (tn : ToolNode)
    (hlock : fileLock ≠ 0) (hbase : h.DataTypesBase = true)
    (habsent : ∀ w', h.onFindPort w' "DEFICONS".toList = false)
    (hreg : ∀ w', h.onObtainDataTypeA w' fileLock = some dtn)
    (hfind : FindToolNodeA dtn.dtn_ToolList TW_BROWSE = some tn)
    (hed : tn.tn_Tool.tn_Program = some "Ed".toList) :
    (OpenDataFile.resolve h fileName fileLock none false false false false false
      (Enter .OpenDataFile w)).1.tool = some ⟨.datatypes, "Ed".toList⟩ ∧
    ∃ evs, (OpenDataFile h fileName fileLock none false false false false false w).2.trace =
        w.trace ++ evs ∧
      (∀ e ∈ evs, e.isOpenWorkbenchObject = false) ∧
      (∀ e ∈ evs, e.isOtherLaunchTool tn.tn_Tool fileName = false) ∧
      (∃ r, Event.LaunchToolA tn.tn_Tool fileName r ∈ evs ∧
        (OpenDataFile h fileName fileLock none false false false false false w).1 =
          toBOOL r) := by
  have hne : nonEmpty tn.tn_Tool.tn_Program = true := by rw [hed]; rfl
  have hd := defIconsStep_absent h fileName fileLock (Enter .OpenDataFile w) habsent
  have hg : (GetDatatypesTool h fileName fileLock TW_BROWSE
      (OpenDataFile.defIconsStep h fileName fileLock (Enter .OpenDataFile w)).2).1 =
      some "Ed".toList := by
    rw [GetDatatypesTool_result h fileName fileLock TW_BROWSE _ dtn hbase hlock (hreg _)]
    have hr : GetDatatypesTool.ranked dtn.dtn_ToolList (GetDatatypesTool.toolOrder TW_BROWSE) =
        some "Ed".toList := by
      rw [← hed]
      exact ranked_hit _ _ _ _ hfind hne
    rw [hr]
    simp
  have hres := resolve_eq h fileName fileLock none false false false false false
    (Enter .OpenDataFile w) rfl
  have hpt : OpenDataFile.preferredTool false false false false false = TW_BROWSE := rfl
  simp only [hd, OpenDataFile.registryStep, hbase, if_true, hpt, hg] at hres
  have hres2 : OpenDataFile.resolve h fileName fileLock none false false false false false
      (Enter .OpenDataFile w) =
      ({ tool := some ⟨.datatypes, "Ed".toList⟩, defIconsTool := none,
         datatypesTool := some "Ed".toList, iconTool := none, preferredTool := TW_BROWSE },
        (GetDatatypesTool h fileName fileLock TW_BROWSE
          (OpenDataFile.defIconsStep h fileName fileLock (Enter .OpenDataFile w)).2).2) := by
    rw [hres]
    simp [nonEmpty, assignTool]
  have hnode : ∀ w', GetDatatypesToolNode h fileName fileLock TW_BROWSE w' =
      ((some tn, some dtn), (ObtainDataTypeA h fileLock (Enter .GetDatatypesToolNode w')).2) := by
    intro w'
    have : GetDatatypesToolNode.toolOrder TW_BROWSE = [TW_BROWSE, TW_EDIT, TW_INFO] := rfl
    simp [GetDatatypesToolNode, hbase, hlock, ObtainDataTypeA, hreg, this,
      GetDatatypesToolNode.ranked, hfind, hne]
  have key := OpenDataFile_eq h fileName fileLock none false false false false false w hlock
  have hl := launch_pinned h fileName fileLock
    (OpenDataFile.resolve h fileName fileLock none false false false false false
      (Enter .OpenDataFile w)).1
    (OpenDataFile.resolve h fileName fileLock none false false false false false
      (Enter .OpenDataFile w)).2 .datatypes "Ed".toList (by rw [hres2]) rfl (Or.inl rfl)
  rw [hl] at key
  have hpref : (OpenDataFile.resolve h fileName fileLock none false false false false false
      (Enter .OpenDataFile w)).1.preferredTool = TW_BROWSE := by rw [hres2]
  rw [hpref, hnode] at key
  simp only at key
  refine ⟨by rw [hres2], ?_⟩
  have hcount : ∀ q : Event → Bool, q (.Enter .OpenDataFile) = false →
      (∀ e, fpResolve e = true → q e = false) →
      (∀ e, fpGetDatatypesToolNode e = true → q e = false) →
      (∀ e, fpLaunchByNode fileName tn e = true → q e = false) →
      (OpenDataFile h fileName fileLock none false false false false false w).2.count q =
        w.count q := by
    intro q h0 h1 h2 h3
    rw [key, launchByNode_count _ _ _ _ _ _ q h3]
    have := GetDatatypesToolNode_count h fileName fileLock TW_BROWSE
      (OpenDataFile.resolve h fileName fileLock none false false false false false
        (Enter .OpenDataFile w)).2 q h2
    rw [hnode] at this
    rw [this, resolve_count _ _ _ _ _ _ _ _ _ _ q h1]
    simp [Enter, count_emit, h0]
  obtain ⟨evs, hevs⟩ := OpenDataFile_extends h fileName fileLock none false false false false
    false w
  refine ⟨evs, hevs.symm, ?_, ?_, ?_⟩
  · exact none_of_count hevs.symm (hcount _ rfl fpResolve_not_openWorkbenchObject
      fpNode_not_openWorkbenchObject (fpLaunchByNode_not_openWorkbenchObject _ _))
  · exact none_of_count hevs.symm (hcount _ rfl (fpResolve_not_otherLaunchTool _ _)
      (fpNode_not_otherLaunchTool _ _) (fpLaunchByNode_not_otherLaunchTool _ _))
  · obtain ⟨r, hr, hlt⟩ := launchByNode_launches h fileName "Ed".toList tn dtn
      (ObtainDataTypeA h fileLock (Enter .GetDatatypesToolNode
        (OpenDataFile.resolve h fileName fileLock none false false false false false
          (Enter .OpenDataFile w)).2)).2
    rw [← key] at hr hlt
    have hle : w.count (fun e => e == Event.LaunchToolA tn.tn_Tool fileName r) ≤
        (ObtainDataTypeA h fileLock (Enter .GetDatatypesToolNode
          (OpenDataFile.resolve h fileName fileLock none false false false false false
            (Enter .OpenDataFile w)).2)).2.count
          (fun e => e == Event.LaunchToolA tn.tn_Tool fileName r) := by
      apply count_le_of_extends
      have h1 := GetDatatypesToolNode_extends h fileName fileLock TW_BROWSE
        (OpenDataFile.resolve h fileName fileLock none false false false false false
          (Enter .OpenDataFile w)).2
      rw [hnode] at h1
      refine List.IsPrefix.trans ?_ h1
      refine List.IsPrefix.trans ?_ (resolve_extends _ _ _ _ _ _ _ _ _ _)
      simp [Enter, trace_emit]
    obtain ⟨e, he, heq⟩ := some_of_count hevs.symm (lt_of_le_of_lt hle hlt)
    have : e = Event.LaunchToolA tn.tn_Tool fileName r := by simpa using heq
    exact ⟨r, this ▸ he, hr⟩

/-- Claim C5 witness: the amended claim at scenario A. -/
theorem C5_witness :
    (1 : Nat) ≠ 0 ∧ registryHost.DataTypesBase = true ∧
    (∀ w', registryHost.onFindPort w' "DEFICONS".toList = false) ∧
    (∀ w', registryHost.onObtainDataTypeA w' 1 = some edEntry) ∧
    FindToolNodeA edEntry.dtn_ToolList TW_BROWSE = some (toolNode TW_BROWSE "Ed") ∧
    (OpenDataFile.resolve registryHost "notes.txt".toList 1 none false false false false false
      (Enter .OpenDataFile World.start)).1.tool = some ⟨.datatypes, "Ed".toList⟩ :=
  ⟨by decide, rfl, fun _ => rfl, fun _ => rfl, by decide,
    (C5_scenario_A_launch registryHost "notes.txt".toList 1 World.start edEntry
      (toolNode TW_BROWSE "Ed") (by decide) rfl (fun _ => rfl) (fun _ => rfl) (by decide)
      rfl).1⟩

/-! ## Provenance and launch mechanism -/

theorem fpResolve_not_otherOpenWorkbenchObject (n : CStr) (t : List TagItem) :
    ∀ e, fpResolve e = true → e.isOtherOpenWorkbenchObject n t = false := by
  intro e; cases e <;> simp [fpResolve, fpDefIcons, fpGetDatatypesTool, fpGetIconDefaultTool,
    Event.isOtherOpenWorkbenchObject]

/-- Claim C4 fails as stated: with the tool `MultiView` resolved from the icon source, no launch
call at all is made when the file cannot be locked again; and with the explicit tool
`MultiView`, `LaunchToolA` is called on the registry node of program `Ed`, which was not
resolved for the tool of the request. -/
theorem C4_counterexample :
    ((OpenDataFile.resolve relockFailHost "notes.txt".toList 1 none false false false false
        false (Enter .OpenDataFile World.start)).1.tool = some ⟨.icon, "MultiView".toList⟩ ∧
      (OpenDataFile relockFailHost "notes.txt".toList 1 none false false false false false
        World.start).2.trace.any Event.isLaunch = false) ∧
    ((OpenDataFile.resolve registryHost "notes.txt".toList 1 (some "MultiView".toList) false
        false false false false (Enter .OpenDataFile World.start)).1.tool =
        some ⟨.forced, "MultiView".toList⟩ ∧
      Event.LaunchToolA ⟨TW_BROWSE, 0, some "Ed".toList⟩ "notes.txt".toList 1 ∈
        (OpenDataFile registryHost "notes.txt".toList 1 (some "MultiView".toList) false false
          false false false World.start).2.trace) := by
  decide

/-- Claim C4, as amended: when the resolved tool comes from the DefIcons or the icon source,
`OpenDataFile` never calls `LaunchToolA`, every `OpenWorkbenchObjectA` call it makes has the
tool name as program and the parent lock of the file and the file part as arguments, it makes
that call, returning its result, when the file can be locked again and its parent lock
obtained, and it makes no launch call otherwise; and with no explicit tool, `LaunchToolA` is only called with the file name, when the
resolved tool comes from the registry, on a node of the registry entry `GetDatatypesToolNode`
returned, and that node has the resolved tool as program name when the entry lists the same
tools as the entry the tool was resolved from. -/
theorem C4_launch_mechanism (h : Host) (fileName : CStr) (fileLock : Nat)
    (forceTool : Option CStr) (fb fe fi fp fm : Bool) (w : World) (hlock : fileLock ≠ 0) :
    ∀ r, r = OpenDataFile.resolve h fileName fileLock forceTool fb fe fi fp fm
        (Enter .OpenDataFile w) →
    ∃ evs, (OpenDataFile h fileName fileLock forceTool fb fe fi fp fm w).2.trace =
        w.trace ++ evs ∧
      (∀ t, (r.1.tool = some ⟨.defIcons, t⟩ ∨ r.1.tool = some ⟨.icon, t⟩) →
        (∀ e ∈ evs, e.isLaunchTool = false) ∧
        (∀ e ∈ evs, e.isOtherOpenWorkbenchObject t
          [TagItem.WBOPENA_ArgLock (OpenDataFile.launchParent h fileName r.2),
            TagItem.WBOPENA_ArgName (FilePart fileName)] = false) ∧
        (OpenDataFile.launchLock h fileName r.2 ≠ 0 →
          OpenDataFile.launchParent h fileName r.2 ≠ 0 →
          ∃ res, Event.OpenWorkbenchObjectA t
              [TagItem.WBOPENA_ArgLock (OpenDataFile.launchParent h fileName r.2),
                TagItem.WBOPENA_ArgName (FilePart fileName)] res ∈ evs ∧
            (OpenDataFile h fileName fileLock forceTool fb fe fi fp fm w).1 = res) ∧
        (OpenDataFile.launchLock h fileName r.2 = 0 ∨
            OpenDataFile.launchParent h fileName r.2 = 0 →
          ∀ e ∈ evs, e.isLaunch = false)) ∧
      (nonEmpty forceTool = false → ∀ t f res, Event.LaunchToolA t f res ∈ evs →
        f = fileName ∧ ∃ name tn dtn, r.1.tool = some ⟨.datatypes, name⟩ ∧
          (GetDatatypesToolNode h fileName fileLock r.1.preferredTool r.2).1 =
            (some tn, some dtn) ∧
          t = tn.tn_Tool ∧ tn ∈ dtn.dtn_ToolList ∧
          (∀ dtn0, h.onObtainDataTypeA (Enter .GetDatatypesTool
              (OpenDataFile.defIconsStep h fileName fileLock (Enter .OpenDataFile w)).2)
              fileLock = some dtn0 →
            dtn0.dtn_ToolList = dtn.dtn_ToolList → tn.tn_Tool.tn_Program = some name)) := by
  intro r hr
  obtain ⟨evs, hevs⟩ := OpenDataFile_extends h fileName fileLock forceTool fb fe fi fp fm w
  have key := OpenDataFile_eq h fileName fileLock forceTool fb fe fi fp fm w hlock
  rw [← hr] at key
  have hrext : w.trace <+: r.2.trace := by
    rw [hr]
    refine List.IsPrefix.trans ?_ (resolve_extends _ _ _ _ _ _ _ _ _ _)
    simp [Enter, trace_emit]
  have hrcount : ∀ q : Event → Bool, q (.Enter .OpenDataFile) = false →
      (∀ e, fpResolve e = true → q e = false) → r.2.count q = w.count q := by
    intro q h0 h1
    rw [hr, resolve_count _ _ _ _ _ _ _ _ _ _ q h1]
    simp [Enter, count_emit, h0]
  have howned : ∀ o t, r.1.tool = some ⟨o, t⟩ → (o = .defIcons ∨ o = .icon) →
      nonEmpty forceTool = false ∧
      OpenDataFile h fileName fileLock forceTool fb fe fi fp fm w =
        OpenDataFile.launchByName h fileName t r.2 := by
    intro o t ht ho
    have hforce : nonEmpty forceTool = false := by
      cases hc : nonEmpty forceTool with
      | false => rfl
      | true =>
        obtain ⟨t', _, _, hrf⟩ := resolve_forced h fileName fileLock forceTool fb fe fi fp fm
          (Enter .OpenDataFile w) hc
        rw [hr, hrf] at ht
        simp only [Option.some.injEq, ToolPtr.mk.injEq] at ht
        rcases ho with rfl | rfl <;> exact absurd ht.1 (by decide)
    have hfacts := resolve_facts h fileName fileLock forceTool fb fe fi fp fm
      (Enter .OpenDataFile w) hforce o t (hr ▸ ht)
    rw [← hr] at hfacts
    refine ⟨hforce, ?_⟩
    rw [key]
    refine launch_owned h fileName fileLock r.1 r.2 o t ht hfacts.1 ?_
    rcases ho with rfl | rfl
    · exact Or.inl ⟨rfl, hfacts.2.2.2.1 rfl⟩
    · exact Or.inr ⟨rfl, hfacts.2.2.2.2.1 rfl⟩
  have hownedCount : ∀ o t, r.1.tool = some ⟨o, t⟩ → (o = .defIcons ∨ o = .icon) →
      ∀ q : Event → Bool, q (.Enter .OpenDataFile) = false →
      (∀ e, fpResolve e = true → q e = false) →
      (∀ e, fpLaunchByName fileName t (OpenDataFile.launchParent h fileName r.2) e = true →
        q e = false) →
      (OpenDataFile h fileName fileLock forceTool fb fe fi fp fm w).2.count q = w.count q := by
    intro o t ht ho q h0 h1 h2
    rw [(howned o t ht ho).2, launchByName_count _ _ _ _ q h2, hrcount q h0 h1]
  refine ⟨evs, hevs.symm, ?_, ?_⟩
  · intro t ht
    obtain ⟨o, hto, ho⟩ : ∃ o, r.1.tool = some ⟨o, t⟩ ∧ (o = .defIcons ∨ o = .icon) := by
      rcases ht with ht | ht
      · exact ⟨_, ht, Or.inl rfl⟩
      · exact ⟨_, ht, Or.inr rfl⟩
    refine ⟨?_, ?_, ?_, ?_⟩
    rotate_left 3
    · intro hfail
      refine none_of_count hevs.symm ?_
      rw [(howned o t hto ho).2, launchByName_silent _ _ _ _ hfail,
        hrcount _ rfl fpResolve_not_launch]
    · exact none_of_count hevs.symm (hownedCount o t hto ho _ rfl fpResolve_not_launchTool
        (fpLaunchByName_not_launchTool _ _ _))
    · exact none_of_count hevs.symm (hownedCount o t hto ho _ rfl
        (fpResolve_not_otherOpenWorkbenchObject _ _)
        (fpLaunchByName_not_otherOpenWorkbenchObject _ _ _))
    · intro hl hp
      obtain ⟨res, hres, hlt⟩ := launchByName_launches h fileName t r.2 hl hp
      rw [← (howned o t hto ho).2] at hres hlt
      obtain ⟨e, he, heq⟩ := some_of_count hevs.symm
        (lt_of_le_of_lt (count_le_of_extends _ hrext) hlt)
      have : e = Event.OpenWorkbenchObjectA t
          [TagItem.WBOPENA_ArgLock (OpenDataFile.launchParent h fileName r.2),
            TagItem.WBOPENA_ArgName (FilePart fileName)] res := by simpa using heq
      exact ⟨res, this ▸ he, hres⟩
  · intro hforce t f res hmem
    have hnot : ¬ (OpenDataFile h fileName fileLock forceTool fb fe fi fp fm w).2.count
        Event.isLaunchTool = w.count Event.isLaunchTool := by
      intro hc
      have := none_of_count hevs.symm hc _ hmem
      simp [Event.isLaunchTool] at this
    cases htool : r.1.tool with
    | none =>
      exfalso
      apply hnot
      rw [key, launch_none _ _ _ _ _ htool]
      simp [Printf, count_emit, Event.isLaunchTool, hrcount _ rfl fpResolve_not_launchTool]
    | some tp =>
      obtain ⟨o, name⟩ := tp
      have hfacts := resolve_facts h fileName fileLock forceTool fb fe fi fp fm
        (Enter .OpenDataFile w) hforce o name (hr ▸ htool)
      rw [← hr] at hfacts
      have hown : ¬ (o = .defIcons ∨ o = .icon) := fun ho =>
        hnot (hownedCount o name htool ho _ rfl fpResolve_not_launchTool
          (fpLaunchByName_not_launchTool _ _ _))
      have hod : o = .datatypes := by
        cases o with
        | forced => exact absurd rfl hfacts.2.1
        | defIcons => exact absurd (Or.inl rfl) hown
        | datatypes => rfl
        | icon => exact absurd (Or.inr rfl) hown
      subst hod
      have hl := launch_pinned h fileName fileLock r.1 r.2 .datatypes name htool hfacts.1
        (Or.inl rfl)
      rw [hl] at key
      cases hn : (GetDatatypesToolNode h fileName fileLock r.1.preferredTool r.2).1 with
      | mk a b =>
        have hnc : ∀ q : Event → Bool, q (.Enter .OpenDataFile) = false →
            (∀ e, fpResolve e = true → q e = false) →
            (∀ e, fpGetDatatypesToolNode e = true → q e = false) →
            (GetDatatypesToolNode h fileName fileLock r.1.preferredTool r.2).2.count q =
              w.count q := by
          intro q h0 h1 h2
          rw [GetDatatypesToolNode_count _ _ _ _ _ q h2, hrcount q h0 h1]
        have hbyName : OpenDataFile h fileName fileLock forceTool fb fe fi fp fm w =
            OpenDataFile.launchByName h fileName name
              (GetDatatypesToolNode h fileName fileLock r.1.preferredTool r.2).2 → False := by
          intro hk
          apply hnot
          rw [hk, launchByName_count _ _ _ _ _ (fpLaunchByName_not_launchTool _ _ _),
            hnc _ rfl fpResolve_not_launchTool fpNode_not_launchTool]
        rw [hn] at key
        cases a with
        | none => exact absurd key hbyName
        | some tn =>
          cases b with
          | none => exact absurd key hbyName
          | some dtn =>
            simp only at key
            have hc : (OpenDataFile h fileName fileLock forceTool fb fe fi fp fm w).2.count
                (Event.isOtherLaunchTool tn.tn_Tool fileName) =
                w.count (Event.isOtherLaunchTool tn.tn_Tool fileName) := by
              rw [key, launchByNode_count _ _ _ _ _ _ _
                (fpLaunchByNode_not_otherLaunchTool _ _),
                hnc _ rfl (fpResolve_not_otherLaunchTool _ _) (fpNode_not_otherLaunchTool _ _)]
            have hthis := none_of_count hevs.symm hc _ hmem
            simp only [Event.isOtherLaunchTool, Bool.not_eq_false', Bool.and_eq_true,
              beq_iff_eq] at hthis
            obtain ⟨hsome1, hsome2, hsome3, hsome4, hsome5, hsome6⟩ :=
              GetDatatypesToolNode_some h fileName fileLock r.1.preferredTool r.2 tn dtn hn
            refine ⟨hthis.2, name, tn, dtn, rfl, rfl, hthis.1, hsome4, ?_⟩
            intro dtn0 h0 hlist
            have hname := hfacts.2.2.2.2.2 rfl
            rw [GetDatatypesTool_result h fileName fileLock _ _ dtn0 hname.1 hlock h0,
              hlist, ← hfacts.2.2.1, hsome6] at hname
            exact hname.2

/-! ## Instances -/

/-- Claim C2 witness: on a host where DefIcons identifies the file and names `MultiView`, the
run of `OpenDataFile` has no registry and no icon-source event. -/
theorem C2_witness :
    (1 : Nat) ≠ 0 ∧ nonEmpty (none : Option CStr) = false ∧
    nonEmpty (OpenDataFile.defIconsStep defIconsHost "notes.txt".toList 1
      (Enter .OpenDataFile World.start)).1 = true ∧
    ∃ evs, (OpenDataFile defIconsHost "notes.txt".toList 1 none false false false false false
        World.start).2.trace = World.start.trace ++ evs ∧
      ∀ e ∈ evs, e.isRegistry = false ∧ e.isIconSource = false :=
  ⟨by decide, rfl, by decide,
    C2_type_identification_short_circuit defIconsHost "notes.txt".toList 1 none false false
      false false false World.start (by decide) rfl (by decide)⟩

/-- Claim C3 witness: on a host where no source knows a tool, `OpenDataFile` fails. -/
theorem C3_witness :
    (1 : Nat) ≠ 0 ∧ nonEmpty (none : Option CStr) = false ∧
    (OpenDataFile plainHost "notes.txt".toList 1 none false false false false false
      World.start).1 = false :=
  ⟨by decide, rfl,
    ((C3_resolution_order plainHost "notes.txt".toList 1 none false false false false false
      World.start (by decide) rfl _ _ _ _ rfl rfl rfl rfl).2.2.2
      (by decide) (by decide) (by decide)).2.1⟩

/-- Claim C4 witness: on a host where the icon names `MultiView`, no `LaunchToolA` call is
made. -/
theorem C4_witness :
    (1 : Nat) ≠ 0 ∧
    ∃ evs, (OpenDataFile iconHost "notes.txt".toList 1 none false false false false false
        World.start).2.trace = World.start.trace ++ evs ∧
      ∀ e ∈ evs, e.isLaunchTool = false :=
  ⟨by decide,
    (C4_launch_mechanism iconHost "notes.txt".toList 1 none false false false false false
      World.start (by decide) _ rfl).imp
      (fun _ hh => ⟨hh.1, (hh.2.1 "MultiView".toList (Or.inr (by decide))).1⟩)⟩

/-- Claim C7 witness: the tool order for Print. -/
theorem C7_witness :
    TW_PRINT ∈ [TW_BROWSE, TW_EDIT, TW_INFO, TW_PRINT, TW_MAIL] ∧
    GetDatatypesTool.toolOrder TW_PRINT = [TW_PRINT, TW_BROWSE, TW_EDIT] :=
  ⟨by decide, (C7_tool_order TW_PRINT (by decide)).2.2.2.2 (by decide)⟩

/-- Claim C8 witness: scenario F, an Edit request on an entry with a single Info node. -/
theorem C8_witness :
    infoHost.DataTypesBase = true ∧ (1 : Nat) ≠ 0 ∧
    infoHost.onObtainDataTypeA (Enter .GetDatatypesTool World.start) 1 = some infoEntry ∧
    (GetDatatypesTool infoHost "notes.txt".toList 1 TW_EDIT World.start).1 =
      some "Info".toList :=
  ⟨rfl, by decide, rfl,
    (C8_registry_name_lookup infoHost "notes.txt".toList 1 TW_EDIT World.start infoEntry rfl
      (by decide) rfl).2.2.2 (toolNode TW_INFO "Info") rfl (by decide) (by decide) (by decide)
      (by decide)⟩

/-- Claim C10 witness: `logo.library` with the execute bit set is skipped with `RETURN_OK`. -/
theorem C10_witness :
    (Lock executableHost "logo.library".toList World.start).1 ≠ 0 ∧
    IsInfoFile "logo.library".toList = false ∧
    IsBinaryAsset "logo.library".toList = true ∧
    (OpenItem executableHost "logo.library".toList none false false false false false false
      World.start).1 = RETURN_OK :=
  ⟨by decide, by decide, by decide,
    (C10_binary_asset_skipped executableHost "logo.library".toList none false false false
      false false false World.start (by decide) (by decide) (by decide) (by decide)
      (by decide)).1⟩

/-! ## The current directory -/

theorem curDir_emit (w : World) (e : Event) : (w.emit e).curDir = w.curDir := rfl

theorem curDir_setDir (w : World) (d : Nat) : (w.setDir d).curDir = d := rfl

theorem lookup_curDir (h : Host) (dir name : CStr) (w : World) :
    (GetDefIconsDefaultTool.lookup h dir name w).2.curDir = w.curDir := by
  unfold GetDefIconsDefaultTool.lookup
  simp only [Lock, CurrentDir, GetDiskObject, UnLock]
  split_ifs <;> simp [curDir_emit, curDir_setDir]

theorem GetDefIconsDefaultTool_curDir (h : Host) (t : CStr) (w : World) :
    (GetDefIconsDefaultTool h t w).2.curDir = w.curDir := by
  unfold GetDefIconsDefaultTool
  simp only [Enter, FreeDiskObject]
  split_ifs <;> (try split) <;> simp [curDir_emit, lookup_curDir]

theorem GetIconDefaultTool_curDir (h : Host) (fileName : CStr) (fileLock : Nat) (w : World) :
    (GetIconDefaultTool h fileName fileLock w).2.curDir = w.curDir := by
  unfold GetIconDefaultTool
  simp only [Enter, ParentDir, CurrentDir, GetDiskObject, UnLock, FreeDiskObject]
  split_ifs <;> (try split) <;> simp [curDir_emit, curDir_setDir]

theorem GetDefIconsTypeIdentifier_curDir (h : Host) (fileName : CStr) (fileLock : Nat)
    (w : World) (hw : w.curDir ≠ 0 ∨ fileLock = 0 ∨ h.IconBase = false) :
    (GetDefIconsTypeIdentifier h fileName fileLock w).2.curDir = w.curDir := by
  unfold GetDefIconsTypeIdentifier
  simp only [Enter, CurrentDir, GetIconTagList, FreeDiskObject]
  split_ifs <;> simp_all [curDir_emit, curDir_setDir]

theorem GetDefIconsTypeIdentifier_curDir_root (h : Host) (fileName : CStr) (fileLock : Nat)
    (w : World) (hw : w.curDir = 0) (hl : fileLock ≠ 0) (hi : h.IconBase = true) :
    (GetDefIconsTypeIdentifier h fileName fileLock w).2.curDir = fileLock := by
  unfold GetDefIconsTypeIdentifier
  simp only [Enter, CurrentDir, GetIconTagList, FreeDiskObject]
  split_ifs <;> simp_all [curDir_emit, curDir_setDir]

/-- Claim C14, evaluated at the failing input: called with the parent lock 2 while the current
directory is the zero lock, `GetDefIconsTypeIdentifier` returns with the current directory
left at lock 2, and so does the DefIcons step of `OpenDataFile` with the parent lock it
obtained; `GetDefIconsDefaultTool` and `GetIconDefaultTool` restore the zero lock. -/
theorem C14_current_directory_not_restored_from_root :
    World.start.curDir = 0 ∧
    (GetDefIconsTypeIdentifier defIconsHost "notes.txt".toList 2 World.start).2.curDir = 2 ∧
    (GetDefIconsTypeIdentifier defIconsHost "notes.txt".toList 2 World.start).2.trace =
      [Event.Enter Func.GetDefIconsTypeIdentifier, Event.CurrentDir 2 0,
        Event.GetIconTagList "notes.txt".toList false "text".toList 0] ∧
    (OpenDataFile.defIconsStep defIconsHost "notes.txt".toList 1 World.start).2.curDir = 2 ∧
    (GetDefIconsDefaultTool defIconsHost "text".toList World.start).2.curDir = 0 ∧
    (GetIconDefaultTool iconHost "notes.txt".toList 1 World.start).2.curDir = 0 := by
  decide

/-! ## Drawers, silent failures and the two registry lookups -/

/-- Claim C17, evaluated at the failing input: when `Examine` reports a volume root for the
lock of `RAM:`, `IsDrawer` returns false, and `OpenItem` does not enter `OpenDrawer` but
handles `RAM:` as a data file and fails; `IsDrawer` also returns false for a directory
link. -/
theorem C17_volume_root_is_not_a_drawer :
    (IsDrawer rootHost "RAM:".toList 1 World.start).1 = false ∧
    (IsDrawer linkDirHost "Work:Link".toList 1 World.start).1 = false ∧
    Event.Enter Func.OpenDrawer ∉
      (OpenItem rootHost "RAM:".toList none false false false false false false
        World.start).2.trace ∧
    Event.Enter Func.OpenDataFile ∈
      (OpenItem rootHost "RAM:".toList none false false false false false false
        World.start).2.trace ∧
    (OpenItem rootHost "RAM:".toList none false false false false false false
      World.start).1 = RETURN_FAIL := by
  decide

/-- Claim C19, evaluated at the failing inputs: with a tool resolved from the icon, `OpenItem`
returns `RETURN_FAIL` without a single `Printf` or `PrintFault` call when the launcher cannot
lock the file again, and likewise when it cannot obtain the parent folder of the new lock. -/
theorem C19_silent_failure_in_launcher :
    ((OpenItem relockOnceHost "notes.txt".toList none false false false false false false
        World.start).1 = RETURN_FAIL ∧
      (OpenItem relockOnceHost "notes.txt".toList none false false false false false false
        World.start).2.trace.any Event.isDiagnostic = false ∧
      Event.Lock "notes.txt".toList 0 ∈
        (OpenItem relockOnceHost "notes.txt".toList none false false false false false false
          World.start).2.trace) ∧
    ((OpenItem noLaunchParentHost "notes.txt".toList none false false false false false false
        World.start).1 = RETURN_FAIL ∧
      (OpenItem noLaunchParentHost "notes.txt".toList none false false false false false false
        World.start).2.trace.any Event.isDiagnostic = false ∧
      (OpenItem noLaunchParentHost "notes.txt".toList none false false false false false false
        World.start).2.trace.any Event.isLaunch = false) := by
  decide

/-- Claim C20, evaluated at the failing input: for a Browse request on an entry whose Info
node has an empty program name and whose Print node has program `PrintTool`, the name-only
lookup returns `PrintTool` and the pinned lookup returns no node; `OpenDataFile` then launches
`PrintTool` through `OpenWorkbenchObjectA`. -/
theorem C20_pinned_lookup_misses_the_manual_search :
    (GetDatatypesTool emptyInfoHost "notes.txt".toList 1 TW_BROWSE World.start).1 =
      some "PrintTool".toList ∧
    (GetDatatypesToolNode emptyInfoHost "notes.txt".toList 1 TW_BROWSE World.start).1 =
      (none, none) ∧
    (OpenDataFile emptyInfoHost "notes.txt".toList 1 none false false false false false
      World.start).2.trace.any Event.isLaunchTool = false ∧
    (OpenDataFile emptyInfoHost "notes.txt".toList 1 none false false false false false
      World.start).2.trace.any Event.isOpenWorkbenchObject = true := by
  decide

/-! ## The classifier predicates on names -/

theorem toLower_eq_dot (c : Char) (h : c.toLower = '.') : c = '.' := by
  unfold Char.toLower at h
  simp only at h
  split_ifs at h with hc
  · exfalso
    obtain ⟨h65, h90⟩ := hc
    generalize c.toNat = n at *
    interval_cases n <;> exact absurd h (by decide)
  · exact h

theorem strrchrAux_not_mem (ch : Char) (s : CStr) (acc : Option CStr) (hs : ch ∉ s) :
    strrchrAux ch s acc = acc := by
  induction s generalizing acc with
  | nil => rfl
  | cons c cs ih =>
    have hc : c ≠ ch := fun hh => hs (hh ▸ List.mem_cons_self _ _)
    have hcs : ch ∉ cs := fun hh => hs (List.mem_cons_of_mem _ hh)
    simp only [strrchrAux, hc, if_false]
    exact ih _ hcs

theorem strrchrAux_last (ch : Char) (pre rest : CStr) (acc : Option CStr) (hr : ch ∉ rest) :
    strrchrAux ch (pre ++ ch :: rest) acc = some (ch :: rest) := by
  induction pre generalizing acc with
  | nil =>
    simp only [List.nil_append, strrchrAux, if_true]
    exact strrchrAux_not_mem _ _ _ hr
  | cons c cs ih =>
    simp only [List.cons_append, strrchrAux]
    split_ifs <;> exact ih _

theorem exists_last (ch : Char) (s : CStr) (hs : ch ∈ s) :
    ∃ pre rest, s = pre ++ ch :: rest ∧ ch ∉ rest := by
  induction s with
  | nil => cases hs
  | cons c cs ih =>
    by_cases hcs : ch ∈ cs
    · obtain ⟨pre, rest, h1, h2⟩ := ih hcs
      exact ⟨c :: pre, rest, by rw [h1]; rfl, h2⟩
    · have : ch = c := by
        rcases List.mem_cons.mp hs with hh | hh
        · exact hh
        · exact absurd hh hcs
      exact ⟨[], cs, by rw [this]; rfl, hcs⟩

theorem strrchr_eq_some (s : CStr) (ch : Char) (ext : CStr) :
    strrchr s ch = some ext ↔ ∃ pre rest, s = pre ++ ch :: rest ∧ ch ∉ rest ∧ ext = ch :: rest := by
  unfold strrchr
  constructor
  · intro hh
    by_cases hs : ch ∈ s
    · obtain ⟨pre, rest, h1, h2⟩ := exists_last ch s hs
      rw [h1, strrchrAux_last _ _ _ _ h2] at hh
      exact ⟨pre, rest, h1, h2, (Option.some.inj hh).symm⟩
    · rw [strrchrAux_not_mem _ _ _ hs] at hh
      cases hh
  · rintro ⟨pre, rest, h1, h2, h3⟩
    rw [h1, h3]
    exact strrchrAux_last _ _ _ _ h2

theorem Stricmp_eq_zero (a b : CStr) :
    Stricmp a b = 0 ↔ a.map Char.toLower = b.map Char.toLower := by
  unfold Stricmp
  split_ifs with hh <;> simp [hh]

/-- Claim C15: `IsBinaryAsset` returns true iff the file part of the path has a last `.` and
the suffix starting there equals, ignoring letter case, one of the six extensions of the table;
a file part without `.` is never a binary asset. -/
theorem C15_binary_asset_iff_extension_listed (path : CStr) :
    (IsBinaryAsset path = true ↔
      ∃ pre rest, FilePart path = pre ++ '.' :: rest ∧ '.' ∉ rest ∧
        ∃ a ∈ [".library", ".device", ".resource", ".font", ".hunk", ".o"],
          ('.' :: rest).map Char.toLower = (String.toList a).map Char.toLower) ∧
    ('.' ∉ FilePart path → IsBinaryAsset path = false) := by
  constructor
  · unfold IsBinaryAsset
    constructor
    · intro hb
      cases hs : strrchr (FilePart path) '.' with
      | none => rw [hs] at hb; cases hb
      | some ext =>
        rw [hs] at hb
        obtain ⟨pre, rest, h1, h2, h3⟩ := (strrchr_eq_some _ _ _).mp hs
        refine ⟨pre, rest, h1, h2, ?_⟩
        simp only [binaryAssets, List.any_cons, List.any_nil, Bool.or_false, Bool.or_eq_true,
          decide_eq_true_eq, Stricmp_eq_zero] at hb
        subst h3
        simpa using hb
    · rintro ⟨pre, rest, h1, h2, hex⟩
      rw [(strrchr_eq_some _ _ _).mpr ⟨pre, rest, h1, h2, rfl⟩]
      simp only [binaryAssets, List.any_cons, List.any_nil, Bool.or_false, Bool.or_eq_true,
        decide_eq_true_eq, Stricmp_eq_zero]
      simpa using hex
  · intro hn
    unfold IsBinaryAsset strrchr
    rw [strrchrAux_not_mem _ _ _ hn]
theorem info_suffix_shape (s : CStr) (hs : s.map Char.toLower = ".info".toList) :
    ∃ rest, s = '.' :: rest ∧ '.' ∉ rest := by
  have hl : s.length = 5 := by
    have := congrArg List.length hs
    simpa using this
  rcases s with _ | ⟨c0, _ | ⟨c1, _ | ⟨c2, _ | ⟨c3, _ | ⟨c4, _ | ⟨c5, t⟩⟩⟩⟩⟩⟩ <;>
    simp only [List.length_cons, List.length_nil] at hl <;> try omega
  simp only [List.map_cons, List.map_nil, String.toList] at hs
  have h0 : c0.toLower = '.' := by
    have := congrArg List.head? hs
    simpa using this
  have hrest : [c1, c2, c3, c4].map Char.toLower = ['i', 'n', 'f', 'o'] := by
    have := congrArg List.tail hs
    simpa using this
  refine ⟨[c1, c2, c3, c4], by rw [toLower_eq_dot c0 h0], ?_⟩
  intro hmem
  have : Char.toLower '.' ∈ [c1, c2, c3, c4].map Char.toLower := List.mem_map_of_mem _ hmem
  rw [hrest] at this
  revert this
  decide

/-- Claim C16, as amended: `IsInfoFile` returns true iff the file part of the path is longer
than five characters and the suffix starting at its last `.` equals `.info`, ignoring letter
case. -/
theorem C16_info_file_iff_long_name_with_info_extension (path : CStr) :
    IsInfoFile path = true ↔
      (FilePart path).length > 5 ∧
      ∃ pre rest, FilePart path = pre ++ '.' :: rest ∧ '.' ∉ rest ∧
        ('.' :: rest).map Char.toLower = ".info".toList := by
  unfold IsInfoFile
  constructor
  · intro hi
    split_ifs at hi with hlen
    have hst : ((FilePart path).drop ((FilePart path).length - 5)).map Char.toLower =
        ".info".toList := by
      have := (Stricmp_eq_zero _ _).mp (by simpa using hi)
      rw [this]
      decide
    obtain ⟨rest, h1, h2⟩ := info_suffix_shape _ hst
    refine ⟨hlen, (FilePart path).take ((FilePart path).length - 5), rest, ?_, h2, ?_⟩
    · rw [← h1, List.take_append_drop]
    · rw [← h1]; exact hst
  · rintro ⟨hlen, pre, rest, h1, _, h3⟩
    have hl5 : ('.' :: rest).length = 5 := by
      have := congrArg List.length h3
      simpa using this
    have hdrop : (FilePart path).drop ((FilePart path).length - 5) = '.' :: rest := by
      rw [h1]
      have : (pre ++ '.' :: rest).length - 5 = pre.length := by
        rw [List.length_append, hl5]; omega
      rw [this, List.drop_left]
    rw [if_pos hlen, hdrop]
    have : Stricmp ('.' :: rest) ".info".toList = 0 := by
      rw [Stricmp_eq_zero, h3]
      decide
    simpa using this

/-- Claim C16 fails as stated: the suffix of the name `.info` starting at its last `.` is
`.info`, and `IsInfoFile` returns false for it. -/
theorem C16_counterexample :
    FilePart ".info".toList = [] ++ '.' :: "info".toList ∧ '.' ∉ "info".toList ∧
    ('.' :: "info".toList).map Char.toLower = ".info".toList ∧
    IsInfoFile ".info".toList = false := by
  decide

/-! ## The default-tool lookup of DefIcons -/

theorem lookup_count_fp (h : Host) (dir name : CStr) (w : World) (q : Event → Bool)
    (hq : ∀ e, fpLookup dir name e = true → q e = false) :
    (GetDefIconsDefaultTool.lookup h dir name w).2.count q = w.count q := by
  unfold GetDefIconsDefaultTool.lookup
  simp only [Lock, CurrentDir, GetDiskObject, UnLock]
  split_ifs <;> simp_all [count_emit, count_setDir, fpLookup]

theorem lookup_count_envArc (h : Host) (name : CStr) (w : World) :
    (GetDefIconsDefaultTool.lookup h "ENVARC:Sys".toList name w).2.count Event.isLockEnvArc =
      w.count Event.isLockEnvArc + 1 := by
  unfold GetDefIconsDefaultTool.lookup
  simp only [Lock, CurrentDir, GetDiskObject, UnLock]
  split_ifs <;> simp [count_emit, count_setDir, Event.isLockEnvArc]

theorem lookup_extends_lock (h : Host) (dir name : CStr) (w : World) :
    (Lock h dir w).2.trace <+: (GetDefIconsDefaultTool.lookup h dir name w).2.trace := by
  unfold GetDefIconsDefaultTool.lookup
  simp only [Lock, CurrentDir, GetDiskObject, UnLock]
  split_ifs <;> simp [trace_emit, trace_setDir, List.append_assoc]

theorem GetDefIconsDefaultTool_eq (h : Host) (t : CStr) (w : World)
    (hicon : h.IconBase = true) (ht : t ≠ []) :
    GetDefIconsDefaultTool h t w =
      ((GetDefIconsDefaultTool.found h t w).1.bind GetDefIconsDefaultTool.copy,
        if (GetDefIconsDefaultTool.found h t w).1.isSome = true
        then FreeDiskObject (GetDefIconsDefaultTool.found h t w).2
        else (GetDefIconsDefaultTool.found h t w).2) := by
  unfold GetDefIconsDefaultTool GetDefIconsDefaultTool.found
  simp only [hicon, ht, Bool.not_true, Bool.false_eq_true, or_self, if_false]
  generalize (if (GetDefIconsDefaultTool.lookup h "ENV:Sys".toList
      (("def_".toList ++ t).take 63) (Enter .GetDefIconsDefaultTool w)).1 = none
    then GetDefIconsDefaultTool.lookup h "ENVARC:Sys".toList (("def_".toList ++ t).take 63)
      (GetDefIconsDefaultTool.lookup h "ENV:Sys".toList (("def_".toList ++ t).take 63)
        (Enter .GetDefIconsDefaultTool w)).2
    else GetDefIconsDefaultTool.lookup h "ENV:Sys".toList (("def_".toList ++ t).take 63)
      (Enter .GetDefIconsDefaultTool w)) = D
  obtain ⟨D1, D2⟩ := D
  cases D1 with
  | none => rfl
  | some icon => rfl

theorem copy_short (icon : DiskObject) (s : CStr) (hs : icon.do_DefaultTool = some s)
    (hne : s ≠ []) (hlen : s.length < 256) : GetDefIconsDefaultTool.copy icon = some s := by
  unfold GetDefIconsDefaultTool.copy
  cases s with
  | nil => exact absurd rfl hne
  | cons c cs =>
    simp only [hs, Strncpy, List.take_take, Option.some.injEq]
    apply List.take_of_length_le
    simp only [List.length_cons] at hlen ⊢
    omega

theorem copy_empty (icon : DiskObject) (hs : nonEmpty icon.do_DefaultTool = false) :
    GetDefIconsDefaultTool.copy icon = none := by
  unfold GetDefIconsDefaultTool.copy
  match h : icon.do_DefaultTool with
  | none => rfl
  | some [] => rfl
  | some (c :: cs) => rw [h] at hs; cases hs

theorem found_extends (h : Host) (t : CStr) (w : World) :
    (Lock h "ENV:Sys".toList (Enter .GetDefIconsDefaultTool w)).2.trace <+:
      (GetDefIconsDefaultTool.found h t w).2.trace := by
  unfold GetDefIconsDefaultTool.found
  simp only
  split_ifs
  · exact (lookup_extends_lock _ _ _ _).trans (lookup_extends _ _ _ _)
  · exact lookup_extends_lock _ _ _ _

theorem found_count_other (h : Host) (t : CStr) (w : World) :
    (GetDefIconsDefaultTool.found h t w).2.count
        (Event.isOtherGetDiskObject (("def_".toList ++ t).take 63)) =
      w.count (Event.isOtherGetDiskObject (("def_".toList ++ t).take 63)) := by
  have hq : ∀ dir, ∀ e, fpLookup dir (("def_".toList ++ t).take 63) e = true →
      e.isOtherGetDiskObject (("def_".toList ++ t).take 63) = false := by
    intro dir e
    cases e <;> simp [fpLookup, Event.isOtherGetDiskObject]
  unfold GetDefIconsDefaultTool.found
  simp only
  split_ifs
  · rw [lookup_count_fp _ _ _ _ _ (hq _), lookup_count_fp _ _ _ _ _ (hq _)]
    simp [Enter, count_emit, Event.isOtherGetDiskObject]
  · rw [lookup_count_fp _ _ _ _ _ (hq _)]
    simp [Enter, count_emit, Event.isOtherGetDiskObject]

theorem found_count_envArc (h : Host) (t : CStr) (w : World) :
    (GetDefIconsDefaultTool.found h t w).2.count Event.isLockEnvArc =
      w.count Event.isLockEnvArc +
        if (GetDefIconsDefaultTool.lookup h "ENV:Sys".toList (("def_".toList ++ t).take 63)
          (Enter .GetDefIconsDefaultTool w)).1 = none then 1 else 0 := by
  have hq : ∀ e, fpLookup "ENV:Sys".toList (("def_".toList ++ t).take 63) e = true →
      e.isLockEnvArc = false := by
    intro e
    cases e <;> simp [fpLookup, Event.isLockEnvArc]
    intro hh
    rw [hh]
    decide
  unfold GetDefIconsDefaultTool.found
  simp only
  split_ifs
  · rw [lookup_count_envArc, lookup_count_fp _ _ _ _ _ hq]
    simp [Enter, count_emit, Event.isLockEnvArc]
  · rw [lookup_count_fp _ _ _ _ _ hq]
    simp [Enter, count_emit, Event.isLockEnvArc]

/-- Claim C18, as amended: for a non-empty type identifier `t`, with icon.library open,
`GetDefIconsDefaultTool` looks up the name `def_` followed by `t`, cut to 63 characters (so
exactly that name when `t` has at most 59 characters), first in `ENV:Sys`, and locks
`ENVARC:Sys` iff the primary lookup yields no descriptor; it returns a copy equal to the
default-tool string of the first descriptor found when that string is non-empty and shorter
than 256 characters, and nothing when the string is empty or no descriptor is found. -/
theorem C18_default_tool_lookup (h : Host) (t : CStr) (w : World)
    (hicon : h.IconBase = true) (ht : t ≠ []) :
    ∀ name d1 first, name = ("def_".toList ++ t).take 63 →
      d1 = GetDefIconsDefaultTool.lookup h "ENV:Sys".toList name
        (Enter .GetDefIconsDefaultTool w) →
      first = GetDefIconsDefaultTool.found h t w →
      (t.length ≤ 59 → name = "def_".toList ++ t) ∧
      (∀ icon, d1.1 = some icon → first.1 = some icon) ∧
      (d1.1 = none →
        first = GetDefIconsDefaultTool.lookup h "ENVARC:Sys".toList name d1.2) ∧
      (∀ icon s, first.1 = some icon → icon.do_DefaultTool = some s → s ≠ [] →
        s.length < 256 → (GetDefIconsDefaultTool h t w).1 = some s) ∧
      (∀ icon, first.1 = some icon → nonEmpty icon.do_DefaultTool = false →
        (GetDefIconsDefaultTool h t w).1 = none) ∧
      (first.1 = none → (GetDefIconsDefaultTool h t w).1 = none) ∧
      ∃ evs, (GetDefIconsDefaultTool h t w).2.trace = w.trace ++ evs ∧
        (∃ r rest, evs = Event.Enter .GetDefIconsDefaultTool ::
          Event.Lock "ENV:Sys".toList r :: rest) ∧
        (∀ n r, Event.GetDiskObject n r ∈ evs → n = name) ∧
        ((∃ r, Event.Lock "ENVARC:Sys".toList r ∈ evs) ↔ d1.1 = none) := by
  intro name d1 first hname hd1 hfirst
  have heq := GetDefIconsDefaultTool_eq h t w hicon ht
  rw [← hfirst] at heq
  have hfd : first = if d1.1 = none
      then GetDefIconsDefaultTool.lookup h "ENVARC:Sys".toList name d1.2 else d1 := by
    rw [hfirst, hd1, hname]; rfl
  refine ⟨?_, ?_, ?_, ?_, ?_, ?_, ?_⟩
  · intro hl
    rw [hname]
    apply List.take_of_length_le
    simp only [List.length_append]
    have : "def_".toList.length = 4 := rfl
    omega
  · intro icon hi
    rw [hfd, if_neg (by rw [hi]; simp)]
    exact hi
  · intro hn
    rw [hfd, if_pos hn]
  · intro icon s hf hs hne hlen
    rw [heq, hf]
    exact copy_short icon s hs hne hlen
  · intro icon hf hs
    rw [heq, hf]
    exact copy_empty icon hs
  · intro hf
    rw [heq, hf]
    rfl
  · have hext : (Lock h "ENV:Sys".toList (Enter .GetDefIconsDefaultTool w)).2.trace <+:
        (GetDefIconsDefaultTool h t w).2.trace := by
      rw [heq, hfirst]
      refine (found_extends h t w).trans ?_
      simp only
      split_ifs <;> simp [FreeDiskObject, trace_emit]
    obtain ⟨rest, hrest⟩ := hext
    have htr : (GetDefIconsDefaultTool h t w).2.trace = w.trace ++
        (Event.Enter .GetDefIconsDefaultTool :: Event.Lock "ENV:Sys".toList
          (h.onLock (Enter .GetDefIconsDefaultTool w) "ENV:Sys".toList) :: rest) := by
      rw [← hrest]
      simp [Lock, Enter, trace_emit, List.append_assoc]
    have hc1 : (GetDefIconsDefaultTool h t w).2.count (Event.isOtherGetDiskObject name) =
        w.count (Event.isOtherGetDiskObject name) := by
      rw [heq, hfirst, hname]
      simp only
      split_ifs
      · rw [FreeDiskObject, count_emit, found_count_other]
        simp [Event.isOtherGetDiskObject]
      · exact found_count_other h t w
    have hc2 : (GetDefIconsDefaultTool h t w).2.count Event.isLockEnvArc =
        w.count Event.isLockEnvArc + if d1.1 = none then 1 else 0 := by
      have hf := found_count_envArc h t w
      rw [← hname, ← hd1] at hf
      rw [heq, hfirst]
      simp only
      by_cases hs : (GetDefIconsDefaultTool.found h t w).1.isSome = true
      · rw [if_pos hs, FreeDiskObject, count_emit, hf]
        simp [Event.isLockEnvArc]
      · rw [if_neg hs]
        exact hf
    refine ⟨_, htr, ⟨_, _, rfl⟩, ?_, ?_⟩
    · intro n r hmem
      have := none_of_count htr hc1 _ hmem
      simpa [Event.isOtherGetDiskObject] using this
    · constructor
      · rintro ⟨r, hmem⟩
        by_contra hne
        rw [if_neg hne, Nat.add_zero] at hc2
        have := none_of_count htr hc2 _ hmem
        simp [Event.isLockEnvArc] at this
      · intro hn
        rw [if_pos hn] at hc2
        have hlt : w.count Event.isLockEnvArc <
            (GetDefIconsDefaultTool h t w).2.count Event.isLockEnvArc := by omega
        obtain ⟨e, he, hq⟩ := some_of_count htr hlt
        cases e with
        | Lock n r =>
          have hn : n = "ENVARC:Sys".toList := by simpa [Event.isLockEnvArc] using hq
          exact ⟨r, hn ▸ he⟩
        | _ => simp [Event.isLockEnvArc] at hq

set_option maxRecDepth 20000 in
/-- Claim C18 fails as stated: for a type identifier of sixty characters the descriptor looked
up is not `def_` followed by it but that name cut to 63 characters; and for a default-tool
string of three hundred characters the string returned has 255 characters. -/
theorem C18_counterexample :
    (Event.GetDiskObject ("def_".toList ++ longType) none ∉
        (GetDefIconsDefaultTool plainHost longType World.start).2.trace ∧
      Event.GetDiskObject (("def_".toList ++ longType).take 63) none ∈
        (GetDefIconsDefaultTool plainHost longType World.start).2.trace) ∧
    ((GetDefIconsDefaultTool longToolHost "text".toList World.start).1 =
        some (List.replicate 255 'x') ∧
      (GetDefIconsDefaultTool longToolHost "text".toList World.start).1 ≠ some longTool) := by
  decide

/-- Claim C18 witness: the type `text` on a host whose `ENV:Sys` has `def_text`. -/
theorem C18_witness :
    defIconsHost.IconBase = true ∧ "text".toList ≠ [] ∧
    (GetDefIconsDefaultTool defIconsHost "text".toList World.start).1 =
      some "MultiView".toList :=
  ⟨rfl, by decide,
    (C18_default_tool_lookup defIconsHost "text".toList World.start rfl (by decide) _ _ _ rfl
      rfl rfl).2.2.2.1 ⟨some "MultiView".toList⟩ "MultiView".toList (by decide) rfl (by decide)
      (by decide)⟩

/-! ## The resource discipline -/

theorem discipline_append (S : List Res) (a b : List Event) :
    discipline S (a ++ b) = (discipline S a).bind (fun T => discipline T b) := by
  induction a generalizing S with
  | nil => rfl
  | cons e a ih =>
    simp only [List.cons_append, discipline]
    cases e.step S with
    | none => rfl
    | some U => simp [ih]

theorem Keeps.refl (S : List Res) (w : World) : Keeps S w w S := ⟨[], by simp, rfl⟩

theorem Keeps.emit {S T U : List Res} {w0 w : World} (e : Event) (he : e.step T = some U)
    (hk : Keeps S w0 w T) : Keeps S w0 (w.emit e) U := by
  obtain ⟨evs, h1, h2⟩ := hk
  refine ⟨evs ++ [e], ?_, ?_⟩
  · simp [trace_emit, h1]
  · simp [discipline_append, h2, discipline, he]

theorem Keeps.setDir {S T : List Res} {w0 w : World} (d : Nat) (hk : Keeps S w0 w T) :
    Keeps S w0 (w.setDir d) T := hk

theorem Keeps.Enter {S T : List Res} {w0 w : World} {f : Func} (hk : Keeps S w0 w T) :
    Keeps S w0 (Enter f w) T := hk.emit _ rfl

theorem Keeps.SetIoErr {S T : List Res} {w0 w : World} {c : Int} (hk : Keeps S w0 w T) :
    Keeps S w0 (SetIoErr c w) T := hk.emit _ rfl

theorem Keeps.Printf {S T : List Res} {w0 w : World} {fmt : String} {args : List CStr}
    (hk : Keeps S w0 w T) : Keeps S w0 (Printf fmt args w) T := hk.emit _ rfl

theorem Keeps.PrintFault {S T : List Res} {w0 w : World} {c : Int} {hd : String}
    (hk : Keeps S w0 w T) : Keeps S w0 (PrintFault c hd w) T := hk.emit _ rfl

theorem Keeps.Examine {S T : List Res} {w0 w : World} {h : Host} {l : Nat}
    (hk : Keeps S w0 w T) : Keeps S w0 (Examine h l w).2 T := hk.emit _ rfl

theorem Keeps.CurrentDir {S T : List Res} {w0 w : World} {l : Nat}
    (hk : Keeps S w0 w T) : Keeps S w0 (CurrentDir l w).2 T :=
  Keeps.setDir l (Keeps.emit (.CurrentDir l w.curDir) rfl hk)

theorem Keeps.OpenWorkbenchObjectA {S T : List Res} {w0 w : World} {h : Host} {n : CStr}
    {tags : List TagItem} (hk : Keeps S w0 w T) :
    Keeps S w0 (OpenWorkbenchObjectA h n tags w).2 T := hk.emit _ rfl

theorem Keeps.LockPubScreen {S T : List Res} {w0 w : World} {h : Host} {n : Option CStr}
    (hk : Keeps S w0 w T) : Keeps S w0 (LockPubScreen h n w).2 T := hk.emit _ rfl

theorem Keeps.UnlockPubScreen {S T : List Res} {w0 w : World} {s : Nat}
    (hk : Keeps S w0 w T) : Keeps S w0 (UnlockPubScreen s w) T := hk.emit _ rfl

theorem Keeps.WBInfo {S T : List Res} {w0 w : World} {h : Host} {l s : Nat} {n : CStr}
    (hk : Keeps S w0 w T) : Keeps S w0 (WBInfo h l n s w).2 T := hk.emit _ rfl

theorem Keeps.FindPort {S T : List Res} {w0 w : World} {h : Host} {n : CStr}
    (hk : Keeps S w0 w T) : Keeps S w0 (FindPort h n w).2 T := hk.emit _ rfl

theorem Keeps.GetIconTagList {S T : List Res} {w0 w : World} {h : Host} {n : CStr}
    (hk : Keeps S w0 w T) : Keeps S w0 (GetIconTagList h n w).2 T := hk.emit _ rfl

theorem Keeps.GetDiskObject {S T : List Res} {w0 w : World} {h : Host} {n : CStr}
    (hk : Keeps S w0 w T) : Keeps S w0 (GetDiskObject h n w).2 T := hk.emit _ rfl

theorem Keeps.FreeDiskObject {S T : List Res} {w0 w : World}
    (hk : Keeps S w0 w T) : Keeps S w0 (FreeDiskObject w) T := hk.emit _ rfl

theorem Keeps.Lock_ok {S T : List Res} {w0 w : World} {h : Host} {n : CStr}
    (hne : ¬(Lock h n w).1 = 0) (hk : Keeps S w0 w T) :
    Keeps S w0 (Lock h n w).2 (.lock (Lock h n w).1 :: T) :=
  hk.emit _ (congrArg some (if_neg hne))

theorem Keeps.Lock_fail {S T : List Res} {w0 w : World} {h : Host} {n : CStr}
    (h0 : (Lock h n w).1 = 0) (hk : Keeps S w0 w T) : Keeps S w0 (Lock h n w).2 T :=
  hk.emit _ (congrArg some (if_pos h0))

theorem Keeps.ParentDir_ok {S T : List Res} {w0 w : World} {h : Host} {l : Nat}
    (hne : ¬(ParentDir h l w).1 = 0) (hk : Keeps S w0 w T) :
    Keeps S w0 (ParentDir h l w).2 (.lock (ParentDir h l w).1 :: T) :=
  hk.emit _ (congrArg some (if_neg hne))

theorem Keeps.ParentDir_fail {S T : List Res} {w0 w : World} {h : Host} {l : Nat}
    (h0 : (ParentDir h l w).1 = 0) (hk : Keeps S w0 w T) :
    Keeps S w0 (ParentDir h l w).2 T :=
  hk.emit _ (congrArg some (if_pos h0))

theorem Keeps.UnLock {S T : List Res} {w0 w : World} {l : Nat}
    (hk : Keeps S w0 w (.lock l :: T)) : Keeps S w0 (UnLock l w) T :=
  hk.emit _ (by simp [Event.step])

theorem Keeps.Obtain_some {S T : List Res} {w0 w : World} {h : Host} {l : Nat} {d : DataType}
    (hd : (ObtainDataTypeA h l w).1 = some d) (hk : Keeps S w0 w T) :
    Keeps S w0 (ObtainDataTypeA h l w).2 (.entry d :: T) := by
  refine hk.emit _ ?_
  have hd1 : h.onObtainDataTypeA w l = some d := hd
  rw [hd1]
  rfl

theorem Keeps.Obtain_none {S T : List Res} {w0 w : World} {h : Host} {l : Nat}
    (hd : (ObtainDataTypeA h l w).1 = none) (hk : Keeps S w0 w T) :
    Keeps S w0 (ObtainDataTypeA h l w).2 T := by
  refine hk.emit _ ?_
  have hd1 : h.onObtainDataTypeA w l = none := hd
  rw [hd1]
  rfl

theorem Keeps.ReleaseDataType {S T : List Res} {w0 w : World} {d : DataType}
    (hk : Keeps S w0 w (.entry d :: T)) : Keeps S w0 (ReleaseDataType d w) T :=
  hk.emit _ (by simp [Event.step])

theorem Keeps.LaunchToolA {S T : List Res} {w0 w : World} {h : Host} {t : Tool} {f : CStr}
    (hc : T.any (Res.carries t) = true) (hk : Keeps S w0 w T) :
    Keeps S w0 (LaunchToolA h t f w).2 T :=
  hk.emit _ (if_pos hc)

theorem IsDrawer_keeps {S T : List Res} {w0 w : World} (h : Host) (f : CStr) (l : Nat)
    (hk : Keeps S w0 w T) : Keeps S w0 (IsDrawer h f l w).2 T := by
  unfold IsDrawer
  split_ifs
  · exact hk
  · split <;> exact hk.Examine

theorem IsExecutable_keeps {S T : List Res} {w0 w : World} (h : Host) (f : CStr) (l : Nat)
    (hk : Keeps S w0 w T) : Keeps S w0 (IsExecutable h f l w).2 T := by
  unfold IsExecutable
  split_ifs
  · exact hk
  · split
    · split_ifs <;> exact hk.Examine
    · exact hk.Examine

theorem OpenDrawer_keeps {S T : List Res} {w0 w : World} (h : Host) (f : CStr) (a : Bool)
    (hk : Keeps S w0 w T) : Keeps S w0 (OpenDrawer h f a w).2 T := by
  unfold OpenDrawer
  simp only
  split_ifs <;> (try dsimp only) <;>
    with_reducible repeat first
      | contradiction
      | exact hk
      | refine Keeps.Enter ?_
      | refine Keeps.Printf ?_
      | refine Keeps.PrintFault ?_
      | refine Keeps.SetIoErr ?_
      | refine Keeps.OpenWorkbenchObjectA ?_

theorem OpenExecutable_keeps {S T : List Res} {w0 w : World} (h : Host) (f : CStr)
    (hk : Keeps S w0 w T) : Keeps S w0 (OpenExecutable h f w).2 T := by
  unfold OpenExecutable
  simp only
  split_ifs <;> (try dsimp only) <;>
    with_reducible repeat first
      | contradiction
      | exact hk
      | refine Keeps.Enter ?_
      | refine Keeps.Printf ?_
      | refine Keeps.PrintFault ?_
      | refine Keeps.SetIoErr ?_
      | refine Keeps.OpenWorkbenchObjectA ?_

theorem OpenInfoFile_keeps {S T : List Res} {w0 w : World} (h : Host) (f : CStr) (l : Nat)
    (hk : Keeps S w0 w T) : Keeps S w0 (OpenInfoFile h f l w).2 T := by
  unfold OpenInfoFile
  simp only
  split_ifs <;> (try dsimp only) <;>
    with_reducible repeat first
      | contradiction
      | exact hk
      | refine Keeps.Enter ?_
      | refine Keeps.Printf ?_
      | refine Keeps.PrintFault ?_
      | refine Keeps.SetIoErr ?_
      | refine Keeps.WBInfo ?_
      | refine Keeps.UnlockPubScreen ?_
      | refine Keeps.LockPubScreen ?_
      | refine Keeps.UnLock ?_
      | refine Keeps.ParentDir_ok ‹_› ?_
      | refine Keeps.ParentDir_fail ‹_› ?_

theorem GetDefIconsTypeIdentifier_keeps {S T : List Res} {w0 w : World} (h : Host) (f : CStr)
    (l : Nat) (hk : Keeps S w0 w T) :
    Keeps S w0 (GetDefIconsTypeIdentifier h f l w).2 T := by
  unfold GetDefIconsTypeIdentifier
  simp only
  split_ifs <;> (try dsimp only) <;>
    with_reducible repeat first
      | contradiction
      | exact hk
      | refine Keeps.Enter ?_
      | refine Keeps.CurrentDir ?_
      | refine Keeps.FreeDiskObject ?_
      | refine Keeps.GetIconTagList ?_

theorem lookup_keeps {S T : List Res} {w0 w : World} (h : Host) (dir name : CStr)
    (hk : Keeps S w0 w T) : Keeps S w0 (GetDefIconsDefaultTool.lookup h dir name w).2 T := by
  unfold GetDefIconsDefaultTool.lookup
  simp only [ne_eq]
  split_ifs <;> (try dsimp only) <;>
    with_reducible repeat first
      | contradiction
      | exact hk
      | refine Keeps.CurrentDir ?_
      | refine Keeps.GetDiskObject ?_
      | refine Keeps.UnLock ?_
      | refine Keeps.Lock_ok ‹_› ?_
      | refine Keeps.Lock_fail ‹_› ?_

theorem GetDefIconsDefaultTool_keeps {S T : List Res} {w0 w : World} (h : Host) (t : CStr)
    (hk : Keeps S w0 w T) : Keeps S w0 (GetDefIconsDefaultTool h t w).2 T := by
  unfold GetDefIconsDefaultTool
  simp only
  split_ifs <;> (try split) <;> (try dsimp only) <;>
    with_reducible repeat first
      | contradiction
      | exact hk
      | refine Keeps.Enter ?_
      | refine Keeps.FreeDiskObject ?_
      | refine lookup_keeps _ _ _ ?_

theorem GetDatatypesTool_keeps {S T : List Res} {w0 w : World} (h : Host) (f : CStr)
    (l p : Nat) (hk : Keeps S w0 w T) : Keeps S w0 (GetDatatypesTool h f l p w).2 T := by
  unfold GetDatatypesTool
  simp only
  split_ifs <;> (try split) <;> (try dsimp only) <;>
    with_reducible repeat first
      | contradiction
      | exact hk
      | refine Keeps.Enter ?_
      | refine Keeps.ReleaseDataType ?_
      | refine Keeps.Obtain_some ‹_› ?_
      | refine Keeps.Obtain_none ‹_› ?_

theorem GetIconDefaultTool_keeps {S T : List Res} {w0 w : World} (h : Host) (f : CStr)
    (l : Nat) (hk : Keeps S w0 w T) : Keeps S w0 (GetIconDefaultTool h f l w).2 T := by
  unfold GetIconDefaultTool
  simp only [ne_eq]
  split_ifs <;> (try split) <;> (try dsimp only) <;>
    with_reducible repeat first
      | contradiction
      | exact hk
      | refine Keeps.Enter ?_
      | refine Keeps.FreeDiskObject ?_
      | refine Keeps.CurrentDir ?_
      | refine Keeps.GetDiskObject ?_
      | refine Keeps.UnLock ?_
      | refine Keeps.ParentDir_ok ‹_› ?_
      | refine Keeps.ParentDir_fail ‹_› ?_

theorem defIconsStep_keeps {S T : List Res} {w0 w : World} (h : Host) (f : CStr) (l : Nat)
    (hk : Keeps S w0 w T) : Keeps S w0 (OpenDataFile.defIconsStep h f l w).2 T := by
  unfold OpenDataFile.defIconsStep IsDefIconsRunning
  simp only [ne_eq]
  split_ifs <;> (try split) <;> (try dsimp only) <;>
    with_reducible repeat first
      | contradiction
      | exact hk
      | refine Keeps.FindPort ?_
      | refine Keeps.UnLock ?_
      | refine GetDefIconsDefaultTool_keeps _ _ ?_
      | refine GetDefIconsTypeIdentifier_keeps _ _ _ ?_
      | refine Keeps.ParentDir_ok ‹_› ?_
      | refine Keeps.ParentDir_fail ‹_› ?_

theorem resolve_keeps {S T : List Res} {w0 w : World} (h : Host) (f : CStr) (l : Nat)
    (ft : Option CStr) (b e i p m : Bool) (hk : Keeps S w0 w T) :
    Keeps S w0 (OpenDataFile.resolve h f l ft b e i p m w).2 T := by
  unfold OpenDataFile.resolve
  simp only
  split_ifs <;> (try dsimp only) <;>
    with_reducible repeat first
      | contradiction
      | exact hk
      | refine GetIconDefaultTool_keeps _ _ _ ?_
      | refine GetDatatypesTool_keeps _ _ _ _ ?_
      | refine defIconsStep_keeps _ _ _ ?_

theorem launchByName_keeps {S T : List Res} {w0 w : World} (h : Host) (f tool : CStr)
    (hk : Keeps S w0 w T) : Keeps S w0 (OpenDataFile.launchByName h f tool w).2 T := by
  unfold OpenDataFile.launchByName
  simp only [ne_eq]
  split_ifs <;> (try dsimp only) <;>
    with_reducible repeat first
      | contradiction
      | exact hk
      | refine Keeps.Printf ?_
      | refine Keeps.PrintFault ?_
      | refine Keeps.SetIoErr ?_
      | refine Keeps.OpenWorkbenchObjectA ?_
      | refine Keeps.UnLock ?_
      | refine Keeps.ParentDir_ok ‹_› ?_
      | refine Keeps.ParentDir_fail ‹_› ?_
      | refine Keeps.Lock_ok ‹_› ?_
      | refine Keeps.Lock_fail ‹_› ?_

theorem launchByNode_keeps {S T : List Res} {w0 w : World} (h : Host) (f tool : CStr)
    (tn : ToolNode) (dtn : DataType) (hmem : tn ∈ dtn.dtn_ToolList)
    (hk : Keeps S w0 w (.entry dtn :: T)) :
    Keeps S w0 (OpenDataFile.launchByNode h f tool tn dtn w).2 T := by
  have hc : (Res.entry dtn :: T).any (Res.carries tn.tn_Tool) = true := by
    simp only [List.any_cons, Res.carries, Bool.or_eq_true, List.any_eq_true,
      decide_eq_true_eq]
    exact Or.inl ⟨tn, hmem, rfl⟩
  unfold OpenDataFile.launchByNode
  simp only
  split_ifs <;>
    with_reducible repeat first
      | contradiction
      | exact hk
      | refine Keeps.Printf ?_
      | refine Keeps.PrintFault ?_
      | refine Keeps.SetIoErr ?_
      | refine Keeps.ReleaseDataType ?_
      | refine Keeps.LaunchToolA hc ?_

theorem GetDatatypesToolNode_keeps {S T : List Res} {w0 w : World} (h : Host) (f : CStr)
    (l p : Nat) (hk : Keeps S w0 w T) :
    (∀ tn dtn, (GetDatatypesToolNode h f l p w).1 = (some tn, some dtn) →
      Keeps S w0 (GetDatatypesToolNode h f l p w).2 (.entry dtn :: T)) ∧
    ((∀ tn dtn, (GetDatatypesToolNode h f l p w).1 ≠ (some tn, some dtn)) →
      Keeps S w0 (GetDatatypesToolNode h f l p w).2 T) := by
  unfold GetDatatypesToolNode
  simp only
  split_ifs
  · exact ⟨fun tn dtn hc => by simp at hc, fun _ => hk.Enter⟩
  · split
    · exact ⟨fun tn dtn hc => by simp at hc, fun _ => Keeps.Obtain_none ‹_› hk.Enter⟩
    · split
      · refine ⟨fun tn dtn hc => ?_, fun hc => absurd rfl (hc _ _)⟩
        simp only [Prod.mk.injEq, Option.some.injEq] at hc
        rw [← hc.2]
        exact Keeps.Obtain_some ‹_› hk.Enter
      · exact ⟨fun tn dtn hc => by simp at hc,
          fun _ => Keeps.ReleaseDataType (Keeps.Obtain_some ‹_› hk.Enter)⟩
      · split
        · refine ⟨fun tn dtn hc => ?_, fun hc => absurd rfl (hc _ _)⟩
          simp only [Prod.mk.injEq, Option.some.injEq] at hc
          rw [← hc.2]
          exact Keeps.Obtain_some ‹_› hk.Enter
        · exact ⟨fun tn dtn hc => by simp at hc,
            fun _ => Keeps.ReleaseDataType (Keeps.Obtain_some ‹_› hk.Enter)⟩

theorem launch_keeps {S T : List Res} {w0 w : World} (h : Host) (f : CStr) (l : Nat)
    (loc : Locals) (hk : Keeps S w0 w T) :
    Keeps S w0 (OpenDataFile.launch h f l loc w).2 T := by
  unfold OpenDataFile.launch
  split
  · split_ifs
    · exact launchByName_keeps _ _ _ hk
    · simp only
      split
      · rename_i tn dtn heq
        exact launchByNode_keeps _ _ _ _ _
          (GetDatatypesToolNode_some _ _ _ _ _ _ _ heq).2.2.2.1
          ((GetDatatypesToolNode_keeps h f l loc.preferredTool hk).1 _ _ heq)
      · rename_i hne
        exact launchByName_keeps _ _ _
          ((GetDatatypesToolNode_keeps h f l loc.preferredTool hk).2
            (fun tn dtn hc => hne tn dtn hc))
  · exact hk.Printf.Printf

theorem OpenDataFile_keeps {S T : List Res} {w0 w : World} (h : Host) (f : CStr) (l : Nat)
    (ft : Option CStr) (b e i p m : Bool) (hk : Keeps S w0 w T) :
    Keeps S w0 (OpenDataFile h f l ft b e i p m w).2 T := by
  unfold OpenDataFile
  simp only
  split_ifs
  · exact hk.Enter
  · exact launch_keeps _ _ _ _ (resolve_keeps _ _ _ _ _ _ _ _ _ hk.Enter)

theorem OpenItem_keeps {S T : List Res} {w0 w : World} (h : Host) (f : CStr)
    (ft : Option CStr) (b e i p m a : Bool) (hk : Keeps S w0 w T) :
    Keeps S w0 (OpenItem h f ft b e i p m a w).2 T := by
  unfold OpenItem
  simp only
  split_ifs <;> (try dsimp only) <;>
    with_reducible repeat first
      | contradiction
      | exact hk
      | refine Keeps.Printf ?_
      | refine Keeps.PrintFault ?_
      | refine Keeps.UnLock ?_
      | refine OpenInfoFile_keeps _ _ _ ?_
      | refine OpenDataFile_keeps _ _ _ _ _ _ _ _ _ ?_
      | refine OpenDrawer_keeps _ _ _ ?_
      | refine OpenExecutable_keeps _ _ ?_
      | refine IsExecutable_keeps _ _ _ ?_
      | refine IsDrawer_keeps _ _ _ ?_
      | refine Keeps.Lock_ok ‹_› ?_
      | refine Keeps.Lock_fail ‹_› ?_

/-! ## What the discipline says about the counts -/

theorem step_locks {S U : List Res} {e : Event} (he : e.step S = some U) (l : Nat) :
    U.count (.lock l) + (if e.releases l = true then 1 else 0) =
      S.count (.lock l) + (if e.acquires l = true then 1 else 0) := by
  cases e with
  | Lock n r =>
    simp only [Event.step, Option.some.injEq] at he
    subst he
    by_cases hr : r = 0
    · simp [hr, Event.acquires, Event.releases]
    · by_cases hl : r = l
      · subst hl
        simp [hr, Event.acquires, Event.releases]
      · simp [hr, hl, Event.acquires, Event.releases, List.count_cons]
  | ParentDir n r =>
    simp only [Event.step, Option.some.injEq] at he
    subst he
    by_cases hr : r = 0
    · simp [hr, Event.acquires, Event.releases]
    · by_cases hl : r = l
      · subst hl
        simp [hr, Event.acquires, Event.releases]
      · simp [hr, hl, Event.acquires, Event.releases, List.count_cons]
  | UnLock r =>
    simp only [Event.step] at he
    split_ifs at he with hm
    simp only [Option.some.injEq] at he
    subst he
    by_cases hl : r = l
    · subst hl
      have := List.count_pos_iff.mpr hm
      simp only [List.count_erase_self, Event.acquires, Event.releases, beq_self_eq_true,
        if_true, Bool.false_eq_true, if_false]
      omega
    · have hne : Res.lock l ≠ Res.lock r := fun hc => hl (Res.lock.inj hc).symm
      simp [List.count_erase_of_ne hne, Event.acquires, Event.releases, hl]
  | ObtainDataTypeA n r =>
    cases r with
    | none =>
      simp only [Event.step, Option.some.injEq] at he
      subst he
      simp [Event.acquires, Event.releases]
    | some d =>
      simp only [Event.step, Option.some.injEq] at he
      subst he
      simp [Event.acquires, Event.releases, List.count_cons]
  | ReleaseDataType d =>
    simp only [Event.step] at he
    split_ifs at he with hm
    simp only [Option.some.injEq] at he
    subst he
    have hne : Res.lock l ≠ Res.entry d := fun hc => by cases hc
    simp [List.count_erase_of_ne hne, Event.acquires, Event.releases]
  | LaunchToolA t f r =>
    simp only [Event.step] at he
    split_ifs at he with hm
    simp only [Option.some.injEq] at he
    subst he
    simp [Event.acquires, Event.releases]
  | _ =>
    simp only [Event.step, Option.some.injEq] at he
    subst he
    simp [Event.acquires, Event.releases]

theorem step_entries {S U : List Res} {e : Event} (he : e.step S = some U) (d : DataType) :
    U.count (.entry d) + (if e.drops d = true then 1 else 0) =
      S.count (.entry d) + (if e.obtains d = true then 1 else 0) := by
  cases e with
  | Lock n r =>
    simp only [Event.step, Option.some.injEq] at he
    subst he
    by_cases hr : r = 0
    · simp [hr, Event.obtains, Event.drops]
    · simp [hr, Event.obtains, Event.drops, List.count_cons]
  | ParentDir n r =>
    simp only [Event.step, Option.some.injEq] at he
    subst he
    by_cases hr : r = 0
    · simp [hr, Event.obtains, Event.drops]
    · simp [hr, Event.obtains, Event.drops, List.count_cons]
  | UnLock r =>
    simp only [Event.step] at he
    split_ifs at he with hm
    simp only [Option.some.injEq] at he
    subst he
    have hne : Res.entry d ≠ Res.lock r := fun hc => by cases hc
    simp [List.count_erase_of_ne hne, Event.obtains, Event.drops]
  | ObtainDataTypeA n r =>
    cases r with
    | none =>
      simp only [Event.step, Option.some.injEq] at he
      subst he
      simp [Event.obtains, Event.drops]
    | some x =>
      simp only [Event.step, Option.some.injEq] at he
      subst he
      by_cases hx : x = d
      · subst hx
        simp [Event.obtains, Event.drops]
      · simp [Event.obtains, Event.drops, List.count_cons, hx]
  | ReleaseDataType x =>
    simp only [Event.step] at he
    split_ifs at he with hm
    simp only [Option.some.injEq] at he
    subst he
    by_cases hx : x = d
    · subst hx
      have := List.count_pos_iff.mpr hm
      simp only [List.count_erase_self, Event.obtains, Event.drops, beq_self_eq_true,
        if_true, Bool.false_eq_true, if_false]
      omega
    · have hne : Res.entry d ≠ Res.entry x := fun hc => hx (Res.entry.inj hc).symm
      simp [List.count_erase_of_ne hne, Event.obtains, Event.drops, hx]
  | LaunchToolA t f r =>
    simp only [Event.step] at he
    split_ifs at he with hm
    simp only [Option.some.injEq] at he
    subst he
    simp [Event.obtains, Event.drops]
  | _ =>
    simp only [Event.step, Option.some.injEq] at he
    subst he
    simp [Event.obtains, Event.drops]

theorem discipline_locks {evs : List Event} {S T : List Res}
    (hd : discipline S evs = some T) (l : Nat) :
    T.count (.lock l) + evs.countP (Event.releases l) =
      S.count (.lock l) + evs.countP (Event.acquires l) := by
  induction evs generalizing S with
  | nil =>
    simp only [discipline, Option.some.injEq] at hd
    subst hd
    rfl
  | cons e evs ih =>
    simp only [discipline] at hd
    cases he : e.step S with
    | none => rw [he] at hd; cases hd
    | some U =>
      rw [he] at hd
      have h1 := ih hd
      have h2 := step_locks he l
      simp only [List.countP_cons]
      omega

theorem discipline_entries {evs : List Event} {S T : List Res}
    (hd : discipline S evs = some T) (d : DataType) :
    T.count (.entry d) + evs.countP (Event.drops d) =
      S.count (.entry d) + evs.countP (Event.obtains d) := by
  induction evs generalizing S with
  | nil =>
    simp only [discipline, Option.some.injEq] at hd
    subst hd
    rfl
  | cons e evs ih =>
    simp only [discipline] at hd
    cases he : e.step S with
    | none => rw [he] at hd; cases hd
    | some U =>
      rw [he] at hd
      have h1 := ih hd
      have h2 := step_entries he d
      simp only [List.countP_cons]
      omega

theorem discipline_take {evs : List Event} {S T : List Res}
    (hd : discipline S evs = some T) (n : Nat) :
    ∃ U, discipline S (evs.take n) = some U := by
  rw [← List.take_append_drop n evs, discipline_append] at hd
  cases hp : discipline S (evs.take n) with
  | none => rw [hp] at hd; cases hd
  | some U => exact ⟨U, rfl⟩

theorem discipline_launch {S T : List Res} {pre post : List Event} {t : Tool} {f : CStr}
    {r : Nat} (hd : discipline S (pre ++ Event.LaunchToolA t f r :: post) = some T) :
    ∃ U, discipline S pre = some U ∧ discipline U post = some T ∧
      U.any (Res.carries t) = true := by
  rw [discipline_append] at hd
  cases hp : discipline S pre with
  | none => rw [hp] at hd; cases hd
  | some U =>
    rw [hp] at hd
    simp only [Option.some_bind, discipline, Event.step] at hd
    split_ifs at hd with hc
    · exact ⟨U, rfl, hd, hc⟩
    · cases hd

theorem carries_entry {U : List Res} {t : Tool} (hc : U.any (Res.carries t) = true) :
    ∃ d, (∃ tn ∈ d.dtn_ToolList, tn.tn_Tool = t) ∧ 0 < U.count (.entry d) := by
  obtain ⟨res, hmem, hres⟩ := List.any_eq_true.mp hc
  cases res with
  | lock l => cases hres
  | entry d =>
    refine ⟨d, ?_, List.count_pos_iff.mpr hmem⟩
    obtain ⟨tn, h1, h2⟩ := List.any_eq_true.mp hres
    exact ⟨tn, h1, by simpa using h2⟩

/-- What a run that keeps the discipline from no resources to no resources says in terms of
the events alone. -/
theorem keeps_facts {w w' : World} (hk : Keeps [] w w' []) :
    ∃ evs, w'.trace = w.trace ++ evs ∧
      (∀ l, evs.countP (Event.acquires l) = evs.countP (Event.releases l)) ∧
      (∀ n l, (evs.take n).countP (Event.releases l) ≤
        (evs.take n).countP (Event.acquires l)) ∧
      (∀ d, evs.countP (Event.obtains d) = evs.countP (Event.drops d)) ∧
      (∀ n d, (evs.take n).countP (Event.drops d) ≤ (evs.take n).countP (Event.obtains d)) ∧
      (∀ pre t f r post, evs = pre ++ Event.LaunchToolA t f r :: post →
        ∃ d, (∃ tn ∈ d.dtn_ToolList, tn.tn_Tool = t) ∧
          pre.countP (Event.drops d) < pre.countP (Event.obtains d) ∧
          0 < post.countP (Event.drops d)) := by
  obtain ⟨evs, h1, h2⟩ := hk
  refine ⟨evs, h1, ?_, ?_, ?_, ?_, ?_⟩
  · intro l
    have := discipline_locks h2 l
    simpa using this.symm
  · intro n l
    obtain ⟨U, hU⟩ := discipline_take h2 n
    have := discipline_locks hU l
    simp only [List.count_nil] at this
    omega
  · intro d
    have := discipline_entries h2 d
    simpa using this.symm
  · intro n d
    obtain ⟨U, hU⟩ := discipline_take h2 n
    have := discipline_entries hU d
    simp only [List.count_nil] at this
    omega
  · intro pre t f r post hsplit
    rw [hsplit] at h2
    obtain ⟨U, hpre, hpost, hc⟩ := discipline_launch h2
    obtain ⟨d, hd, hpos⟩ := carries_entry hc
    refine ⟨d, hd, ?_, ?_⟩
    · have := discipline_entries hpre d
      simp only [List.count_nil] at this
      omega
    · have := discipline_entries hpost d
      have h3 := discipline_entries hpre d
      have h4 := discipline_entries h2 d
      simp only [List.count_nil, List.countP_append, List.countP_cons] at this h3 h4
      simp only [Event.obtains, Event.drops] at h4
      omega

/-! ## Locks and registry entries are released exactly once -/

theorem OpenItem_body (h : Host) (fileName : CStr) (forceTool : Option CStr)
    (fb fe fi fp fm showAll : Bool) (w : World) (hl : (Lock h fileName w).1 ≠ 0) :
    ∃ w2, (OpenItem h fileName forceTool fb fe fi fp fm showAll w).2 =
        UnLock (Lock h fileName w).1 w2 ∧
      (Lock h fileName w).2.trace <+: w2.trace := by
  have hk := Keeps.refl [] (Lock h fileName w).2
  unfold OpenItem
  simp only
  rw [if_neg hl]
  refine ⟨_, rfl, ?_⟩
  suffices hs : Keeps [] (Lock h fileName w).2 _ [] by
    obtain ⟨evs, h1, _⟩ := hs
    exact ⟨evs, h1.symm⟩
  split_ifs <;> (try dsimp only) <;>
    with_reducible repeat first
      | exact hk
      | refine Keeps.Printf ?_
      | refine OpenInfoFile_keeps _ _ _ ?_
      | refine OpenDataFile_keeps _ _ _ _ _ _ _ _ _ ?_
      | refine OpenDrawer_keeps _ _ _ ?_
      | refine OpenExecutable_keeps _ _ ?_
      | refine IsExecutable_keeps _ _ _ ?_
      | refine IsDrawer_keeps _ _ _ ?_

/-- Claim C11: on every run of `OpenItem` the events it appends acquire and release every
lock equally often, at no point has a lock been released more often than acquired, when the
initial `Lock` fails no event acquires or releases a lock, and when it succeeds the run
starts by acquiring that lock and ends by releasing it. -/
theorem C11_every_lock_released_exactly_once (h : Host) (fileName : CStr)
    (forceTool : Option CStr) (fb fe fi fp fm showAll : Bool) (w : World) :
    ∃ evs, (OpenItem h fileName forceTool fb fe fi fp fm showAll w).2.trace = w.trace ++ evs ∧
      (∀ l, evs.countP (Event.acquires l) = evs.countP (Event.releases l)) ∧
      (∀ n l, (evs.take n).countP (Event.releases l) ≤
        (evs.take n).countP (Event.acquires l)) ∧
      ((Lock h fileName w).1 = 0 →
        ∀ e ∈ evs, ∀ l, e.acquires l = false ∧ e.releases l = false) ∧
      ((Lock h fileName w).1 ≠ 0 →
        ∃ mid, evs = Event.Lock fileName (Lock h fileName w).1 :: mid ++
          [Event.UnLock (Lock h fileName w).1]) := by
  obtain ⟨evs, hevs, hbal, hpre, _, _, _⟩ :=
    keeps_facts (OpenItem_keeps h fileName forceTool fb fe fi fp fm showAll (Keeps.refl [] w))
  refine ⟨evs, hevs, hbal, hpre, ?_, ?_⟩
  · intro h0 e he l
    have h1 : (OpenItem h fileName forceTool fb fe fi fp fm showAll w).2.trace =
        w.trace ++ [Event.Lock fileName 0, Event.PrintFault
          (if IoErr h (Lock h fileName w).2 ≠ 0 then IoErr h (Lock h fileName w).2
            else ERROR_OBJECT_NOT_FOUND) "Open"] := by
      have h0c : h.onLock w fileName = 0 := h0
      unfold OpenItem
      simp only
      rw [if_pos h0]
      simp [PrintFault, Lock, trace_emit, h0c]
    rw [hevs] at h1
    have h2 := List.append_cancel_left h1
    rw [h2] at he
    simp only [List.mem_cons, List.mem_singleton, List.not_mem_nil, or_false] at he
    rcases he with rfl | rfl <;> simp [Event.acquires, Event.releases]
  · intro hne
    obtain ⟨w2, h1, mid, hmid⟩ := OpenItem_body h fileName forceTool fb fe fi fp fm showAll w hne
    refine ⟨mid, ?_⟩
    rw [h1] at hevs
    simp only [UnLock, trace_emit, ← hmid, Lock, List.append_assoc] at hevs
    exact (List.append_cancel_left hevs).symm

theorem launch_asksNode (h : Host) (fileName : CStr) (fileLock : Nat) (l : Locals) (w : World)
    (tn : ToolNode) (dtn : DataType) (ha : OpenDataFile.asksNode l = true)
    (hn : (GetDatatypesToolNode h fileName fileLock l.preferredTool w).1 = (some tn, some dtn)) :
    ∃ t, OpenDataFile.launch h fileName fileLock l w =
      OpenDataFile.launchByNode h fileName t tn dtn
        (GetDatatypesToolNode h fileName fileLock l.preferredTool w).2 := by
  unfold OpenDataFile.asksNode at ha
  unfold OpenDataFile.launch
  split at ha
  · rename_i o c cs heq
    simp only [Bool.not_eq_true', Bool.or_eq_false_iff] at ha
    rw [heq] at ha ⊢
    simp only [ha.1, ha.2, Bool.false_eq_true, or_self, if_false, hn]
    exact ⟨_, rfl⟩
  · cases ha

theorem launch_not_asksNode (h : Host) (fileName : CStr) (fileLock : Nat) (l : Locals)
    (w : World) (ha : OpenDataFile.asksNode l = false) :
    (OpenDataFile.launch h fileName fileLock l w).2.count Event.isLaunchTool =
      w.count Event.isLaunchTool := by
  unfold OpenDataFile.asksNode at ha
  unfold OpenDataFile.launch
  split at ha
  · rename_i o c cs heq
    simp only [Bool.not_eq_false', Bool.or_eq_true] at ha
    rw [heq] at ha ⊢
    simp only [ha, if_true]
    exact launchByName_count _ _ _ _ _ (fpLaunchByName_not_launchTool _ _ _)
  · simp [Printf, count_emit, Event.isLaunchTool]

theorem launchByNode_shape (h : Host) (fileName tool : CStr) (tn : ToolNode) (dtn : DataType)
    (w : World) :
    ∃ res diag, (OpenDataFile.launchByNode h fileName tool tn dtn w).2.trace =
        w.trace ++ (Event.SetIoErr 0 :: Event.LaunchToolA tn.tn_Tool fileName res :: diag ++
          [Event.ReleaseDataType dtn]) ∧
      (∀ e ∈ diag, e.isDiagnostic = true) := by
  unfold OpenDataFile.launchByNode
  simp only [ReleaseDataType, SetIoErr, LaunchToolA, Printf, PrintFault, IoErr]
  split_ifs <;>
    simp only [trace_emit, List.append_assoc, List.cons_append, List.nil_append]
  · exact ⟨_, [_, _], rfl, by simp [Event.isDiagnostic]⟩
  · exact ⟨_, [], rfl, by simp⟩

theorem GetDatatypesToolNode_cases (h : Host) (fileName : CStr) (fileLock p : Nat) (w : World) :
    (GetDatatypesToolNode h fileName fileLock p w).1 = (none, none) ∨
      ∃ tn dtn, (GetDatatypesToolNode h fileName fileLock p w).1 = (some tn, some dtn) := by
  unfold GetDatatypesToolNode
  simp only
  split_ifs <;> (try split) <;> (try split) <;> (try split) <;> simp

theorem keeps_pinned {w w' : World} {T : List Res} (hk : Keeps [] w w' T) (d : DataType) :
    w'.pinned d = w.pinned d + T.count (.entry d) := by
  obtain ⟨evs, h1, h2⟩ := hk
  have := discipline_entries h2 d
  simp only [World.pinned, World.count, h1, List.countP_append, List.count_nil] at this ⊢
  push_cast
  omega

theorem launch_count_launchTool (h : Host) (fileName : CStr) (fileLock : Nat) (l : Locals)
    (w : World) :
    (OpenDataFile.launch h fileName fileLock l w).2.count Event.isLaunchTool ≤
      w.count Event.isLaunchTool + 1 := by
  cases ha : OpenDataFile.asksNode l with
  | false => rw [launch_not_asksNode _ _ _ _ _ ha]; omega
  | true =>
    rcases GetDatatypesToolNode_cases h fileName fileLock l.preferredTool w with hn | ⟨tn, dtn, hn⟩
    · unfold OpenDataFile.asksNode at ha
      unfold OpenDataFile.launch
      split at ha
      · rename_i o c cs heq
        simp only [Bool.not_eq_true', Bool.or_eq_false_iff] at ha
        rw [heq] at ha ⊢
        simp only [ha.1, ha.2, Bool.false_eq_true, or_self, if_false, hn]
        rw [launchByName_count _ _ _ _ _ (fpLaunchByName_not_launchTool _ _ _),
          GetDatatypesToolNode_count _ _ _ _ _ _ fpNode_not_launchTool]
        omega
      · cases ha
    · obtain ⟨t, ht⟩ := launch_asksNode h fileName fileLock l w tn dtn ha hn
      rw [ht]
      obtain ⟨res, diag, hs, hd⟩ := launchByNode_shape h fileName t tn dtn
        (GetDatatypesToolNode h fileName fileLock l.preferredTool w).2
      have hc := GetDatatypesToolNode_count h fileName fileLock l.preferredTool w _
        fpNode_not_launchTool
      have hdiag : diag.countP Event.isLaunchTool = 0 := by
        rw [List.countP_eq_zero]
        intro e he
        have := hd e he
        cases e <;> simp_all [Event.isDiagnostic, Event.isLaunchTool]
      simp only [World.count] at hc ⊢
      rw [hs]
      simp only [List.countP_append, List.countP_cons, hdiag, hc, Event.isLaunchTool,
        List.countP_nil]
      simp

/-- Claim C12: on every run of `OpenDataFile` the events it appends obtain and release every
registry entry equally often, at no point has an entry been released more often than
obtained, every `LaunchToolA` call is made on a tool of an entry that is held at that point
and released after it, and is the only one; `GetDatatypesToolNode` returns with a node the
entry that lists it, held once more than before, and leaves nothing held when it returns no
node; and when the launch part asks for the node and gets one, the run calls `LaunchToolA`
on that node and, after diagnostics at most, ends by releasing the entry. -/
theorem C12_registry_entry_released_exactly_once (h : Host) (fileName : CStr) (fileLock : Nat)
    (forceTool : Option CStr) (fb fe fi fp fm : Bool) (w : World) :
    ∃ evs, (OpenDataFile h fileName fileLock forceTool fb fe fi fp fm w).2.trace =
        w.trace ++ evs ∧
      (∀ d, evs.countP (Event.obtains d) = evs.countP (Event.drops d)) ∧
      (∀ n d, (evs.take n).countP (Event.drops d) ≤ (evs.take n).countP (Event.obtains d)) ∧
      (∀ pre t f r post, evs = pre ++ Event.LaunchToolA t f r :: post →
        ∃ d, (∃ tn ∈ d.dtn_ToolList, tn.tn_Tool = t) ∧
          pre.countP (Event.drops d) < pre.countP (Event.obtains d) ∧
          0 < post.countP (Event.drops d)) ∧
      evs.countP Event.isLaunchTool ≤ 1 ∧
      (∀ p w1 tn x, (GetDatatypesToolNode h fileName fileLock p w1).1 = (some tn, x) →
        ∃ dtn, x = some dtn ∧ tn ∈ dtn.dtn_ToolList ∧
          ∀ d, (GetDatatypesToolNode h fileName fileLock p w1).2.pinned d =
            w1.pinned d + if d = dtn then 1 else 0) ∧
      (∀ p w1 x, (GetDatatypesToolNode h fileName fileLock p w1).1 = (none, x) →
        x = none ∧
          ∀ d, (GetDatatypesToolNode h fileName fileLock p w1).2.pinned d = w1.pinned d) ∧
      (∀ r n tn dtn,
        r = OpenDataFile.resolve h fileName fileLock forceTool fb fe fi fp fm
          (Enter .OpenDataFile w) →
        n = GetDatatypesToolNode h fileName fileLock r.1.preferredTool r.2 →
        fileLock ≠ 0 → OpenDataFile.asksNode r.1 = true → n.1 = (some tn, some dtn) →
        ∃ pre res diag, evs = pre ++ Event.LaunchToolA tn.tn_Tool fileName res :: diag ++
            [Event.ReleaseDataType dtn] ∧
          (∀ e ∈ diag, e.isDiagnostic = true) ∧ (∀ e ∈ pre, e.isLaunchTool = false)) := by
  obtain ⟨evs, hevs, _, _, hbal, hpre, hlaunch⟩ :=
    keeps_facts (OpenDataFile_keeps h fileName fileLock forceTool fb fe fi fp fm
      (Keeps.refl [] w))
  refine ⟨evs, hevs, hbal, hpre, hlaunch, ?_, ?_, ?_, ?_⟩
  · have hc : (OpenDataFile h fileName fileLock forceTool fb fe fi fp fm w).2.count
        Event.isLaunchTool ≤ w.count Event.isLaunchTool + 1 := by
      unfold OpenDataFile
      simp only
      split_ifs
      · simp [Enter, count_emit, Event.isLaunchTool]
      · refine (launch_count_launchTool _ _ _ _ _).trans ?_
        rw [resolve_count _ _ _ _ _ _ _ _ _ _ _ fpResolve_not_launchTool]
        simp [Enter, count_emit, Event.isLaunchTool]
    simp only [World.count, hevs, List.countP_append] at hc
    omega
  · intro p w1 tn x hres
    rcases GetDatatypesToolNode_cases h fileName fileLock p w1 with hn | ⟨tn1, dtn, hn⟩
    · rw [hn] at hres
      cases hres
    · rw [hn] at hres
      simp only [Prod.mk.injEq, Option.some.injEq] at hres
      obtain ⟨rfl, rfl⟩ := hres
      refine ⟨dtn, rfl, (GetDatatypesToolNode_some _ _ _ _ _ _ _ hn).2.2.2.1, ?_⟩
      intro d
      have hk := (GetDatatypesToolNode_keeps h fileName fileLock p (Keeps.refl [] w1)).1 _ _ hn
      rw [keeps_pinned hk d]
      by_cases hd : d = dtn
      · subst hd
        simp
      · have hne : Res.entry d ≠ Res.entry dtn := fun hc => hd (Res.entry.inj hc)
        simp [hd, List.count_cons, hne.symm]
  · intro p w1 x hres
    rcases GetDatatypesToolNode_cases h fileName fileLock p w1 with hn | ⟨tn1, dtn, hn⟩
    · rw [hn] at hres
      simp only [Prod.mk.injEq, true_and] at hres
      refine ⟨hres.symm, ?_⟩
      intro d
      have hk := (GetDatatypesToolNode_keeps h fileName fileLock p (Keeps.refl [] w1)).2
        (fun tn dtn hc => by rw [hn] at hc; cases hc)
      rw [keeps_pinned hk d]
      simp
    · rw [hn] at hres
      cases hres
  · intro r n tn dtn hr hn hlock ha hres
    have key := OpenDataFile_eq h fileName fileLock forceTool fb fe fi fp fm w hlock
    rw [← hr] at key
    rw [hn] at hres
    obtain ⟨t, ht⟩ := launch_asksNode h fileName fileLock r.1 r.2 tn dtn ha hres
    rw [ht, ← hn] at key
    obtain ⟨res, diag, hs, hd⟩ := launchByNode_shape h fileName t tn dtn n.2
    have hnext : w.trace <+: n.2.trace := by
      rw [hn, hr]
      refine List.IsPrefix.trans ?_ (GetDatatypesToolNode_extends _ _ _ _ _)
      refine List.IsPrefix.trans ?_ (resolve_extends _ _ _ _ _ _ _ _ _ _)
      simp [Enter, trace_emit]
    obtain ⟨pre, hpre0⟩ := hnext
    have hcount : n.2.count Event.isLaunchTool = w.count Event.isLaunchTool := by
      rw [hn, GetDatatypesToolNode_count _ _ _ _ _ _ fpNode_not_launchTool, hr,
        resolve_count _ _ _ _ _ _ _ _ _ _ _ fpResolve_not_launchTool]
      simp [Enter, count_emit, Event.isLaunchTool]
    refine ⟨pre ++ [Event.SetIoErr 0], res, diag, ?_, hd, ?_⟩
    · rw [key, hs, ← hpre0] at hevs
      simp only [List.append_assoc] at hevs
      have := List.append_cancel_left hevs
      rw [← this]
      simp
    · intro e he
      simp only [List.mem_append, List.mem_singleton] at he
      rcases he with he | rfl
      · exact none_of_count hpre0.symm hcount e he
      · rfl

/-! ## The loop of `main` over the paths -/

theorem items_world (h : Host) (a : Args) (files : List CStr) (acc : Int × Nat) (w : World) :
    (main.items h a files acc w).2 = lastWorld (itemCalls h a files w) w := by
  induction files generalizing acc w with
  | nil => rfl
  | cons f rest ih =>
    simp only [main.items, itemCalls, lastWorld]
    exact ih _ _

theorem items_count (h : Host) (a : Args) (files : List CStr) (acc : Int × Nat) (w : World) :
    (main.items h a files acc w).1.2 = acc.2 + files.length := by
  induction files generalizing acc w with
  | nil => rfl
  | cons f rest ih =>
    simp only [main.items, List.length_cons]
    rw [ih]
    omega

theorem items_ok (h : Host) (a : Args) (files : List CStr) (acc : Int × Nat) (w : World) :
    (main.items h a files acc w).1.1 = RETURN_OK ↔
      acc.1 = RETURN_OK ∧ ∀ c ∈ itemCalls h a files w, c.result = RETURN_OK := by
  induction files generalizing acc w with
  | nil => simp [main.items, itemCalls]
  | cons f rest ih =>
    simp only [main.items, itemCalls, List.mem_cons, forall_eq_or_imp]
    rw [ih]
    by_cases hr : (OpenItem h f a.forceTool a.forceBrowse a.forceEdit a.forceInfo a.forcePrint
        a.forceMail a.showAll w).1 = RETURN_OK
    · simp [hr]
    · have hne : RETURN_FAIL ≠ RETURN_OK := by decide
      simp [hr, hne]

theorem items_fail (h : Host) (a : Args) (files : List CStr) (acc : Int × Nat) (w : World) :
    (main.items h a files acc w).1.1 = acc.1 ∨
      (main.items h a files acc w).1.1 = RETURN_FAIL := by
  induction files generalizing acc w with
  | nil => exact Or.inl rfl
  | cons f rest ih =>
    simp only [main.items]
    rcases ih (if (OpenItem h f a.forceTool a.forceBrowse a.forceEdit a.forceInfo a.forcePrint
        a.forceMail a.showAll w).1 ≠ RETURN_OK then RETURN_FAIL else acc.1, acc.2 + 1)
      (OpenItem h f a.forceTool a.forceBrowse a.forceEdit a.forceInfo a.forcePrint
        a.forceMail a.showAll w).2 with h1 | h1
    · rw [h1]
      split_ifs
      · exact Or.inr rfl
      · exact Or.inl rfl
    · exact Or.inr h1

theorem itemCalls_names (h : Host) (a : Args) (files : List CStr) (w : World) :
    (itemCalls h a files w).map ItemCall.fileName = files := by
  induction files generalizing w with
  | nil => rfl
  | cons f rest ih => simp [itemCalls, ih]

theorem itemCalls_each (h : Host) (a : Args) (files : List CStr) (w : World) :
    ∀ c ∈ itemCalls h a files w,
      (c.result, c.after) = OpenItem h c.fileName a.forceTool a.forceBrowse a.forceEdit
        a.forceInfo a.forcePrint a.forceMail a.showAll c.before := by
  induction files generalizing w with
  | nil => simp [itemCalls]
  | cons f rest ih =>
    intro c hc
    simp only [itemCalls, List.mem_cons] at hc
    rcases hc with rfl | hc
    · rfl
    · exact ih _ c hc

theorem itemCalls_chain (h : Host) (a : Args) (files : List CStr) (w : World) :
    List.Chain (fun c1 c2 => c2.before = c1.after) ⟨[], w, 0, w⟩ (itemCalls h a files w) := by
  induction files generalizing w with
  | nil => exact List.Chain.nil
  | cons f rest ih =>
    simp only [itemCalls]
    refine List.Chain.cons rfl ?_
    have := ih (OpenItem h f a.forceTool a.forceBrowse a.forceEdit a.forceInfo a.forcePrint
        a.forceMail a.showAll w).2
    cases hrest : itemCalls h a rest (OpenItem h f a.forceTool a.forceBrowse a.forceEdit
        a.forceInfo a.forcePrint a.forceMail a.showAll w).2 with
    | nil => exact List.Chain.nil
    | cons c cs =>
      rw [hrest] at this
      cases this with
      | cons h1 h2 => exact List.Chain.cons h1 h2

theorem InitializeLibraries_extends (h : Host) (w : World) :
    w.trace <+: (InitializeLibraries h w).2.trace := by
  unfold InitializeLibraries
  simp only [OpenLibrary, SetIoErr, CloseLibrary]
  split_ifs <;> simp [trace_emit, List.append_assoc]

theorem InitializeLibraries_count (h : Host) (w : World) :
    (InitializeLibraries h w).2.count Event.isLock = w.count Event.isLock := by
  unfold InitializeLibraries
  simp only [OpenLibrary, SetIoErr, CloseLibrary]
  split_ifs <;> simp [count_emit, Event.isLock]

/-- Claim C13, as amended: for a non-empty list of paths returned by `ReadArgs`, when
`InitializeLibraries` returns true `main` makes the calls of `itemCalls`: one call of
`OpenItem` per path, in the order of the paths, the first on the world the library set-up
left and every other on the world the call before it left, whatever the earlier calls
returned; it then frees the arguments and cleans up; and its exit status is `RETURN_OK` iff
every call returned `RETURN_OK`, and `RETURN_FAIL`, which is not zero, otherwise.  When
`InitializeLibraries` returns false, `main` prints the fault text, frees the arguments and
exits with `RETURN_FAIL`, and no `Lock` call, so no call of `OpenItem`, is made. -/
theorem C13_one_call_per_path_and_exit_status (h : Host) (a : Args) (w : World)
    (hfiles : a.files ≠ []) :
    ∀ h1 w1 calls, h1 = (InitializeLibraries h (ReadArgs (some a) w).2).1.2 →
      w1 = (InitializeLibraries h (ReadArgs (some a) w).2).2 →
      calls = itemCalls h1 a a.files w1 →
      ((InitializeLibraries h (ReadArgs (some a) w).2).1.1 = true →
        calls.map ItemCall.fileName = a.files ∧
        (∀ c ∈ calls, (c.result, c.after) = OpenItem h1 c.fileName a.forceTool a.forceBrowse
          a.forceEdit a.forceInfo a.forcePrint a.forceMail a.showAll c.before) ∧
        List.Chain (fun c1 c2 => c2.before = c1.after) ⟨[], w1, 0, w1⟩ calls ∧
        (main h (.cli (some a)) w).2 = (Cleanup h1 (FreeArgs (lastWorld calls w1))).2 ∧
        ((main h (.cli (some a)) w).1 = RETURN_OK ↔ ∀ c ∈ calls, c.result = RETURN_OK) ∧
        ((∃ c ∈ calls, c.result ≠ RETURN_OK) →
          (main h (.cli (some a)) w).1 = RETURN_FAIL ∧ (main h (.cli (some a)) w).1 ≠ 0)) ∧
      ((InitializeLibraries h (ReadArgs (some a) w).2).1.1 = false →
        (main h (.cli (some a)) w).1 = RETURN_FAIL ∧ (main h (.cli (some a)) w).1 ≠ 0 ∧
        (main h (.cli (some a)) w).2 =
          FreeArgs (PrintFault (if IoErr h w1 ≠ 0 then IoErr h w1 else ERROR_OBJECT_NOT_FOUND)
            "Open" w1) ∧
        ∃ evs, (main h (.cli (some a)) w).2.trace = w.trace ++ evs ∧
          ∀ e ∈ evs, e.isLock = false) := by
  intro h1 w1 calls hh1 hw1 hcalls
  constructor
  · intro hinit
    have hcount := items_count h1 a a.files (RETURN_OK, 0) w1
    have hlen : 0 < a.files.length := List.length_pos.mpr hfiles
    have hmain : main h (.cli (some a)) w =
        ((main.items h1 a a.files (RETURN_OK, 0) w1).1.1,
          (Cleanup h1 (FreeArgs (main.items h1 a a.files (RETURN_OK, 0) w1).2)).2) := by
      simp only [main, hinit, ← hh1, ← hw1, Bool.not_true, Bool.false_eq_true, if_false]
      rw [if_neg (by rw [hcount]; simp only []; omega)]
    have hok := items_ok h1 a a.files (RETURN_OK, 0) w1
    rw [← hcalls] at hok
    refine ⟨?_, ?_, ?_, ?_, ?_, ?_⟩
    · rw [hcalls]
      exact itemCalls_names _ _ _ _
    · rw [hcalls]
      exact itemCalls_each _ _ _ _
    · rw [hcalls]
      exact itemCalls_chain _ _ _ _
    · rw [hmain, hcalls, items_world]
    · rw [hmain]
      simp only [hok, true_and]
    · rintro ⟨c, hc, hne⟩
      rw [hmain]
      simp only []
      rcases items_fail h1 a a.files (RETURN_OK, 0) w1 with h2 | h2
      · exact absurd (hok.mp h2).2 (fun hall => hne (hall c hc))
      · rw [h2]
        exact ⟨rfl, by decide⟩
  · intro hfail
    have hmain : main h (.cli (some a)) w =
        (RETURN_FAIL,
          FreeArgs (PrintFault (if IoErr h w1 ≠ 0 then IoErr h w1 else ERROR_OBJECT_NOT_FOUND)
            "Open" w1)) := by
      simp only [main, hfail, ← hw1, Bool.not_false, if_true]
    have hne : RETURN_FAIL ≠ (0 : Int) := by decide
    refine ⟨by rw [hmain], by rw [hmain]; exact hne, by rw [hmain], ?_⟩
    have hext : w.trace <+: (main h (.cli (some a)) w).2.trace := by
      rw [hmain, hw1]
      refine List.IsPrefix.trans ?_
        ((InitializeLibraries_extends h (ReadArgs (some a) w).2).trans ?_)
      · simp [ReadArgs, trace_emit]
      · simp [FreeArgs, PrintFault, trace_emit, List.append_assoc]
    have hc : (main h (.cli (some a)) w).2.count Event.isLock = w.count Event.isLock := by
      rw [hmain, hw1]
      simp only [FreeArgs, PrintFault, count_emit, InitializeLibraries_count, ReadArgs]
      simp [Event.isLock]
    obtain ⟨evs, hevs⟩ := hext
    exact ⟨evs, hevs.symm, none_of_count hevs.symm hc⟩

/-- Claim C13 fails as stated: for the command line `Open b.txt` on a host where
datatypes.library cannot be opened, `main` makes no `Lock` call, so no call of `OpenItem`,
for the one path, and exits with `RETURN_FAIL`, although no call of `OpenItem` returned
anything else than `RETURN_OK`; with the library present the call is made and the exit
status is `RETURN_OK`. -/
theorem C13_counterexample :
    oneFile.files = ["b.txt".toList] ∧
    (main noDataTypesHost (.cli (some oneFile)) World.start).1 = RETURN_FAIL ∧
    (main noDataTypesHost (.cli (some oneFile)) World.start).2.trace =
      [Event.ReadArgs true,
        Event.OpenLibrary "intuition.library".toList 39 true,
        Event.OpenLibrary "utility.library".toList 39 true,
        Event.OpenLibrary "workbench.library".toList 44 true,
        Event.OpenLibrary "datatypes.library".toList 45 false,
        Event.SetIoErr ERROR_OBJECT_NOT_FOUND,
        Event.CloseLibrary "workbench.library".toList,
        Event.CloseLibrary "utility.library".toList,
        Event.CloseLibrary "intuition.library".toList,
        Event.PrintFault ERROR_OBJECT_NOT_FOUND "Open",
        Event.FreeArgs] ∧
    (main noDataTypesHost (.cli (some oneFile)) World.start).2.trace.any Event.isLock = false ∧
    (main mixedHost (.cli (some oneFile)) World.start).1 = RETURN_OK ∧
    (main mixedHost (.cli (some oneFile)) World.start).2.trace.any Event.isLock = true := by
  decide

/-- Claim C13 witness: `Open a.txt b.txt c.txt` on a host where the libraries open and only
`b.txt` has a tool: the first call fails, the second succeeds, the third fails, and the exit
status is `RETURN_FAIL`. -/
theorem C13_witness :
    threeFiles.files ≠ [] ∧
    (InitializeLibraries mixedHost (ReadArgs (some threeFiles) World.start).2).1.1 = true ∧
    (itemCalls (InitializeLibraries mixedHost (ReadArgs (some threeFiles) World.start).2).1.2
      threeFiles threeFiles.files
      (InitializeLibraries mixedHost (ReadArgs (some threeFiles) World.start).2).2).map
        ItemCall.result = [RETURN_FAIL, RETURN_OK, RETURN_FAIL] ∧
    (main mixedHost (.cli (some threeFiles)) World.start).1 = RETURN_FAIL :=
  ⟨by decide, by decide, by decide,
    (((C13_one_call_per_path_and_exit_status mixedHost threeFiles World.start (by decide)
      _ _ _ rfl rfl rfl).1 (by decide)).2.2.2.2.2 ⟨_, List.mem_cons_self _ _, by decide⟩).1⟩

/-- Claim C11 witness: a data file whose icon names a tool.  The run takes the lock of the
file first and releases it last, and acquires and releases every lock equally often. -/
theorem C11_witness :
    (Lock iconHost "notes.txt".toList World.start).1 ≠ 0 ∧
    ∃ evs, (OpenItem iconHost "notes.txt".toList none false false false false false false
        World.start).2.trace = World.start.trace ++ evs ∧
      (∀ l, evs.countP (Event.acquires l) = evs.countP (Event.releases l)) ∧
      ∃ mid, evs = Event.Lock "notes.txt".toList (Lock iconHost "notes.txt".toList
        World.start).1 :: mid ++ [Event.UnLock (Lock iconHost "notes.txt".toList
          World.start).1] :=
  ⟨by decide,
    let ⟨evs, h1, h2, _, _, h5⟩ := C11_every_lock_released_exactly_once iconHost
      "notes.txt".toList none false false false false false false World.start
    ⟨evs, h1, h2, h5 (by decide)⟩⟩

/-- Claim C12 witness: scenario A.  The launch part asks for the node, gets the Browse node
of `edEntry`, calls `LaunchToolA` on it and ends by releasing `edEntry`. -/
theorem C12_witness :
    OpenDataFile.asksNode (OpenDataFile.resolve registryHost "notes.txt".toList 1 none false
      false false false false (Enter .OpenDataFile World.start)).1 = true ∧
    ∃ evs pre res diag, (OpenDataFile registryHost "notes.txt".toList 1 none false false false
        false false World.start).2.trace = World.start.trace ++ evs ∧
      (∀ d, evs.countP (Event.obtains d) = evs.countP (Event.drops d)) ∧
      evs = pre ++ Event.LaunchToolA (toolNode TW_BROWSE "Ed").tn_Tool "notes.txt".toList res ::
        diag ++ [Event.ReleaseDataType edEntry] :=
  ⟨by decide,
    let ⟨evs, h1, h2, _, _, _, _, _, h8⟩ := C12_registry_entry_released_exactly_once
      registryHost "notes.txt".toList 1 none false false false false false World.start
    let ⟨pre, res, diag, h9, _, _⟩ := h8 _ _ (toolNode TW_BROWSE "Ed") edEntry rfl rfl
      (by decide) (by decide) (by decide)
    ⟨evs, pre, res, diag, h1, h2, h9⟩⟩

/-! ## The purpose passed to the format registry -/

theorem preferredTool_eq_firstPurpose (fb fe fi fp fm : Bool) :
    OpenDataFile.preferredTool fb fe fi fp fm = firstPurpose fb fe fi fp fm := by
  cases fb <;> cases fe <;> cases fi <;> cases fp <;> cases fm <;> rfl

theorem resolve_preferredTool (h : Host) (fileName : CStr) (fileLock : Nat)
    (forceTool : Option CStr) (fb fe fi fp fm : Bool) (w : World)
    (hforce : nonEmpty forceTool = false) :
    (OpenDataFile.resolve h fileName fileLock forceTool fb fe fi fp fm w).1.preferredTool =
      OpenDataFile.preferredTool fb fe fi fp fm := by
  rw [resolve_eq h fileName fileLock forceTool fb fe fi fp fm w hforce]
  dsimp only
  split_ifs <;> rfl

theorem resolve_datatypesTool (h : Host) (fileName : CStr) (fileLock : Nat)
    (forceTool : Option CStr) (fb fe fi fp fm : Bool) (w : World)
    (hforce : nonEmpty forceTool = false) :
    (nonEmpty (OpenDataFile.defIconsStep h fileName fileLock w).1 = false →
      h.DataTypesBase = true →
      (OpenDataFile.resolve h fileName fileLock forceTool fb fe fi fp fm w).1.datatypesTool =
        (GetDatatypesTool h fileName fileLock (OpenDataFile.preferredTool fb fe fi fp fm)
          (OpenDataFile.defIconsStep h fileName fileLock w).2).1 ∧
      (GetDatatypesTool h fileName fileLock (OpenDataFile.preferredTool fb fe fi fp fm)
          (OpenDataFile.defIconsStep h fileName fileLock w).2).2.trace <+:
        (OpenDataFile.resolve h fileName fileLock forceTool fb fe fi fp fm w).2.trace) ∧
    (nonEmpty (OpenDataFile.defIconsStep h fileName fileLock w).1 = true ∨
        h.DataTypesBase = false →
      (OpenDataFile.resolve h fileName fileLock forceTool fb fe fi fp fm w).1.datatypesTool =
        none) := by
  rw [resolve_eq h fileName fileLock forceTool fb fe fi fp fm w hforce]
  constructor
  · intro hd hb
    rw [if_neg (by rw [hd]; simp)]
    dsimp only
    simp only [OpenDataFile.registryStep, hb, if_true]
    split_ifs
    · exact ⟨rfl, List.prefix_refl _⟩
    · exact ⟨rfl, GetIconDefaultTool_extends _ _ _ _⟩
  · intro hor
    rcases hor with hd | hb
    · rw [if_pos hd]
    · dsimp only
      simp only [OpenDataFile.registryStep, hb, Bool.false_eq_true, if_false]
      split_ifs <;> rfl

theorem launch_of_asksNode (h : Host) (fileName : CStr) (fileLock : Nat) (l : Locals)
    (w : World) (ha : OpenDataFile.asksNode l = true) :
    ∃ t, OpenDataFile.launch h fileName fileLock l w =
      match (GetDatatypesToolNode h fileName fileLock l.preferredTool w).1 with
      | (some tn, some dtn) =>
        OpenDataFile.launchByNode h fileName t tn dtn
          (GetDatatypesToolNode h fileName fileLock l.preferredTool w).2
      | _ =>
        OpenDataFile.launchByName h fileName t
          (GetDatatypesToolNode h fileName fileLock l.preferredTool w).2 := by
  unfold OpenDataFile.asksNode at ha
  unfold OpenDataFile.launch
  split at ha
  · rename_i o c cs heq
    simp only [Bool.not_eq_true', Bool.or_eq_false_iff] at ha
    rw [heq] at ha ⊢
    simp only [ha.1, ha.2, Bool.false_eq_true, or_self, if_false]
    exact ⟨_, rfl⟩
  · cases ha

/-- Claim C21: with no explicit tool, for every combination of the five flags the preferred
tool type of `OpenDataFile` is the first flag set in the order Browse, Edit, Info, Print,
Mail, and Browse when none is set; the name-only lookup `GetDatatypesTool`, which is made
iff the DefIcons step left no tool and datatypes.library is open, is called with that
value, and so is the pinned lookup `GetDatatypesToolNode` of the launch part. -/
theorem C21_purpose_passed_to_registry (h : Host) (fileName : CStr) (fileLock : Nat)
    (forceTool : Option CStr) (fb fe fi fp fm : Bool) (w : World)
    (hforce : nonEmpty forceTool = false) :
    ∀ r d purpose,
      r = OpenDataFile.resolve h fileName fileLock forceTool fb fe fi fp fm
        (Enter .OpenDataFile w) →
      d = OpenDataFile.defIconsStep h fileName fileLock (Enter .OpenDataFile w) →
      purpose = firstPurpose fb fe fi fp fm →
      ((fb = false ∧ fe = false ∧ fi = false ∧ fp = false ∧ fm = false →
          purpose = TW_BROWSE) ∧
        (fb = true → purpose = TW_BROWSE) ∧
        (fb = false → fe = true → purpose = TW_EDIT) ∧
        (fb = false → fe = false → fi = true → purpose = TW_INFO) ∧
        (fb = false → fe = false → fi = false → fp = true → purpose = TW_PRINT) ∧
        (fb = false → fe = false → fi = false → fp = false → fm = true →
          purpose = TW_MAIL)) ∧
      OpenDataFile.preferredTool fb fe fi fp fm = purpose ∧
      r.1.preferredTool = purpose ∧
      (nonEmpty d.1 = false → h.DataTypesBase = true →
        r.1.datatypesTool = (GetDatatypesTool h fileName fileLock purpose d.2).1 ∧
        (GetDatatypesTool h fileName fileLock purpose d.2).2.trace <+: r.2.trace) ∧
      (nonEmpty d.1 = true ∨ h.DataTypesBase = false → r.1.datatypesTool = none) ∧
      (fileLock ≠ 0 → OpenDataFile.asksNode r.1 = true →
        ∃ t, OpenDataFile h fileName fileLock forceTool fb fe fi fp fm w =
          match (GetDatatypesToolNode h fileName fileLock purpose r.2).1 with
          | (some tn, some dtn) =>
            OpenDataFile.launchByNode h fileName t tn dtn
              (GetDatatypesToolNode h fileName fileLock purpose r.2).2
          | _ =>
            OpenDataFile.launchByName h fileName t
              (GetDatatypesToolNode h fileName fileLock purpose r.2).2) := by
  intro r d purpose hr hd hp
  have hpref := preferredTool_eq_firstPurpose fb fe fi fp fm
  rw [← hp] at hpref
  have hrp : r.1.preferredTool = purpose := by
    rw [hr, resolve_preferredTool _ _ _ _ _ _ _ _ _ _ hforce, hpref]
  have hdt := resolve_datatypesTool h fileName fileLock forceTool fb fe fi fp fm
    (Enter .OpenDataFile w) hforce
  rw [← hr, ← hd, hpref] at hdt
  refine ⟨⟨?_, ?_, ?_, ?_, ?_, ?_⟩, hpref, hrp, hdt.1, hdt.2, ?_⟩
  · rintro ⟨rfl, rfl, rfl, rfl, rfl⟩
    rw [hp]; rfl
  · rintro rfl
    rw [hp]; rfl
  · rintro rfl rfl
    rw [hp]; rfl
  · rintro rfl rfl rfl
    rw [hp]; rfl
  · rintro rfl rfl rfl rfl
    rw [hp]; rfl
  · rintro rfl rfl rfl rfl rfl
    rw [hp]; rfl
  · intro hlock ha
    have key := OpenDataFile_eq h fileName fileLock forceTool fb fe fi fp fm w hlock
    rw [← hr] at key
    obtain ⟨t, ht⟩ := launch_of_asksNode h fileName fileLock r.1 r.2 ha
    rw [hrp] at ht
    exact ⟨t, key.trans ht⟩

/-- Claim C21 witness: the flags Edit and Print on a file whose registry entry has a Browse
and an Edit association.  The purpose is Edit, the name-only lookup returns `Ed`, and the
pinned lookup of the launch part returns the Edit node. -/
theorem C21_witness :
    nonEmpty (none : Option CStr) = false ∧
    (OpenDataFile.resolve twoToolHost "notes.txt".toList 1 none false true false true false
      (Enter .OpenDataFile World.start)).1.preferredTool = TW_EDIT ∧
    (OpenDataFile.resolve twoToolHost "notes.txt".toList 1 none false true false true false
      (Enter .OpenDataFile World.start)).1.datatypesTool = some "Ed".toList ∧
    (GetDatatypesToolNode twoToolHost "notes.txt".toList 1 TW_EDIT
      (OpenDataFile.resolve twoToolHost "notes.txt".toList 1 none false true false true false
        (Enter .OpenDataFile World.start)).2).1 =
      (some (toolNode TW_EDIT "Ed"), some twoToolEntry) :=
  ⟨rfl,
    ((C21_purpose_passed_to_registry twoToolHost "notes.txt".toList 1 none false true false
      true false World.start rfl _ _ _ rfl rfl rfl).2.2.1).trans (by decide),
    by decide, by decide⟩

/-! ## The result of `LaunchToolA` in a `BOOL` -/

/-- When `LaunchToolA` returns a non-zero `ULONG` whose low word is zero, the `BOOL` variable
`success` of `OpenDataFile` holds zero: the failure message is printed and `OpenDataFile`
returns false. -/
theorem launchByNode_low_word :
    OpenDataFile highWordHost "notes.txt".toList 1 none false false false false false
        World.start =
      (false,
        ⟨[Event.Enter Func.OpenDataFile,
          Event.FindPort "DEFICONS".toList false,
          Event.Enter Func.GetDatatypesTool,
          Event.ObtainDataTypeA 1 (some edEntry),
          Event.ReleaseDataType edEntry,
          Event.Enter Func.GetDatatypesToolNode,
          Event.ObtainDataTypeA 1 (some edEntry),
          Event.SetIoErr 0,
          Event.LaunchToolA ⟨TW_BROWSE, 0, some "Ed".toList⟩ "notes.txt".toList 65536,
          Event.Printf "Open: Failed to launch datatypes tool: %s\n" ["Ed".toList],
          Event.PrintFault 0 "Open",
          Event.ReleaseDataType edEntry], 0⟩) := by
  decide

end Open
